import Mathlib

/-!
# ShaderPlayGround: renderer backend, shallow embedding

The development embeds the parts of the repository that the specification
talks about: memory type selection (`BufferUtil::findMemoryType`), the frame
loop of `Renderer` (`renderLoop`, `recreate`, `cleanup`, `initialize`) and the
objects these functions build, the render pass description, the buffer
utilities with the staging upload, the resource creation helpers, and the
descriptor pool sizes and time uniforms of `Scene`.  Calls into the graphics
driver are recorded as a trace of `Action`s (of `DeviceCall`s for the buffer
utilities), so that ordering statements are statements about lists.
-/

namespace ShaderPlayGround

/-! ## Memory type selection (`Utilities/bufferUtility.h`) -/

/-- Number of entries of the `memoryTypes` array of the driver structure. -/
def VK_MAX_MEMORY_TYPES : Nat := 32

/-- Flag `VK_MEMORY_PROPERTY_DEVICE_LOCAL_BIT`. -/
def VK_MEMORY_PROPERTY_DEVICE_LOCAL_BIT : Nat := 0x1

/-- Flag `VK_MEMORY_PROPERTY_HOST_VISIBLE_BIT`. -/
def VK_MEMORY_PROPERTY_HOST_VISIBLE_BIT : Nat := 0x2

/-- Flag `VK_MEMORY_PROPERTY_HOST_COHERENT_BIT`. -/
def VK_MEMORY_PROPERTY_HOST_COHERENT_BIT : Nat := 0x4

/-- The memory-type table that `vkGetPhysicalDeviceMemoryProperties` fills in:
`memoryTypeCount` valid entries of an array of `VK_MAX_MEMORY_TYPES` entries;
`memoryTypes i` is `memoryTypes[i].propertyFlags`. -/
structure VkPhysicalDeviceMemoryProperties where
  memoryTypeCount : Nat
  memoryTypes : Nat → Nat
  count_le : memoryTypeCount ≤ VK_MAX_MEMORY_TYPES

/-- Errors raised by the embedded functions (`std::runtime_error` in the source). -/
inductive VulkanError where
  | noSuitableMemoryType
  | allocationFailed
  | runtimeError (what : String)
  deriving DecidableEq, Repr

/-- The test of the `if` inside the loop of `findMemoryType`:
`typeFilter & (1 << i) && (memoryTypes[i].propertyFlags & properties) == properties`.
The loop index stays below `memoryTypeCount`, hence below 32, so the shift and
the bitwise operations on 32-bit words are those on natural numbers. -/
def memoryTypeMatches (memProperties : VkPhysicalDeviceMemoryProperties)
    (typeFilter properties i : Nat) : Bool :=
  (typeFilter &&& (1 <<< i)) != 0
    && (memProperties.memoryTypes i &&& properties) == properties

/-- The `for (uint32_t i = 0; i < memoryTypeCount; i++)` loop of `findMemoryType`,
entered at index `i` with `remaining = memoryTypeCount - i` iterations left.
Falling out of the loop reaches the `throw`. -/
def findMemoryTypeLoop (memProperties : VkPhysicalDeviceMemoryProperties)
    (typeFilter properties : Nat) : Nat → Nat → Except VulkanError Nat
  | 0, _ => Except.error VulkanError.noSuitableMemoryType
  | remaining + 1, i =>
    if memoryTypeMatches memProperties typeFilter properties i then Except.ok i
    else findMemoryTypeLoop memProperties typeFilter properties remaining (i + 1)

/-- `BufferUtil::findMemoryType`; the physical device is represented by the
table that `vkGetPhysicalDeviceMemoryProperties` returns for it. -/
def findMemoryType (memProperties : VkPhysicalDeviceMemoryProperties)
    (typeFilter properties : Nat) : Except VulkanError Nat :=
  findMemoryTypeLoop memProperties typeFilter properties memProperties.memoryTypeCount 0

/-- The fields of `VkMemoryRequirements` that `vkGetBufferMemoryRequirements`
reports for a buffer. -/
structure VkMemoryRequirements where
  size : Nat
  alignment : Nat
  memoryTypeBits : Nat

/-- The `VkMemoryAllocateInfo` that `allocateMemory` fills in. -/
structure VkMemoryAllocateInfo where
  allocationSize : Nat
  memoryTypeIndex : Nat
  deriving DecidableEq, Repr

/-- `BufferUtil::allocateMemory`: the memory type is chosen by `findMemoryType`
from the type bits of the requirements (an error there propagates), then the
memory is allocated; `allocated` tells whether `vkAllocateMemory` reports
success.  The result is the allocation that was made. -/
def allocateMemory (memProperties : VkPhysicalDeviceMemoryProperties)
    (memRequirements : VkMemoryRequirements) (properties : Nat) (allocated : Bool) :
    Except VulkanError VkMemoryAllocateInfo :=
  match findMemoryType memProperties memRequirements.memoryTypeBits properties with
  | Except.error e => Except.error e
  | Except.ok memoryTypeIndex =>
    if allocated then
      Except.ok { allocationSize := memRequirements.size, memoryTypeIndex := memoryTypeIndex }
    else Except.error VulkanError.allocationFailed

/-- Bit `i` of the filter bitmask is set. -/
def filterBitSet (typeFilter i : Nat) : Prop := typeFilter.testBit i = true

/-- The flag word `flags` contains every flag of `required`. -/
def flagsSuperset (flags required : Nat) : Prop :=
  ∀ b, required.testBit b = true → flags.testBit b = true

/-- A memory type index that the specification calls suitable. -/
def suitableMemoryType (memProperties : VkPhysicalDeviceMemoryProperties)
    (typeFilter properties i : Nat) : Prop :=
  filterBitSet typeFilter i ∧ flagsSuperset (memProperties.memoryTypes i) properties

/-- A concrete device: type 0 host visible and coherent, type 1 host visible,
type 2 device local only. -/
def sampleMemoryProperties : VkPhysicalDeviceMemoryProperties where
  memoryTypeCount := 3
  memoryTypes := fun i => if i = 0 then 6 else if i = 1 then 2 else if i = 2 then 1 else 0
  count_le := by decide

/-! ## Objects of the frame loop

Driver objects are named by the member of the owning class that holds them
(and an index for members that are vectors), not by handle values. -/

/-- A two-dimensional extent. -/
structure VkExtent2D where
  width : Nat
  height : Nat
  deriving DecidableEq, Repr

/-- The fields of `VkSurfaceCapabilitiesKHR` read by `chooseSwapExtent`. -/
structure VkSurfaceCapabilitiesKHR where
  currentExtent : VkExtent2D
  minImageExtent : VkExtent2D
  maxImageExtent : VkExtent2D
  deriving DecidableEq, Repr

/-- The value `std::numeric_limits<uint32_t>::max()`. -/
def UINT32_MAX : Nat := 2 ^ 32 - 1

/-- Conversion `static_cast<uint32_t>` of an `int`. -/
def castToUint32 (x : Int) : Nat := (x % 2 ^ 32).toNat

/-- `SwapChainUtils::chooseSwapExtent`; `windowSize` is what `glfwGetWindowSize`
reports for the window. -/
def chooseSwapExtent (capabilities : VkSurfaceCapabilitiesKHR) (windowSize : Int × Int) :
    VkExtent2D :=
  if capabilities.currentExtent.width != UINT32_MAX then
    capabilities.currentExtent
  else
    let actualExtent : VkExtent2D :=
      { width := castToUint32 windowSize.1, height := castToUint32 windowSize.2 }
    { width := max capabilities.minImageExtent.width
        (min capabilities.maxImageExtent.width actualExtent.width)
      height := max capabilities.minImageExtent.height
        (min capabilities.maxImageExtent.height actualExtent.height) }

/-- The enumeration `QueueFlags` of `global.h`. -/
inductive QueueFlags where
  | Graphics
  | Compute
  | Transfer
  | Present
  deriving DecidableEq, Repr

/-- The two command pools of the renderer, `m_graphicsCommandPool` and
`m_computeCommandPool`. -/
inductive CommandPool where
  | graphics
  | compute
  deriving DecidableEq, Repr

/-- The frame buffer attachments owned by the renderer: `m_depthImage` and
`m_MSAAcolorImage`, each with its memory and its view. -/
inductive Attachment where
  | depth
  | msaaColor
  deriving DecidableEq, Repr

/-- The fence `m_framesInFlight[frame]`. -/
structure Fence where
  frame : Nat
  deriving DecidableEq, Repr

/-- The semaphores `m_imageAvailableSemaphores[frame]` and
`m_renderFinishedSemaphores[frame]`. -/
inductive Semaphore where
  | imageAvailable (frame : Nat)
  | renderFinished (frame : Nat)
  deriving DecidableEq, Repr

/-- The command buffer at position `index` of the vector of command buffers
allocated from `pool`. -/
structure CommandBufferRef where
  pool : CommandPool
  index : Nat
  deriving DecidableEq, Repr

/-- Pipeline stage `VK_PIPELINE_STAGE_COLOR_ATTACHMENT_OUTPUT_BIT`. -/
def VK_PIPELINE_STAGE_COLOR_ATTACHMENT_OUTPUT_BIT : Nat := 0x400

/-- The contents of the `VkSubmitInfo` handed to `vkQueueSubmit`: each array is
the `count` first entries behind the corresponding pointer. -/
structure VkSubmitInfo where
  commandBuffers : List CommandBufferRef
  waitSemaphores : List Semaphore
  waitDstStageMask : List Nat
  signalSemaphores : List Semaphore
  deriving DecidableEq, Repr

/-- Descriptor types used by the renderer. -/
inductive VkDescriptorType where
  | uniformBuffer
  | combinedImageSampler
  | storageImage
  deriving DecidableEq, Repr

/-- What a descriptor write points at: `m_model->getUniformBuffer(i)`,
`m_camera->getUniformBuffer(i)`, or the sampler and view of the model texture. -/
inductive BoundResource where
  | modelUniformBuffer (index : Nat)
  | cameraUniformBuffer (index : Nat)
  | textureSampler
  deriving DecidableEq, Repr

/-- One `VkWriteDescriptorSet` as built by `DescriptorUtil::writeDescriptorSet`. -/
structure VkWriteDescriptorSet where
  dstSet : Nat
  dstBinding : Nat
  descriptorCount : Nat
  descriptorType : VkDescriptorType
  resource : BoundResource
  deriving DecidableEq, Repr

/-- One `VkDescriptorSetLayoutBinding`: binding, type, count; `fragmentOnly` is
false for `VK_SHADER_STAGE_ALL` and true for `VK_SHADER_STAGE_FRAGMENT_BIT`. -/
structure VkDescriptorSetLayoutBinding where
  binding : Nat
  descriptorType : VkDescriptorType
  descriptorCount : Nat
  fragmentOnly : Bool
  deriving DecidableEq, Repr

/-- One `VkDescriptorPoolSize`. -/
structure VkDescriptorPoolSize where
  type : VkDescriptorType
  descriptorCount : Nat
  deriving DecidableEq, Repr

/-- A descriptor set of `m_DS_graphics`: the writes applied to it by
`vkUpdateDescriptorSets`. -/
structure DescriptorSet where
  writes : List VkWriteDescriptorSet
  deriving DecidableEq, Repr

/-- An image view a frame buffer can reference. -/
inductive ImageViewRef where
  | attachment (a : Attachment)
  | swapChain (index : Nat)
  deriving DecidableEq, Repr

/-- The `VkFramebufferCreateInfo` a frame buffer of `m_frameBuffers` was created from. -/
structure FrameBuffer where
  attachments : List ImageViewRef
  width : Nat
  height : Nat
  layers : Nat
  deriving DecidableEq, Repr

/-- Commands recorded into a command buffer by `recordGraphicsCommandBuffer`. -/
inductive Cmd where
  | beginRenderPass (frameBuffer : Nat) (renderArea : VkExtent2D) (clearValueCount : Nat)
  | bindPipeline
  | bindVertexBuffers (firstBinding bindingCount : Nat)
  | bindIndexBuffer
  | bindDescriptorSets (descriptorSet : Nat)
  | drawIndexed (indexCount instanceCount firstIndex vertexOffset firstInstance : Nat)
  | endRenderPass
  deriving DecidableEq, Repr

/-- A command buffer: the commands recorded into it since it was allocated. -/
structure CommandBuffer where
  commands : List Cmd
  deriving DecidableEq, Repr

/-- The shader modules of `createGraphicsPipeline`. -/
inductive ShaderModule where
  | vert
  | frag
  deriving DecidableEq, Repr

/-- The calls the renderer makes, in the form they are logged in: calls into the
driver and the window system carry the driver's name; calls of helpers whose
body lies outside the renderer carry the helper's name. -/
inductive Action where
  | vkWaitForFences (fence : Fence)
  | acquireNextSwapChainImage
  | cameraUpdateUniformBuffer (bufferIndex : Nat)
  | modelUpdateUniformBuffer (currentImageIndex : Nat)
  | vkResetFences (fence : Fence)
  | vkQueueSubmit (queue : QueueFlags) (submit : VkSubmitInfo) (fence : Fence)
  | presentImageToSwapChain
  | advanceCurrentFrameIndex
  | enterRecreate
  | glfwGetFramebufferSize
  | glfwWaitEvents
  | vkDeviceWaitIdle
  | vkDestroyImage (a : Attachment)
  | vkFreeMemory (a : Attachment)
  | vkDestroyImageView (a : Attachment)
  | vkDestroyFramebuffer (index : Nat)
  | vkFreeCommandBuffers (pool : CommandPool) (count : Nat)
  | vkDestroyPipeline
  | vkDestroyPipelineLayout
  | vkDestroyRenderPass
  | presentationCleanup
  | vkDestroyDescriptorSetLayout
  | vkDestroyDescriptorPool
  | presentationCreate
  | findDepthFormat
  | createRenderPass (attachmentCount : Nat)
  | createModel
  | createDescriptorPool (poolSizes : List VkDescriptorPoolSize)
  | createDescriptorSetLayout (bindings : List VkDescriptorSetLayoutBinding)
  | createDescriptorSets (index : Nat)
  | vkUpdateDescriptorSets (writes : List VkWriteDescriptorSet)
  | createImage (a : Attachment) (extent : VkExtent2D)
  | createImageView (a : Attachment)
  | transitionImageLayout (a : Attachment)
  | createPipelineLayout
  | createShaderModule (m : ShaderModule)
  | createGraphicsPipelines
  | vkDestroyShaderModule (m : ShaderModule)
  | vkCreateFramebuffer (index : Nat) (info : FrameBuffer)
  | createCommandPool (pool : CommandPool)
  | vkAllocateCommandBuffers (pool : CommandPool) (count : Nat)
  | vkBeginCommandBuffer (cmdBuffer : CommandBufferRef)
  | vkCmd (cmdBuffer : CommandBufferRef) (cmd : Cmd)
  | vkEndCommandBuffer (cmdBuffer : CommandBufferRef)
  deriving DecidableEq, Repr

/-- Modelled from the spec: the class `VulkanPresentation` behind
`m_presentationObject` has no source in the repository; its state follows the
swapchain state and the frame synchronisation set of the specification, and its
getters follow the declarations of `Vulkan/vulkanManager.h`.  `imageCount` is
`getCount()`, `imageIndex` is `getIndex()`, `framesInFlight` is the number of
frame synchronisation sets (the size of `m_framesInFlight`). -/
structure VulkanPresentation where
  imageCount : Nat
  extent : VkExtent2D
  imageFormat : Nat
  currentFrame : Nat
  imageIndex : Nat
  framesInFlight : Nat
  deriving DecidableEq, Repr

/-- The state of `Renderer` that the embedded functions read or write; `trace`
is the log of the calls made so far (it is not a member of the class). -/
structure Renderer where
  presentation : VulkanPresentation
  resizeFrameBuffer : Bool
  numIndices : Nat
  graphicsCommandBuffers : List CommandBuffer
  computeCommandBuffers : List CommandBuffer
  frameBuffers : List FrameBuffer
  DS_graphics : List DescriptorSet
  trace : List Action
  deriving DecidableEq, Repr

/-- How a call of a renderer function ends: it returns (`done`), it raises an
error because a checked driver call failed (`raised`), or it never returns
because the window stays minimised (`blocked`).  Each case carries the state
reached, log included. -/
inductive Outcome where
  | done (r : Renderer)
  | raised (r : Renderer)
  | blocked (r : Renderer)
  deriving DecidableEq, Repr

/-- Sequencing: the continuation runs only after a normal return. -/
def Outcome.andThen (o : Outcome) (f : Renderer → Outcome) : Outcome :=
  match o with
  | Outcome.done r => f r
  | Outcome.raised r => Outcome.raised r
  | Outcome.blocked r => Outcome.blocked r

/-- The state an outcome carries. -/
def Outcome.state : Outcome → Renderer
  | Outcome.done r => r
  | Outcome.raised r => r
  | Outcome.blocked r => r

/-- The answers of the driver: `driver a` tells whether the call `a` succeeds. -/
abbrev Driver := Action → Bool

/-- What the window system and the surface report during one teardown/rebuild:
the successive answers of `glfwGetFramebufferSize`, the surface capabilities and
window size seen when the swapchain is created, and the number and format of
the images the new swapchain gets. -/
structure WindowInput where
  framebufferSizes : List (Int × Int)
  capabilities : VkSurfaceCapabilitiesKHR
  windowSize : Int × Int
  imageCount : Nat
  imageFormat : Nat
  deriving DecidableEq, Repr

/-- What the environment reports during one iteration of the frame loop:
`acquire` is the flag returned by `acquireNextSwapChainImage` together with the
image index the presentation object holds afterwards, `present` is the flag
returned by `presentImageToSwapChain`, and the two window inputs are consumed by
the rebuild after a failed acquire and after a failed present. -/
structure FrameInput where
  acquire : Bool × Nat
  present : Bool
  rebuildAfterAcquire : WindowInput
  rebuildAfterPresent : WindowInput
  deriving DecidableEq, Repr

/-! ## Logging and loops -/

/-- Append a call to the log. -/
def emit (a : Action) (r : Renderer) : Renderer :=
  { r with trace := r.trace ++ [a] }

/-- A call whose failure the source turns into an error (an explicit `throw`,
or the result check macro): it is logged, and the function goes on only if the
driver reports success.  Modelled from the spec for the helpers and the check
macro whose bodies are not in the repository: a failed resource creation is
reported and terminates. -/
def call (driver : Driver) (a : Action) (r : Renderer) : Outcome :=
  if driver a then Outcome.done (emit a r) else Outcome.raised (emit a r)

/-- The loop `for (i = first; i < first + count; i++) body(i)` for a body that
may not return. -/
def forLoop (body : Nat → Renderer → Outcome) : Nat → Nat → Renderer → Outcome
  | 0, _, r => Outcome.done r
  | count + 1, first, r => (body first r).andThen (forLoop body count (first + 1))

/-- The loop `for (i = first; i < first + count; i++) body(i)` for a body that
always returns. -/
def forEach (body : Nat → Renderer → Renderer) : Nat → Nat → Renderer → Renderer
  | 0, _, r => r
  | count + 1, first, r => forEach body count (first + 1) (body first r)

/-- The effect of `std::vector::resize(n)`: keep the first `n` entries, fill up
with value-initialised entries. -/
def resize {α : Type} (v : List α) (n : Nat) (fill : α) : List α :=
  v.take n ++ List.replicate (n - v.length) fill

/-! ## The presentation object -/

/-- Getter `getInFlightFence`: `m_framesInFlight[m_currentFrame]`. -/
def VulkanPresentation.getInFlightFence (p : VulkanPresentation) : Fence :=
  { frame := p.currentFrame }

/-- Getter `getImageAvailableVkSemaphore`: `m_imageAvailableSemaphores[m_currentFrame]`. -/
def VulkanPresentation.getImageAvailableVkSemaphore (p : VulkanPresentation) : Semaphore :=
  Semaphore.imageAvailable p.currentFrame

/-- Getter `getRenderFinishedVkSemaphore`: `m_renderFinishedSemaphores[m_currentFrame]`. -/
def VulkanPresentation.getRenderFinishedVkSemaphore (p : VulkanPresentation) : Semaphore :=
  Semaphore.renderFinished p.currentFrame

/-- Getter `getIndex`. -/
def VulkanPresentation.getIndex (p : VulkanPresentation) : Nat := p.imageIndex

/-- Getter `getCount`. -/
def VulkanPresentation.getCount (p : VulkanPresentation) : Nat := p.imageCount

/-- Getter `getVkExtent`. -/
def VulkanPresentation.getVkExtent (p : VulkanPresentation) : VkExtent2D := p.extent

/-- Modelled from the spec: `acquireNextSwapChainImage` (declared in
`Vulkan/vulkanManager.h`, body not in the repository) returns a success flag
and leaves the acquired image index in the presentation object. -/
def acquireNextSwapChainImage (result : Bool × Nat) (r : Renderer) : Bool × Renderer :=
  (result.1, emit Action.acquireNextSwapChainImage
    { r with presentation := { r.presentation with imageIndex := result.2 } })

/-- Modelled from the spec: `presentImageToSwapChain` (body not in the
repository) hands the image back and returns a success flag. -/
def presentImageToSwapChain (result : Bool) (r : Renderer) : Bool × Renderer :=
  (result, emit Action.presentImageToSwapChain r)

/-- Modelled from the spec: `advanceCurrentFrameIndex` (body not in the
repository) increments the frame-in-flight index modulo the configured
in-flight count; a pure counter update. -/
def advanceCurrentFrameIndex (r : Renderer) : Renderer :=
  emit Action.advanceCurrentFrameIndex
    { r with presentation :=
        { r.presentation with
          currentFrame := (r.presentation.currentFrame + 1) % r.presentation.framesInFlight } }

/-- Modelled from the spec: `VulkanPresentation::create` (body not in the
repository) recreates the swapchain for the surface as it is now: the extent is
chosen by `chooseSwapExtent`, the image count and format are those of the new
chain; the frame synchronisation state is kept. -/
def presentationCreate (driver : Driver) (win : WindowInput) (r : Renderer) : Outcome :=
  call driver Action.presentationCreate
    { r with presentation :=
        { r.presentation with
          imageCount := win.imageCount
          extent := chooseSwapExtent win.capabilities win.windowSize
          imageFormat := win.imageFormat } }

/-! ## `VulkanCommandUtil` (`Vulkan/Utilities/vCommandUtil.h`) -/

/-- `VulkanCommandUtil::allocateCommandBuffers` on one of the renderer's vectors:
as many command buffers as the vector has entries are allocated into it. -/
def allocateCommandBuffers (driver : Driver) (pool : CommandPool) (r : Renderer) : Outcome :=
  match pool with
  | CommandPool.graphics =>
    call driver (Action.vkAllocateCommandBuffers pool r.graphicsCommandBuffers.length)
      { r with graphicsCommandBuffers := r.graphicsCommandBuffers.map fun _ => { commands := [] } }
  | CommandPool.compute =>
    call driver (Action.vkAllocateCommandBuffers pool r.computeCommandBuffers.length)
      { r with computeCommandBuffers := r.computeCommandBuffers.map fun _ => { commands := [] } }

/-- Store the command list of the command buffer a reference names. -/
def setCommands (cmdBuffer : CommandBufferRef) (commands : List Cmd) (r : Renderer) : Renderer :=
  match cmdBuffer.pool with
  | CommandPool.graphics =>
    { r with graphicsCommandBuffers :=
        r.graphicsCommandBuffers.set cmdBuffer.index { commands := commands } }
  | CommandPool.compute =>
    { r with computeCommandBuffers :=
        r.computeCommandBuffers.set cmdBuffer.index { commands := commands } }

/-- `VulkanCommandUtil::beginCommandBuffer`: beginning a command buffer resets it;
a failure is thrown. -/
def beginCommandBuffer (driver : Driver) (cmdBuffer : CommandBufferRef) (r : Renderer) :
    Outcome :=
  call driver (Action.vkBeginCommandBuffer cmdBuffer) (setCommands cmdBuffer [] r)

/-- `VulkanCommandUtil::endCommandBuffer`. -/
def endCommandBuffer (driver : Driver) (cmdBuffer : CommandBufferRef) (r : Renderer) :
    Outcome :=
  call driver (Action.vkEndCommandBuffer cmdBuffer) r

/-- `VulkanCommandUtil::submitToQueueSynced`: fills a `VkSubmitInfo` with the
counts and arrays it is given and submits it with the fence. -/
def submitToQueueSynced (driver : Driver) (queue : QueueFlags)
    (commandBufferCount : Nat) (pCommandBuffers : List CommandBufferRef)
    (waitSemaphoreCount : Nat) (pWaitSemaphores : List Semaphore)
    (pWaitDstStageMask : List Nat)
    (signalSemaphoreCount : Nat) (pSignalSemaphores : List Semaphore)
    (inFlightFence : Fence) (r : Renderer) : Outcome :=
  let submitInfo : VkSubmitInfo :=
    { commandBuffers := pCommandBuffers.take commandBufferCount
      waitSemaphores := pWaitSemaphores.take waitSemaphoreCount
      waitDstStageMask := pWaitDstStageMask.take waitSemaphoreCount
      signalSemaphores := pSignalSemaphores.take signalSemaphoreCount }
  call driver (Action.vkQueueSubmit queue submitInfo inFlightFence) r

/-! ## `Renderer` (`GraphicsPlayground/Renderer.cpp`) -/

/-- `Renderer::cleanup`.  The vectors keep their sizes: the source destroys the
objects and leaves the members as they are.  The vectors are sized by
`getCount()`, a 32-bit count, so the casts of their sizes to `uint32_t` are
left out. -/
def cleanup (r : Renderer) : Renderer :=
  let r := emit Action.vkDeviceWaitIdle r
  let r := emit (Action.vkDestroyImage Attachment.depth) r
  let r := emit (Action.vkFreeMemory Attachment.depth) r
  let r := emit (Action.vkDestroyImageView Attachment.depth) r
  let r := emit (Action.vkDestroyImage Attachment.msaaColor) r
  let r := emit (Action.vkFreeMemory Attachment.msaaColor) r
  let r := emit (Action.vkDestroyImageView Attachment.msaaColor) r
  let r := forEach (fun i r => emit (Action.vkDestroyFramebuffer i) r) r.frameBuffers.length 0 r
  let r := emit (Action.vkFreeCommandBuffers CommandPool.graphics r.graphicsCommandBuffers.length) r
  let r := emit (Action.vkFreeCommandBuffers CommandPool.compute r.computeCommandBuffers.length) r
  let r := emit Action.vkDestroyPipeline r
  let r := emit Action.vkDestroyPipelineLayout r
  let r := emit Action.vkDestroyRenderPass r
  let r := emit Action.presentationCleanup r
  let r := emit Action.vkDestroyDescriptorSetLayout r
  emit Action.vkDestroyDescriptorPool r

/-- The commands `Renderer::recordGraphicsCommandBuffer` records for frame `frameIndex`;
the frame buffer argument is `m_frameBuffers[frameIndex]`, `extent` is
`m_presentationObject->getVkExtent()` and `numIndices` is `m_model->getNumIndices()`. -/
def graphicsCommands (extent : VkExtent2D) (numIndices frameIndex : Nat) : List Cmd :=
  [ Cmd.beginRenderPass frameIndex extent 2,
    Cmd.bindPipeline,
    Cmd.bindVertexBuffers 0 1,
    Cmd.bindIndexBuffer,
    Cmd.bindDescriptorSets frameIndex,
    Cmd.drawIndexed numIndices 1 0 0 0,
    Cmd.endRenderPass ]

/-- `Renderer::recordGraphicsCommandBuffer`. -/
def recordGraphicsCommandBuffer (frameIndex : Nat) (r : Renderer) : Renderer :=
  let cmdBuffer : CommandBufferRef := { pool := CommandPool.graphics, index := frameIndex }
  let commands := graphicsCommands r.presentation.getVkExtent r.numIndices frameIndex
  let r := setCommands cmdBuffer commands r
  { r with trace := r.trace ++ commands.map (Action.vkCmd cmdBuffer) }

/-- `Renderer::recordComputeCommandBuffer`: the body is empty. -/
def recordComputeCommandBuffer (_frameIndex : Nat) (r : Renderer) : Renderer := r

/-- `Renderer::recordAllCommandBuffers`. -/
def recordAllCommandBuffers (driver : Driver) (r : Renderer) : Outcome :=
  (forLoop (fun i r =>
      (beginCommandBuffer driver { pool := CommandPool.graphics, index := i } r).andThen fun r =>
      endCommandBuffer driver { pool := CommandPool.graphics, index := i }
        (recordGraphicsCommandBuffer i r))
    r.graphicsCommandBuffers.length 0 r).andThen fun r =>
  forLoop (fun i r =>
      (beginCommandBuffer driver { pool := CommandPool.compute, index := i } r).andThen fun r =>
      endCommandBuffer driver { pool := CommandPool.compute, index := i }
        (recordComputeCommandBuffer i r))
    r.computeCommandBuffers.length 0 r

/-- `Renderer::createCommandPoolsAndBuffers`. -/
def createCommandPoolsAndBuffers (driver : Driver) (r : Renderer) : Outcome :=
  (call driver (Action.createCommandPool CommandPool.graphics) r).andThen fun r =>
  (call driver (Action.createCommandPool CommandPool.compute) r).andThen fun r =>
  let r := { r with
    graphicsCommandBuffers :=
      resize r.graphicsCommandBuffers r.presentation.getCount { commands := [] } }
  let r := { r with
    computeCommandBuffers :=
      resize r.computeCommandBuffers r.presentation.getCount { commands := [] } }
  (allocateCommandBuffers driver CommandPool.graphics r).andThen fun r =>
  allocateCommandBuffers driver CommandPool.compute r

/-- The `VkFramebufferCreateInfo` that `Renderer::createFrameBuffers` fills in for
swapchain image `i`; `extent` is `m_presentationObject->getVkExtent()`. -/
def framebufferInfo (extent : VkExtent2D) (i : Nat) : FrameBuffer :=
  { attachments :=
      [ ImageViewRef.attachment Attachment.msaaColor,
        ImageViewRef.attachment Attachment.depth,
        ImageViewRef.swapChain i ]
    width := extent.width
    height := extent.height
    layers := 1 }

/-- `Renderer::createFrameBuffers`. -/
def createFrameBuffers (driver : Driver) (r : Renderer) : Outcome :=
  let r := { r with
    frameBuffers := resize r.frameBuffers r.presentation.getCount
      { attachments := [], width := 0, height := 0, layers := 0 } }
  forLoop (fun i r =>
      call driver (Action.vkCreateFramebuffer i (framebufferInfo r.presentation.getVkExtent i))
        { r with
          frameBuffers := r.frameBuffers.set i (framebufferInfo r.presentation.getVkExtent i) })
    r.presentation.getCount 0 r

/-- `Renderer::createRenderPass`: three attachment descriptions (multisampled
color, depth, resolve) in one subpass. -/
def createRenderPass (driver : Driver) (r : Renderer) : Outcome :=
  (call driver Action.findDepthFormat r).andThen fun r =>
  call driver (Action.createRenderPass 3) r

/-- The three writes `Renderer::setupDescriptorSets` applies to descriptor set `i`. -/
def writeGraphicsSetInfo (i : Nat) : List VkWriteDescriptorSet :=
  [ { dstSet := i, dstBinding := 0, descriptorCount := 1,
      descriptorType := VkDescriptorType.uniformBuffer,
      resource := BoundResource.modelUniformBuffer i },
    { dstSet := i, dstBinding := 1, descriptorCount := 1,
      descriptorType := VkDescriptorType.uniformBuffer,
      resource := BoundResource.cameraUniformBuffer i },
    { dstSet := i, dstBinding := 2, descriptorCount := 1,
      descriptorType := VkDescriptorType.combinedImageSampler,
      resource := BoundResource.textureSampler } ]

/-- `Renderer::setupDescriptorSets`. -/
def setupDescriptorSets (driver : Driver) (r : Renderer) : Outcome :=
  let numSwapChainImages := r.presentation.getCount
  let poolSizes : List VkDescriptorPoolSize :=
    [ { type := VkDescriptorType.uniformBuffer, descriptorCount := numSwapChainImages },
      { type := VkDescriptorType.uniformBuffer, descriptorCount := numSwapChainImages },
      { type := VkDescriptorType.combinedImageSampler, descriptorCount := numSwapChainImages } ]
  (call driver (Action.createDescriptorPool poolSizes) r).andThen fun r =>
  let graphicsBindings : List VkDescriptorSetLayoutBinding :=
    [ { binding := 0, descriptorType := VkDescriptorType.uniformBuffer,
        descriptorCount := 1, fragmentOnly := false },
      { binding := 1, descriptorType := VkDescriptorType.uniformBuffer,
        descriptorCount := 1, fragmentOnly := false },
      { binding := 2, descriptorType := VkDescriptorType.combinedImageSampler,
        descriptorCount := 1, fragmentOnly := true } ]
  (call driver (Action.createDescriptorSetLayout graphicsBindings) r).andThen fun r =>
  let r := { r with DS_graphics := resize r.DS_graphics numSwapChainImages { writes := [] } }
  forLoop (fun i r =>
      (call driver (Action.createDescriptorSets i)
        { r with DS_graphics := r.DS_graphics.set i { writes := [] } }).andThen fun r =>
      Outcome.done (emit (Action.vkUpdateDescriptorSets (writeGraphicsSetInfo i))
        { r with DS_graphics := r.DS_graphics.set i { writes := writeGraphicsSetInfo i } }))
    numSwapChainImages 0 r

/-- `Renderer::createDepthResources`. -/
def createDepthResources (driver : Driver) (r : Renderer) : Outcome :=
  (call driver Action.findDepthFormat r).andThen fun r =>
  (call driver (Action.createImage Attachment.depth r.presentation.getVkExtent) r).andThen fun r =>
  (call driver (Action.createImageView Attachment.depth) r).andThen fun r =>
  call driver (Action.transitionImageLayout Attachment.depth) r

/-- `Renderer::setupMSAA`. -/
def setupMSAA (driver : Driver) (r : Renderer) : Outcome :=
  (call driver (Action.createImage Attachment.msaaColor r.presentation.getVkExtent) r).andThen
    fun r =>
  (call driver (Action.createImageView Attachment.msaaColor) r).andThen fun r =>
  call driver (Action.transitionImageLayout Attachment.msaaColor) r

/-- `Renderer::createGraphicsPipeline`: two shader modules are created, the
pipeline is built from them, and the modules are destroyed again. -/
def createGraphicsPipeline (driver : Driver) (r : Renderer) : Outcome :=
  (call driver (Action.createShaderModule ShaderModule.vert) r).andThen fun r =>
  (call driver (Action.createShaderModule ShaderModule.frag) r).andThen fun r =>
  (call driver Action.createGraphicsPipelines r).andThen fun r =>
  let r := emit (Action.vkDestroyShaderModule ShaderModule.vert) r
  Outcome.done (emit (Action.vkDestroyShaderModule ShaderModule.frag) r)

/-- `Renderer::createAllPipelines`. -/
def createAllPipelines (driver : Driver) (r : Renderer) : Outcome :=
  (call driver Action.createPipelineLayout r).andThen fun r =>
  createGraphicsPipeline driver r

/-- `Renderer::initialize` (the bare name is reserved in Lean). -/
def initializeRenderer (driver : Driver) (r : Renderer) : Outcome :=
  (createCommandPoolsAndBuffers driver r).andThen fun r =>
  (createRenderPass driver r).andThen fun r =>
  (call driver Action.createModel r).andThen fun r =>
  (setupDescriptorSets driver r).andThen fun r =>
  (setupMSAA driver r).andThen fun r =>
  (createDepthResources driver r).andThen fun r =>
  (createAllPipelines driver r).andThen fun r =>
  (createFrameBuffers driver r).andThen fun r =>
  recordAllCommandBuffers driver r

/-- The loop `while (width == 0 || height == 0)` of `Renderer::recreate`, which
starts with both at zero: each round asks the window for its frame buffer size
and waits for events.  The list holds the answers still to come; when it is
used up the window stays minimised and the loop never ends. -/
def waitForFramebufferSize : List (Int × Int) → Renderer → Outcome
  | [], r => Outcome.blocked r
  | size :: later, r =>
    let r := emit Action.glfwWaitEvents (emit Action.glfwGetFramebufferSize r)
    if size.1 == 0 || size.2 == 0 then waitForFramebufferSize later r
    else Outcome.done r

/-- `Renderer::recreate`.  The first log entry marks the invocation. -/
def recreate (driver : Driver) (win : WindowInput) (r : Renderer) : Outcome :=
  let r := emit Action.enterRecreate r
  let r := { r with resizeFrameBuffer := false }
  (waitForFramebufferSize win.framebufferSizes r).andThen fun r =>
  let r := cleanup r
  (presentationCreate driver win r).andThen fun r =>
  (createRenderPass driver r).andThen fun r =>
  (setupDescriptorSets driver r).andThen fun r =>
  (setupMSAA driver r).andThen fun r =>
  (createDepthResources driver r).andThen fun r =>
  (createAllPipelines driver r).andThen fun r =>
  (createFrameBuffers driver r).andThen fun r =>
  let r := { r with
    graphicsCommandBuffers :=
      resize r.graphicsCommandBuffers r.presentation.getCount { commands := [] } }
  let r := { r with
    computeCommandBuffers :=
      resize r.computeCommandBuffers r.presentation.getCount { commands := [] } }
  (allocateCommandBuffers driver CommandPool.graphics r).andThen fun r =>
  (allocateCommandBuffers driver CommandPool.compute r).andThen fun r =>
  (recordAllCommandBuffers driver r).andThen fun r =>
  Outcome.done { r with resizeFrameBuffer := false }

/-- `Renderer::renderLoop`: one iteration of the frame loop. -/
def renderLoop (driver : Driver) (input : FrameInput) (r : Renderer) : Outcome :=
  let inFlightFence := r.presentation.getInFlightFence
  let r := emit (Action.vkWaitForFences inFlightFence) r
  let acquired := acquireNextSwapChainImage input.acquire r
  let flag_recreateSwapChain := acquired.1
  (if !flag_recreateSwapChain then recreate driver input.rebuildAfterAcquire acquired.2
   else Outcome.done acquired.2).andThen fun r =>
  let r := emit (Action.cameraUpdateUniformBuffer r.presentation.getIndex) r
  let r := emit (Action.modelUpdateUniformBuffer r.presentation.getIndex) r
  let waitSemaphores := [r.presentation.getImageAvailableVkSemaphore]
  let waitStages := [VK_PIPELINE_STAGE_COLOR_ATTACHMENT_OUTPUT_BIT]
  let signalSemaphores := [r.presentation.getRenderFinishedVkSemaphore]
  let graphicsCommandBuffer : List CommandBufferRef :=
    [{ pool := CommandPool.graphics, index := r.presentation.getIndex }]
  let r := emit (Action.vkResetFences inFlightFence) r
  (submitToQueueSynced driver QueueFlags.Graphics 1 graphicsCommandBuffer 1 waitSemaphores
    waitStages 1 signalSemaphores inFlightFence r).andThen fun r =>
  let presented := presentImageToSwapChain input.present r
  let flag_recreateSwapChain := presented.1
  (if !flag_recreateSwapChain then recreate driver input.rebuildAfterPresent presented.2
   else Outcome.done presented.2).andThen fun r =>
  Outcome.done (advanceCurrentFrameIndex r)

/-! ## The render pass description (`Renderer::createRenderPass`) -/

/-- The values of `VkAttachmentLoadOp` the renderer uses. -/
inductive VkAttachmentLoadOp where
  | clear
  | dontCare
  deriving DecidableEq, Repr

/-- The values of `VkAttachmentStoreOp` the renderer uses. -/
inductive VkAttachmentStoreOp where
  | store
  | dontCare
  deriving DecidableEq, Repr

/-- The values of `VkImageLayout` the render pass description uses. -/
inductive VkImageLayout where
  | undefined
  | colorAttachmentOptimal
  | depthStencilAttachmentOptimal
  | presentSrcKHR
  deriving DecidableEq, Repr

/-- Sample count flag `VK_SAMPLE_COUNT_1_BIT`. -/
def VK_SAMPLE_COUNT_1_BIT : Nat := 0x1

/-- Special subpass index `VK_SUBPASS_EXTERNAL` (`~0U`). -/
def VK_SUBPASS_EXTERNAL : Nat := 2 ^ 32 - 1

/-- Access flag `VK_ACCESS_COLOR_ATTACHMENT_READ_BIT`. -/
def VK_ACCESS_COLOR_ATTACHMENT_READ_BIT : Nat := 0x80

/-- Access flag `VK_ACCESS_COLOR_ATTACHMENT_WRITE_BIT`. -/
def VK_ACCESS_COLOR_ATTACHMENT_WRITE_BIT : Nat := 0x100

/-- The driver structure `VkAttachmentDescription` (without `flags`); formats
and sample counts are the numeric values of the driver's enumerations. -/
structure VkAttachmentDescription where
  format : Nat
  samples : Nat
  loadOp : VkAttachmentLoadOp
  storeOp : VkAttachmentStoreOp
  stencilLoadOp : VkAttachmentLoadOp
  stencilStoreOp : VkAttachmentStoreOp
  initialLayout : VkImageLayout
  finalLayout : VkImageLayout
  deriving DecidableEq, Repr

/-- The driver structure `VkAttachmentReference`: an index into the attachment
list of the render pass and the layout the attachment has during the subpass. -/
structure VkAttachmentReference where
  attachment : Nat
  layout : VkImageLayout
  deriving DecidableEq, Repr

/-- The driver structure `VkSubpassDescription` for a graphics subpass.  A
counted array is the list of its entries; `pResolveAttachments` and
`pDepthStencilAttachment` may be null (`none`); entry `k` of the resolve array
belongs to entry `k` of the color array. -/
structure VkSubpassDescription where
  pInputAttachments : List VkAttachmentReference
  colorAttachmentCount : Nat
  pColorAttachments : List VkAttachmentReference
  pResolveAttachments : Option (List VkAttachmentReference)
  pDepthStencilAttachment : Option VkAttachmentReference
  pPreserveAttachments : List Nat
  deriving DecidableEq, Repr

/-- The driver structure `VkSubpassDependency` (without `dependencyFlags`). -/
structure VkSubpassDependency where
  srcSubpass : Nat
  dstSubpass : Nat
  srcStageMask : Nat
  srcAccessMask : Nat
  dstStageMask : Nat
  dstAccessMask : Nat
  deriving DecidableEq, Repr

/-- The arguments `Renderer::createRenderPass` hands to
`RenderPassUtil::createRenderPass`: the attachment array (its length is the
attachment count), the subpasses and the dependencies. -/
structure VkRenderPassCreateInfo where
  pAttachments : List VkAttachmentDescription
  pSubpasses : List VkSubpassDescription
  pDependencies : List VkSubpassDependency
  deriving DecidableEq, Repr

/-- Modelled from the spec: `RenderPassUtil::attachmentDescription` has no
source in the repository; it fills a `VkAttachmentDescription` with its eight
arguments, which the call sites pass in the order of the fields of the driver
structure (an attachment has a format, a sample count, load and store
operations and a layout transition). -/
def attachmentDescription (format samples : Nat)
    (loadOp : VkAttachmentLoadOp) (storeOp : VkAttachmentStoreOp)
    (stencilLoadOp : VkAttachmentLoadOp) (stencilStoreOp : VkAttachmentStoreOp)
    (initialLayout finalLayout : VkImageLayout) : VkAttachmentDescription :=
  { format := format, samples := samples, loadOp := loadOp, storeOp := storeOp,
    stencilLoadOp := stencilLoadOp, stencilStoreOp := stencilStoreOp,
    initialLayout := initialLayout, finalLayout := finalLayout }

/-- Modelled from the spec: `RenderPassUtil::attachmentReference` has no source
in the repository; it pairs the attachment index with the layout. -/
def attachmentReference (attachment : Nat) (layout : VkImageLayout) : VkAttachmentReference :=
  { attachment := attachment, layout := layout }

/-- Modelled from the spec: `RenderPassUtil::subpassDescription` has no source
in the repository; its arguments are, in the order of the driver structure, the
input attachments, the color attachments with their count, the resolve
attachments, the depth-stencil attachment and the preserved attachments (the
bind point of every call is the graphics one). -/
def subpassDescription (pInputAttachments : List VkAttachmentReference)
    (colorAttachmentCount : Nat) (pColorAttachments : List VkAttachmentReference)
    (pResolveAttachments : Option (List VkAttachmentReference))
    (pDepthStencilAttachment : Option VkAttachmentReference)
    (pPreserveAttachments : List Nat) : VkSubpassDescription :=
  { pInputAttachments := pInputAttachments, colorAttachmentCount := colorAttachmentCount,
    pColorAttachments := pColorAttachments, pResolveAttachments := pResolveAttachments,
    pDepthStencilAttachment := pDepthStencilAttachment,
    pPreserveAttachments := pPreserveAttachments }

/-- Modelled from the spec: `RenderPassUtil::subpassDependency` has no source in
the repository; it fills a `VkSubpassDependency` with its six arguments. -/
def subpassDependency (srcSubpass dstSubpass srcStageMask srcAccessMask
    dstStageMask dstAccessMask : Nat) : VkSubpassDependency :=
  { srcSubpass := srcSubpass, dstSubpass := dstSubpass, srcStageMask := srcStageMask,
    srcAccessMask := srcAccessMask, dstStageMask := dstStageMask,
    dstAccessMask := dstAccessMask }

/-- The local `colorAttachment` of `Renderer::createRenderPass`;
`swapChainImageFormat` is `m_presentationObject->getSwapChainImageFormat()` and
`msaaSamples` is `m_devices->getNumMSAASamples()`. -/
def colorAttachment (swapChainImageFormat msaaSamples : Nat) : VkAttachmentDescription :=
  attachmentDescription swapChainImageFormat msaaSamples
    VkAttachmentLoadOp.clear VkAttachmentStoreOp.store
    VkAttachmentLoadOp.dontCare VkAttachmentStoreOp.dontCare
    VkImageLayout.undefined VkImageLayout.colorAttachmentOptimal

/-- The local `depthAttachment` of `Renderer::createRenderPass`; `depthFormat`
is the result of `FormatUtil::findDepthFormat`. -/
def depthAttachment (depthFormat msaaSamples : Nat) : VkAttachmentDescription :=
  attachmentDescription depthFormat msaaSamples
    VkAttachmentLoadOp.clear VkAttachmentStoreOp.dontCare
    VkAttachmentLoadOp.dontCare VkAttachmentStoreOp.dontCare
    VkImageLayout.undefined VkImageLayout.depthStencilAttachmentOptimal

/-- The local `colorAttachmentResolve` of `Renderer::createRenderPass`. -/
def colorAttachmentResolve (swapChainImageFormat : Nat) : VkAttachmentDescription :=
  attachmentDescription swapChainImageFormat VK_SAMPLE_COUNT_1_BIT
    VkAttachmentLoadOp.dontCare VkAttachmentStoreOp.store
    VkAttachmentLoadOp.dontCare VkAttachmentStoreOp.store
    VkImageLayout.undefined VkImageLayout.presentSrcKHR

/-- The local `colorAttachmentRef` of `Renderer::createRenderPass`. -/
def colorAttachmentRef : VkAttachmentReference :=
  attachmentReference 0 VkImageLayout.colorAttachmentOptimal

/-- The local `depthAttachmentRef` of `Renderer::createRenderPass`. -/
def depthAttachmentRef : VkAttachmentReference :=
  attachmentReference 1 VkImageLayout.depthStencilAttachmentOptimal

/-- The local `colorAttachmentResolveRef` of `Renderer::createRenderPass`. -/
def colorAttachmentResolveRef : VkAttachmentReference :=
  attachmentReference 2 VkImageLayout.colorAttachmentOptimal

/-- The render pass description `Renderer::createRenderPass` builds: the array
`attachments`, the one subpass and the one dependency. -/
def renderPassCreateInfo (swapChainImageFormat depthFormat msaaSamples : Nat) :
    VkRenderPassCreateInfo :=
  { pAttachments :=
      [ colorAttachment swapChainImageFormat msaaSamples,
        depthAttachment depthFormat msaaSamples,
        colorAttachmentResolve swapChainImageFormat ]
    pSubpasses :=
      [ subpassDescription [] 1 [colorAttachmentRef] (some [colorAttachmentResolveRef])
          (some depthAttachmentRef) [] ]
    pDependencies :=
      [ subpassDependency VK_SUBPASS_EXTERNAL 0
          VK_PIPELINE_STAGE_COLOR_ATTACHMENT_OUTPUT_BIT 0
          VK_PIPELINE_STAGE_COLOR_ATTACHMENT_OUTPUT_BIT
          (VK_ACCESS_COLOR_ATTACHMENT_READ_BIT ||| VK_ACCESS_COLOR_ATTACHMENT_WRITE_BIT) ] }

/-- Every attachment reference of a subpass: input, color, resolve and
depth-stencil references. -/
def VkSubpassDescription.references (s : VkSubpassDescription) : List VkAttachmentReference :=
  s.pInputAttachments ++ s.pColorAttachments ++ (s.pResolveAttachments.getD [])
    ++ s.pDepthStencilAttachment.toList

/-- A final layout in which an image can be handed to the presentation engine. -/
def VkImageLayout.isPresentable : VkImageLayout → Bool
  | VkImageLayout.presentSrcKHR => true
  | _ => false

/-! ## The scene: descriptor pool sizes and per-image uniform data
(`MageFramework/Scene.cpp`, `MageFramework/SceneElements/model.cpp`) -/

/-- Conversion to `uint32_t`: the value modulo `2 ^ 32`. -/
def toUint32 (x : Nat) : Nat := x % 2 ^ 32

/-- The members of `Model` that `Model::addToDescriptorPoolSize` and
`Scene::getDescriptorSet` read; `m_DS_model` holds the handles of the descriptor
sets of the model, none before they are created. -/
structure Model where
  m_uboCount : Nat
  m_numSwapChainImages : Nat
  m_DS_model : List Nat := []
  deriving DecidableEq, Repr

/-- `Model::addToDescriptorPoolSize`: two `push_back`s.  The member
`descriptorCount` of `VkDescriptorPoolSize` is a `uint32_t`, so the products are
stored modulo `2 ^ 32`. -/
def Model.addToDescriptorPoolSize (model : Model) (poolSizes : List VkDescriptorPoolSize) :
    List VkDescriptorPoolSize :=
  let poolSizes := poolSizes ++
    [{ type := VkDescriptorType.uniformBuffer,
       descriptorCount := toUint32 (2 * model.m_uboCount * model.m_numSwapChainImages) }]
  poolSizes ++
    [{ type := VkDescriptorType.combinedImageSampler,
       descriptorCount := toUint32 (7 * model.m_uboCount * model.m_numSwapChainImages) }]

/-- Modelled from the spec: the structure `TimeUBO` is declared in `Scene.h`,
which is not in the repository; its fields are the ones `Scene.cpp` accesses:
the components `x` and `y` of `time`, the four components of each of the four
Halton vectors, and the frame counter.  `F` is the type of the `float` values. -/
structure TimeUBO (F : Type) where
  time_x : F
  time_y : F
  haltonSeq1 : F × F × F × F
  haltonSeq2 : F × F × F × F
  haltonSeq3 : F × F × F × F
  haltonSeq4 : F × F × F × F
  frameCount : Nat

/-- The members of `Scene` that the embedded functions read or write.
`m_modelMap` is listed in the iteration order of the map, `m_textureMap` lists
the keys of the textures in the order of their insertion.
A handle of `m_timeBuffers` or `m_timeBufferMemories` is the number of the
buffer or memory object it names (`none` is the null handle), a pointer of
`m_mappedDataTimeBuffers` is the number of the memory object whose mapping it
points at (`none` is the null pointer), and `mappedMemory k` is what the mapping
of memory object `k` holds (it is not a member of the class).  The descriptor
set layouts and descriptor sets are handles; they are null and empty before
`createDescriptors`. -/
structure Scene (F : Type) where
  m_numSwapChainImages : Nat
  m_timeBuffers : List (Option Nat)
  m_timeBufferMemories : List (Option Nat)
  m_timeUBOs : List (TimeUBO F)
  m_mappedDataTimeBuffers : List (Option Nat)
  m_modelMap : List (String × Model)
  m_textureMap : List String
  mappedMemory : Nat → Option (TimeUBO F)
  m_DSL_model : Nat := 0
  m_DSL_compute : Nat := 0
  m_DSL_time : Nat := 0
  m_DS_compute : List Nat := []
  m_DS_time : List Nat := []

/-- `Scene::expandDescriptorPool`: every model of `m_modelMap` adds its entries,
then the entry of the compute owner and the entry of the time owner are pushed. -/
def Scene.expandDescriptorPool {F : Type} (scene : Scene F)
    (poolSizes : List VkDescriptorPoolSize) : List VkDescriptorPoolSize :=
  let poolSizes := scene.m_modelMap.foldl
    (fun poolSizes model => model.2.addToDescriptorPoolSize poolSizes) poolSizes
  let poolSizes := poolSizes ++
    [{ type := VkDescriptorType.storageImage, descriptorCount := scene.m_numSwapChainImages }]
  poolSizes ++
    [{ type := VkDescriptorType.uniformBuffer, descriptorCount := scene.m_numSwapChainImages }]

/-- The member of `Camera` that sizes its descriptors (`MageFramework/camera.h`). -/
structure Camera where
  m_numSwapChainImages : Nat
  deriving DecidableEq, Repr

/-- Modelled from the spec: `Camera::expandDescriptorPool` is declared in
`MageFramework/camera.h` but its body is not in the repository; the camera owner
contributes one uniform-buffer descriptor per swapchain image (the class keeps
one camera uniform buffer for every image). -/
def Camera.expandDescriptorPool (camera : Camera) (poolSizes : List VkDescriptorPoolSize) :
    List VkDescriptorPoolSize :=
  poolSizes ++
    [{ type := VkDescriptorType.uniformBuffer, descriptorCount := camera.m_numSwapChainImages }]

/-- The copy `memcpy(dst, &ubo, sizeof(TimeUBO))` into the mapping `dst` points
at; a null pointer is outside the model and leaves the memory as it is. -/
def Scene.memcpyTimeUBO {F : Type} (dst : Option Nat) (ubo : TimeUBO F) (scene : Scene F) :
    Scene F :=
  match dst with
  | none => scene
  | some k => { scene with mappedMemory := fun j => if j = k then some ubo else scene.mappedMemory j }

/-- `Scene::initializeTimeUBO`: the memory of the time buffer is mapped (the
pointer of index `currentImageIndex` then points at that mapping), the block is
filled in and copied into the mapping.  `haltonSequenceAt` is
`TimerUtil::haltonSequenceAt`, whose source is not in the repository, `zero` is
`0.0f` and `add` the addition of `float`.  An index outside the vectors is
outside the model and leaves the scene as it is. -/
def Scene.initializeTimeUBO {F : Type} (zero : F) (add : F → F → F)
    (haltonSequenceAt : Nat → Nat → F) (currentImageIndex : Nat) (scene : Scene F) : Scene F :=
  match scene.m_timeUBOs[currentImageIndex]?, scene.m_timeBufferMemories[currentImageIndex]? with
  | some ubo, some memory =>
    let scene := { scene with
      m_mappedDataTimeBuffers := scene.m_mappedDataTimeBuffers.set currentImageIndex memory }
    let ubo := { ubo with time_x := zero }
    let ubo := { ubo with time_y := add ubo.time_y zero }
    let ubo := { ubo with
      haltonSeq1 := (haltonSequenceAt 1 3, haltonSequenceAt 2 3, haltonSequenceAt 3 3,
        haltonSequenceAt 4 3) }
    let ubo := { ubo with
      haltonSeq2 := (haltonSequenceAt 5 3, haltonSequenceAt 6 3, haltonSequenceAt 7 3,
        haltonSequenceAt 8 3) }
    let ubo := { ubo with
      haltonSeq3 := (haltonSequenceAt 9 3, haltonSequenceAt 10 3, haltonSequenceAt 11 3,
        haltonSequenceAt 12 3) }
    let ubo := { ubo with
      haltonSeq4 := (haltonSequenceAt 13 3, haltonSequenceAt 14 3, haltonSequenceAt 15 3,
        haltonSequenceAt 16 3) }
    let ubo := { ubo with frameCount := 0 }
    let scene := { scene with m_timeUBOs := scene.m_timeUBOs.set currentImageIndex ubo }
    Scene.memcpyTimeUBO (scene.m_mappedDataTimeBuffers[currentImageIndex]?.join) ubo scene
  | _, _ => scene

/-- `Scene::updateTimeUBO`; `deltaTime` is the value
`TimerUtil::getTimeElapsedSinceStart(m_prevtime)` returns and `add` the addition
of `float`.  An index outside the vectors is outside the model and leaves the
scene as it is. -/
def Scene.updateTimeUBO {F : Type} (add : F → F → F) (deltaTime : F)
    (currentImageIndex : Nat) (scene : Scene F) : Scene F :=
  match scene.m_timeUBOs[currentImageIndex]? with
  | some ubo =>
    let ubo := { ubo with time_x := deltaTime }
    let ubo := { ubo with time_y := add ubo.time_y ubo.time_x }
    let ubo := { ubo with frameCount := ubo.frameCount + 1 }
    let ubo := { ubo with frameCount := ubo.frameCount % 16 }
    let scene := { scene with m_timeUBOs := scene.m_timeUBOs.set currentImageIndex ubo }
    Scene.memcpyTimeUBO (scene.m_mappedDataTimeBuffers[currentImageIndex]?.join) ubo scene
  | none => scene

/-- Modelled from the spec: `BufferUtil::createUniformBuffers` of the framework
is not in the repository; for each of the `count` images it creates one buffer
with a memory object of its own (a host-mapped uniform buffer per image) and
stores the handles at the index of the image. -/
def Scene.createUniformBuffers {F : Type} (count : Nat) (scene : Scene F) : Scene F :=
  (List.range count).foldl
    (fun scene i => { scene with
      m_timeBuffers := scene.m_timeBuffers.set i (some i)
      m_timeBufferMemories := scene.m_timeBufferMemories.set i (some i) })
    scene

/-- `Scene::createScene`: the model is inserted under the key `house` and one
empty compute texture per swapchain image under the key `compute<i>`.  The
constructors of `Model` and `Texture` work outside the scene; `uboCount` is the
`m_uboCount` the model has after loading. -/
def Scene.createScene {F : Type} (uboCount : Nat) (scene : Scene F) : Scene F :=
  let model : Model :=
    { m_uboCount := uboCount, m_numSwapChainImages := scene.m_numSwapChainImages }
  let scene := { scene with m_modelMap := scene.m_modelMap ++ [("house", model)] }
  (List.range scene.m_numSwapChainImages).foldl
    (fun scene i => { scene with m_textureMap := scene.m_textureMap ++ ["compute" ++ toString i] })
    scene

/-- The constructor `Scene::Scene` (named `construct`, since inside its own
definition the name of the class would no longer denote the type), for a run in
which the collaborators it calls return: the four vectors are resized to the number of swapchain images,
the uniform buffers are created, every time block is initialised and the scene
is created.  `blank` is the value-initialised `TimeUBO` that `resize` fills in. -/
def Scene.construct {F : Type} (zero : F) (add : F → F → F) (haltonSequenceAt : Nat → Nat → F)
    (blank : TimeUBO F) (numSwapChainImages uboCount : Nat) : Scene F :=
  let scene : Scene F :=
    { m_numSwapChainImages := numSwapChainImages, m_timeBuffers := [],
      m_timeBufferMemories := [], m_timeUBOs := [], m_mappedDataTimeBuffers := [],
      m_modelMap := [], m_textureMap := [], mappedMemory := fun _ => none }
  let scene := { scene with
    m_timeBuffers := resize scene.m_timeBuffers scene.m_numSwapChainImages none }
  let scene := { scene with
    m_timeBufferMemories := resize scene.m_timeBufferMemories scene.m_numSwapChainImages none }
  let scene := { scene with
    m_timeUBOs := resize scene.m_timeUBOs scene.m_numSwapChainImages blank }
  let scene := { scene with
    m_mappedDataTimeBuffers :=
      resize scene.m_mappedDataTimeBuffers scene.m_numSwapChainImages none }
  let scene := Scene.createUniformBuffers scene.m_numSwapChainImages scene
  let scene := (List.range numSwapChainImages).foldl
    (fun scene i => Scene.initializeTimeUBO zero add haltonSequenceAt i scene) scene
  Scene.createScene uboCount scene

/-! ## Buffers and the staging upload (`GraphicsPlayground/Utilities/bufferUtility.h`) -/

/-- Usage flag `VK_BUFFER_USAGE_TRANSFER_SRC_BIT`. -/
def VK_BUFFER_USAGE_TRANSFER_SRC_BIT : Nat := 0x1

/-- Usage flag `VK_BUFFER_USAGE_TRANSFER_DST_BIT`. -/
def VK_BUFFER_USAGE_TRANSFER_DST_BIT : Nat := 0x2

/-- Usage flag `VK_BUFFER_USAGE_VERTEX_BUFFER_BIT`. -/
def VK_BUFFER_USAGE_VERTEX_BUFFER_BIT : Nat := 0x80

/-- Begin flag `VK_COMMAND_BUFFER_USAGE_ONE_TIME_SUBMIT_BIT`. -/
def VK_COMMAND_BUFFER_USAGE_ONE_TIME_SUBMIT_BIT : Nat := 0x1

/-- The driver enumeration `VkSharingMode`. -/
inductive VkSharingMode where
  | exclusive
  | concurrent
  deriving DecidableEq, Repr

/-- The fields of `VkBufferCreateInfo` that `bufferCreateInfo` sets. -/
structure VkBufferCreateInfo where
  size : Nat
  usage : Nat
  sharingMode : VkSharingMode
  deriving DecidableEq, Repr

/-- `BufferUtil::bufferCreateInfo`. -/
def bufferCreateInfo (size usage : Nat) (sharingMode : VkSharingMode) : VkBufferCreateInfo :=
  { size := size, usage := usage, sharingMode := sharingMode }

/-- The driver enumeration `VkCommandBufferLevel`. -/
inductive VkCommandBufferLevel where
  | primary
  | secondary
  deriving DecidableEq, Repr

/-- The driver calls of the buffer utilities.  An object is named by the
position, in the log, of the call that creates it. -/
inductive DeviceCall where
  | vkCreateBuffer (info : VkBufferCreateInfo)
  | vkGetBufferMemoryRequirements (buffer : Nat)
  | vkAllocateMemory (info : VkMemoryAllocateInfo)
  | vkBindBufferMemory (buffer memory offset : Nat)
  | vkMapMemory (memory offset size : Nat)
  | memcpy (memory size : Nat)
  | vkUnmapMemory (memory : Nat)
  | vkAllocateCommandBuffers (level : VkCommandBufferLevel) (count : Nat)
  | vkBeginCommandBuffer (cmdBuffer flags : Nat)
  | vkCmdCopyBuffer (cmdBuffer srcBuffer dstBuffer srcOffset dstOffset size : Nat)
  | vkEndCommandBuffer (cmdBuffer : Nat)
  | vkCreateFence
  | vkQueueSubmit (queue : QueueFlags) (commandBufferCount cmdBuffer fence : Nat)
  | vkWaitForFences (fence : Nat)
  | vkDestroyFence (fence : Nat)
  | vkQueueWaitIdle (queue : QueueFlags)
  | vkFreeCommandBuffers (cmdBuffer : Nat)
  | vkDestroyBuffer (buffer : Nat)
  | vkFreeMemory (memory : Nat)
  deriving DecidableEq, Repr

/-- The state of the logical device as far as buffers go: the live buffers, the
live memory objects with the allocation they were made with, the bindings
(buffer, memory, offset) the driver has established, and the log of the calls
made so far. -/
structure Device where
  buffers : List Nat
  memories : List (Nat × VkMemoryAllocateInfo)
  bindings : List (Nat × Nat × Nat)
  calls : List DeviceCall
  deriving DecidableEq, Repr

/-- The environment of the buffer utilities: `succeeds calls c` tells whether
the driver reports success for the call `c` made after the calls `calls`,
`memoryRequirements info` is what `vkGetBufferMemoryRequirements` reports for a
buffer created from `info`, and `memProperties` is the memory-type table of the
physical device. -/
structure DeviceDriver where
  succeeds : List DeviceCall → DeviceCall → Bool
  memoryRequirements : VkBufferCreateInfo → VkMemoryRequirements
  memProperties : VkPhysicalDeviceMemoryProperties

/-- How a call of a buffer utility ends: it returns a value (`done`) or it
raises an error (`raised`); both carry the state of the device reached. -/
inductive Result (α : Type) where
  | done (value : α) (device : Device)
  | raised (error : VulkanError) (device : Device)

/-- Sequencing: the continuation runs only after a normal return. -/
def Result.andThen {α β : Type} (result : Result α) (next : α → Device → Result β) : Result β :=
  match result with
  | Result.done value device => next value device
  | Result.raised error device => Result.raised error device

/-- The state of the device a result carries. -/
def Result.device {α : Type} : Result α → Device
  | Result.done _ device => device
  | Result.raised _ device => device

/-- Append a call to the log of the device. -/
def Device.log (c : DeviceCall) (device : Device) : Device :=
  { device with calls := device.calls ++ [c] }

/-- A driver call whose result the source checks: the call is logged, and a
result other than success raises `error`.  The value returned is the name of
the object the call creates, if it creates one. -/
def Device.checked (driver : DeviceDriver) (c : DeviceCall) (error : VulkanError)
    (device : Device) : Result Nat :=
  if driver.succeeds device.calls c then Result.done device.calls.length (device.log c)
  else Result.raised error (device.log c)

/-- `BufferUtil::allocateMemory` on the device: the requirements of the buffer
are queried, the memory type is chosen by `findMemoryType` (an error there
propagates), and the memory is allocated; a failed allocation raises.  `info` is
the create info of `buffer`; the value returned is the memory object. -/
def Device.allocateMemory (driver : DeviceDriver) (buffer : Nat) (info : VkBufferCreateInfo)
    (properties : Nat) (device : Device) : Result Nat :=
  let memRequirements := driver.memoryRequirements info
  let device := device.log (DeviceCall.vkGetBufferMemoryRequirements buffer)
  match findMemoryType driver.memProperties memRequirements.memoryTypeBits properties with
  | Except.error error => Result.raised error device
  | Except.ok memoryTypeIndex =>
    let allocInfo : VkMemoryAllocateInfo :=
      { allocationSize := memRequirements.size, memoryTypeIndex := memoryTypeIndex }
    (device.checked driver (DeviceCall.vkAllocateMemory allocInfo)
      VulkanError.allocationFailed).andThen fun bufferMemory device =>
    Result.done bufferMemory
      { device with memories := device.memories ++ [(bufferMemory, allocInfo)] }

/-- `BufferUtil::createBuffer`: the buffer is created (a failure raises), its
memory is allocated by `allocateMemory`, and the memory is bound to the buffer
at offset 0; the result of `vkBindBufferMemory` is not looked at, so the binding
exists if the driver reports success for it.  The value returned is the pair of
the handles written to `buffer` and `bufferMemory`. -/
def createBuffer (driver : DeviceDriver) (bufferSize allowedUsage : Nat)
    (sharingMode : VkSharingMode) (properties : Nat) (device : Device) : Result (Nat × Nat) :=
  let bufferCreationInfo := bufferCreateInfo bufferSize allowedUsage sharingMode
  (device.checked driver (DeviceCall.vkCreateBuffer bufferCreationInfo)
    (VulkanError.runtimeError "failed to create buffer!")).andThen fun buffer device =>
  let device := { device with buffers := device.buffers ++ [buffer] }
  (device.allocateMemory driver buffer bufferCreationInfo properties).andThen
    fun bufferMemory device =>
  let bound := driver.succeeds device.calls (DeviceCall.vkBindBufferMemory buffer bufferMemory 0)
  let device := device.log (DeviceCall.vkBindBufferMemory buffer bufferMemory 0)
  let device :=
    if bound then { device with bindings := device.bindings ++ [(buffer, bufferMemory, 0)] }
    else device
  Result.done (buffer, bufferMemory) device

/-- The error raised when a call wrapped in `VK_CHECK_RESULT` fails.  Modelled
from the spec: the macro is not defined in the repository; a failure of a
checked call is reported and terminates. -/
def checkResultFailed : VulkanError := VulkanError.runtimeError "VK_CHECK_RESULT"

/-- `VulkanCommandUtil::allocateCommandBuffers` (`Vulkan/Utilities/vCommandUtil.h`)
for `cmdBufferCount` command buffers of level `level`; the value returned names
the first one. -/
def Device.allocateCommandBuffers (driver : DeviceDriver) (cmdBufferCount : Nat)
    (level : VkCommandBufferLevel) (device : Device) : Result Nat :=
  device.checked driver (DeviceCall.vkAllocateCommandBuffers level cmdBufferCount)
    checkResultFailed

/-- `VulkanCommandUtil::copyCommandBuffer`: one copy region is recorded. -/
def Device.copyCommandBuffer (cmdBuffer srcBuffer dstBuffer srcOffset dstOffset size : Nat)
    (device : Device) : Device :=
  device.log (DeviceCall.vkCmdCopyBuffer cmdBuffer srcBuffer dstBuffer srcOffset dstOffset size)

/-- `VulkanCommandUtil::endCommandBuffer` (`Vulkan/Utilities/vCommandUtil.h`). -/
def Device.endCommandBuffer (driver : DeviceDriver) (cmdBuffer : Nat) (device : Device) :
    Result Nat :=
  device.checked driver (DeviceCall.vkEndCommandBuffer cmdBuffer) checkResultFailed

/-- `VulkanCommandUtil::submitToQueue`: a fence is created, the command buffer is
submitted with that fence (a failed submission raises), the fence is waited
for and destroyed, and the queue is waited for until it is idle.  The results
of the fence creation and of the two waits are not looked at. -/
def Device.submitToQueue (driver : DeviceDriver) (cmdBufferCount cmdBuffer : Nat)
    (queue : QueueFlags) (device : Device) : Result Nat :=
  let fence := device.calls.length
  let device := device.log DeviceCall.vkCreateFence
  (device.checked driver (DeviceCall.vkQueueSubmit queue cmdBufferCount cmdBuffer fence)
    checkResultFailed).andThen fun _ device =>
  let device := device.log (DeviceCall.vkWaitForFences fence)
  let device := device.log (DeviceCall.vkDestroyFence fence)
  let device := device.log (DeviceCall.vkQueueWaitIdle queue)
  Result.done fence device

/-- Modelled from the spec: `VulkanCommandUtil::beginCommandBufferSubmmitOnce`
of `Utilities/commandUtility.h` is not in the repository; it begins the command
buffer for a single submission, as `beginSingleTimeCommand` of
`Vulkan/Utilities/vCommandUtil.h` does after its allocation: the begin carries
the one-time-submit flag and a failure raises. -/
def Device.beginCommandBufferSubmmitOnce (driver : DeviceDriver) (cmdBuffer : Nat)
    (device : Device) : Result Nat :=
  device.checked driver
    (DeviceCall.vkBeginCommandBuffer cmdBuffer VK_COMMAND_BUFFER_USAGE_ONE_TIME_SUBMIT_BIT)
    (VulkanError.runtimeError "failed to begin recording command buffer!")

/-- Modelled from the spec: the overload
`VulkanUtil::submitToGraphicsQueue(queue, count, commandBuffer)` that
`BufferUtil::copyBuffer` calls is not in the repository (the overload of
`Utilities/vulkanInitializers.h` takes semaphores and a fence); the one-shot
transfer is submitted and waited for, which is what `submitToQueue` of
`Vulkan/Utilities/vCommandUtil.h` does. -/
def Device.submitToGraphicsQueue (driver : DeviceDriver) (queue : QueueFlags)
    (commandBufferCount commandBuffer : Nat) (device : Device) : Result Nat :=
  device.submitToQueue driver commandBufferCount commandBuffer queue

/-- `BufferUtil::copyBuffer`.  The helpers of `Utilities/commandUtility.h` it
calls are not in the repository; modelled from the spec, each is the helper of
`Vulkan/Utilities/vCommandUtil.h` that does the same: the allocation of one
primary command buffer, `beginCommandBufferSubmmitOnce`, `copyCommandBuffer` for
`VulkanCommandUtil::copyBuffer`, `endCommandBuffer`. -/
def copyBuffer (driver : DeviceDriver) (srcBuffer dstBuffer srcOffset dstOffset size : Nat)
    (device : Device) : Result Unit :=
  (device.allocateCommandBuffers driver 1 VkCommandBufferLevel.primary).andThen
    fun commandBuffer device =>
  (device.beginCommandBufferSubmmitOnce driver commandBuffer).andThen fun _ device =>
  let device := device.copyCommandBuffer commandBuffer srcBuffer dstBuffer srcOffset dstOffset size
  (device.endCommandBuffer driver commandBuffer).andThen fun _ device =>
  (device.submitToGraphicsQueue driver QueueFlags.Graphics 1 commandBuffer).andThen
    fun _ device =>
  Result.done () (device.log (DeviceCall.vkFreeCommandBuffers commandBuffer))

/-- The effect of `vkDestroyBuffer`: the buffer and its bindings are gone. -/
def Device.destroyBuffer (buffer : Nat) (device : Device) : Device :=
  { device.log (DeviceCall.vkDestroyBuffer buffer) with
    buffers := device.buffers.filter (fun b => b != buffer)
    bindings := device.bindings.filter (fun binding => binding.1 != buffer) }

/-- The effect of `vkFreeMemory`: the memory object is gone. -/
def Device.freeMemory (memory : Nat) (device : Device) : Device :=
  { device.log (DeviceCall.vkFreeMemory memory) with
    memories := device.memories.filter (fun m => m.1 != memory) }

/-- `BufferUtil::createVertexBuffer`: the staging buffer is created, mapped,
filled with `vertexBufferSize` bytes of the source data and unmapped; the
vertex buffer is created; the staging buffer is copied into it by `copyBuffer`;
the staging buffer is destroyed and its memory freed.  The value returned is
the pair of the handles written to `vertexBuffer` and `vertexBufferMemory`. -/
def createVertexBuffer (driver : DeviceDriver) (vertexBufferSize : Nat) (device : Device) :
    Result (Nat × Nat) :=
  (createBuffer driver vertexBufferSize VK_BUFFER_USAGE_TRANSFER_SRC_BIT
    VkSharingMode.exclusive
    (VK_MEMORY_PROPERTY_HOST_VISIBLE_BIT ||| VK_MEMORY_PROPERTY_HOST_COHERENT_BIT)
    device).andThen fun staging device =>
  let stagingBuffer := staging.1
  let stagingBufferMemory := staging.2
  let device := device.log (DeviceCall.vkMapMemory stagingBufferMemory 0 vertexBufferSize)
  let device := device.log (DeviceCall.memcpy stagingBufferMemory vertexBufferSize)
  let device := device.log (DeviceCall.vkUnmapMemory stagingBufferMemory)
  (createBuffer driver vertexBufferSize
    (VK_BUFFER_USAGE_TRANSFER_DST_BIT ||| VK_BUFFER_USAGE_VERTEX_BUFFER_BIT)
    VkSharingMode.exclusive VK_MEMORY_PROPERTY_DEVICE_LOCAL_BIT device).andThen
    fun vertex device =>
  (copyBuffer driver stagingBuffer vertex.1 0 0 vertexBufferSize device).andThen
    fun _ device =>
  let device := device.destroyBuffer stagingBuffer
  let device := device.freeMemory stagingBufferMemory
  Result.done vertex device

/-! ## Resource creation helpers (`Utilities/vulkanInitializers.h`,
`Vulkan/Utilities/vCommandUtil.h`) -/

/-- The driver result `VK_SUCCESS`; every other value of `VkResult` reports a
failure or an incomplete operation. -/
def VK_SUCCESS : Int := 0

/-- What a creating driver call leaves behind: the `VkResult` it returns and the
handle its output parameter holds afterwards. -/
structure Created where
  result : Int
  handle : Nat
  deriving DecidableEq, Repr

/-- `VulkanInitializers::createSwapChain`; `created` is the answer of
`vkCreateSwapchainKHR`.  The value is the handle the caller gets in `vkSwapChain`. -/
def createSwapChain (created : Created) : Except VulkanError Nat :=
  if created.result ≠ VK_SUCCESS then
    Except.error (VulkanError.runtimeError "Failed to create swap chain")
  else Except.ok created.handle

/-- `VulkanInitializers::createImageView`; `created` is the answer of
`vkCreateImageView`. -/
def createImageView (created : Created) : Except VulkanError Nat :=
  if created.result ≠ VK_SUCCESS then
    Except.error (VulkanError.runtimeError "Failed to create image views!")
  else Except.ok created.handle

/-- `VulkanInitializers::CreateDescriptorPool`; `created` is the answer of
`vkCreateDescriptorPool`. -/
def CreateDescriptorPool (created : Created) : Except VulkanError Nat :=
  if created.result ≠ VK_SUCCESS then
    Except.error (VulkanError.runtimeError "Failed to create descriptor pool")
  else Except.ok created.handle

/-- `VulkanInitializers::CreateDescriptorSetLayout`; `created` is the answer of
`vkCreateDescriptorSetLayout`. -/
def CreateDescriptorSetLayout (created : Created) : Except VulkanError Nat :=
  if created.result ≠ VK_SUCCESS then
    Except.error (VulkanError.runtimeError "failed to create descriptor set layout!")
  else Except.ok created.handle

/-- `VulkanInitializers::CreateDescriptorSet`; `created` is the answer of
`vkAllocateDescriptorSets`.  The result of the call is not looked at: the
function returns what the local `descriptorSet` holds. -/
def CreateDescriptorSet (created : Created) : Except VulkanError Nat :=
  Except.ok created.handle

/-- `VulkanCommandUtil::createCommandPool`; `created` is the answer of
`vkCreateCommandPool`. -/
def createCommandPool (created : Created) : Except VulkanError Nat :=
  if created.result ≠ VK_SUCCESS then
    Except.error (VulkanError.runtimeError "Failed to create command pool")
  else Except.ok created.handle

/-! ## Swapchain choices (`GraphicsPlayground/Utilities/swapChainUtility.h`) -/

/-- Format `VK_FORMAT_UNDEFINED`. -/
def VK_FORMAT_UNDEFINED : Nat := 0

/-- Format `VK_FORMAT_B8G8R8A8_UNORM`. -/
def VK_FORMAT_B8G8R8A8_UNORM : Nat := 44

/-- Color space `VK_COLOR_SPACE_SRGB_NONLINEAR_KHR`. -/
def VK_COLOR_SPACE_SRGB_NONLINEAR_KHR : Nat := 0

/-- The driver structure `VkSurfaceFormatKHR`; formats and color spaces are the
numeric values of the driver's enumerations. -/
structure VkSurfaceFormatKHR where
  format : Nat
  colorSpace : Nat
  deriving DecidableEq, Repr

/-- `SwapChainUtils::chooseSwapSurfaceFormat`.  The loop returns the first entry
with the ideal format and color space; the final `availableFormats[0]` reads
outside an empty vector, which the source leaves undefined (`none`). -/
def chooseSwapSurfaceFormat (availableFormats : List VkSurfaceFormatKHR) :
    Option VkSurfaceFormatKHR :=
  if availableFormats.length = 1
      ∧ availableFormats.head?.map (fun f => f.format) = some VK_FORMAT_UNDEFINED then
    some { format := VK_FORMAT_B8G8R8A8_UNORM, colorSpace := VK_COLOR_SPACE_SRGB_NONLINEAR_KHR }
  else
    match availableFormats.find? (fun availableFormat =>
      availableFormat.format == VK_FORMAT_B8G8R8A8_UNORM
        && availableFormat.colorSpace == VK_COLOR_SPACE_SRGB_NONLINEAR_KHR) with
    | some availableFormat => some availableFormat
    | none => availableFormats[0]?

/-- The presentation modes of the driver enumeration `VkPresentModeKHR`. -/
inductive VkPresentModeKHR where
  | immediate
  | mailbox
  | fifo
  | fifoRelaxed
  deriving DecidableEq, Repr

/-- The loop of `SwapChainUtils::chooseSwapPresentMode` over the modes still to
be visited, `bestMode` being the choice so far. -/
def chooseSwapPresentModeLoop : List VkPresentModeKHR → VkPresentModeKHR → VkPresentModeKHR
  | [], bestMode => bestMode
  | availablePresentMode :: later, bestMode =>
    if availablePresentMode = VkPresentModeKHR.mailbox then availablePresentMode
    else if availablePresentMode = VkPresentModeKHR.immediate then
      chooseSwapPresentModeLoop later availablePresentMode
    else chooseSwapPresentModeLoop later bestMode

/-- `SwapChainUtils::chooseSwapPresentMode`: the loop starts with FIFO as the
best mode. -/
def chooseSwapPresentMode (availablePresentModes : List VkPresentModeKHR) : VkPresentModeKHR :=
  chooseSwapPresentModeLoop availablePresentModes VkPresentModeKHR.fifo

/-! ## Format selection (`GraphicsPlayground/Utilities/generalUtility.h`) -/

/-- Tiling `VK_IMAGE_TILING_OPTIMAL`. -/
def VK_IMAGE_TILING_OPTIMAL : Nat := 0

/-- Tiling `VK_IMAGE_TILING_LINEAR`. -/
def VK_IMAGE_TILING_LINEAR : Nat := 1

/-- Format `VK_FORMAT_D32_SFLOAT`. -/
def VK_FORMAT_D32_SFLOAT : Nat := 126

/-- Format `VK_FORMAT_D24_UNORM_S8_UINT`. -/
def VK_FORMAT_D24_UNORM_S8_UINT : Nat := 129

/-- Format `VK_FORMAT_D32_SFLOAT_S8_UINT`. -/
def VK_FORMAT_D32_SFLOAT_S8_UINT : Nat := 130

/-- Feature flag `VK_FORMAT_FEATURE_DEPTH_STENCIL_ATTACHMENT_BIT`. -/
def VK_FORMAT_FEATURE_DEPTH_STENCIL_ATTACHMENT_BIT : Nat := 0x200

/-- The driver structure `VkFormatProperties`. -/
structure VkFormatProperties where
  linearTilingFeatures : Nat
  optimalTilingFeatures : Nat
  bufferFeatures : Nat
  deriving DecidableEq, Repr

/-- The test of the `if` in the loop of `findSupportedFormat`, for the
properties the driver reports for the format. -/
def formatQualifies (formatProperties : VkFormatProperties) (tiling features : Nat) : Bool :=
  (tiling == VK_IMAGE_TILING_LINEAR
      && (formatProperties.linearTilingFeatures &&& features) == features)
    || (tiling == VK_IMAGE_TILING_OPTIMAL
      && (formatProperties.optimalTilingFeatures &&& features) == features)

/-- `FormatUtil::findSupportedFormat`; the physical device is represented by
`properties`, the answer of `vkGetPhysicalDeviceFormatProperties` for each
format.  Falling out of the loop reaches the `throw`. -/
def findSupportedFormat (properties : Nat → VkFormatProperties) :
    List Nat → Nat → Nat → Except VulkanError Nat
  | [], _, _ => Except.error (VulkanError.runtimeError "failed to find supported format!")
  | format :: later, tiling, features =>
    if formatQualifies (properties format) tiling features then Except.ok format
    else findSupportedFormat properties later tiling features

/-- `FormatUtil::findDepthFormat`. -/
def findDepthFormat (properties : Nat → VkFormatProperties) : Except VulkanError Nat :=
  findSupportedFormat properties
    [VK_FORMAT_D32_SFLOAT, VK_FORMAT_D32_SFLOAT_S8_UINT, VK_FORMAT_D24_UNORM_S8_UINT]
    VK_IMAGE_TILING_OPTIMAL VK_FORMAT_FEATURE_DEPTH_STENCIL_ATTACHMENT_BIT

/-- `FormatUtil::hasStencilComponent`. -/
def hasStencilComponent (format : Nat) : Bool :=
  format == VK_FORMAT_D32_SFLOAT_S8_UINT || format == VK_FORMAT_D24_UNORM_S8_UINT

/-! ## Pipeline barriers (`Vulkan/Utilities/vCommandUtil.h`) -/

/-- The arguments of a recorded `vkCmdPipelineBarrier`, in the order of the
driver function: the masks and flags, then each barrier count with its array.
An array is the list of the barriers it holds. -/
structure VkCmdPipelineBarrier where
  srcStageMask : Nat
  dstStageMask : Nat
  dependencyFlags : Nat
  memoryBarrierCount : Nat
  pMemoryBarriers : List Nat
  bufferMemoryBarrierCount : Nat
  pBufferMemoryBarriers : List Nat
  imageMemoryBarrierCount : Nat
  pImageMemoryBarriers : List Nat
  deriving DecidableEq, Repr

/-- `VulkanCommandUtil::pipelineBarrier`: the command it records.  The source
passes `bufferMemoryBarrierCount` in the place of the memory-barrier count. -/
def pipelineBarrier (srcStageMask dstStageMask dependencyFlags : Nat)
    (memoryBarrierCount : Nat) (pMemoryBarriers : List Nat)
    (bufferMemoryBarrierCount : Nat) (pBufferMemoryBarriers : List Nat)
    (imageMemoryBarrierCount : Nat) (pImageMemoryBarriers : List Nat) : VkCmdPipelineBarrier :=
  { srcStageMask := srcStageMask
    dstStageMask := dstStageMask
    dependencyFlags := dependencyFlags
    memoryBarrierCount := bufferMemoryBarrierCount
    pMemoryBarriers := pMemoryBarriers
    bufferMemoryBarrierCount := bufferMemoryBarrierCount
    pBufferMemoryBarriers := pBufferMemoryBarriers
    imageMemoryBarrierCount := imageMemoryBarrierCount
    pImageMemoryBarriers := pImageMemoryBarriers }

/-! ## Queue tables (`GraphicsPlayground/global.h`, `Vulkan/vulkanManager.h`) -/

/-- The value of an enumerator of `QueueFlags`. -/
def QueueFlags.toNat : QueueFlags → Nat
  | QueueFlags.Graphics => 0
  | QueueFlags.Compute => 1
  | QueueFlags.Transfer => 2
  | QueueFlags.Present => 3

/-- The enumeration `QueueFlagBit` of `global.h`. -/
inductive QueueFlagBit where
  | GraphicsBit
  | ComputeBit
  | TransferBit
  | PresentBit
  deriving DecidableEq, Repr

/-- The value of an enumerator of `QueueFlagBit`, as the initialisers give it. -/
def QueueFlagBit.toNat : QueueFlagBit → Nat
  | QueueFlagBit.GraphicsBit => 1 <<< 0
  | QueueFlagBit.ComputeBit => 1 <<< 1
  | QueueFlagBit.TransferBit => 1 <<< 2
  | QueueFlagBit.PresentBit => 1 <<< 3

/-- The value `sizeof(QueueFlags)`, which `global.h` uses as the size of
`QueueFlagBits`, `QueueFamilyIndices` and `Queues`: the size in bytes of an
object of the enumeration type.  The enumeration has no fixed underlying type
and its values fit in an `int`; it is represented as a 4-byte integer. -/
def sizeofQueueFlags : Nat := 4

/-- `VulkanManager::getQueue`: `m_queues[flag]`; `none` stands for a read
outside the array. -/
def getQueue (m_queues : List Nat) (flag : QueueFlags) : Option Nat :=
  m_queues[flag.toNat]?

/-- `VulkanManager::getQueueIndex`: `m_queueFamilyIndices[flag]`; `none` stands
for a read outside the array. -/
def getQueueIndex (m_queueFamilyIndices : List Int) (flag : QueueFlags) : Option Nat :=
  m_queueFamilyIndices[flag.toNat]?.map castToUint32

/-! ## Descriptor routing of the scene -/

/-- Modelled from the spec: the enumeration `DSL_TYPE` is declared in a header
that is not in the repository; its enumerators are the tags of the descriptor
set layout group: the three `Scene.cpp` switches on and the four that belong to
other owners. -/
inductive DSL_TYPE where
  | MODEL
  | COMPUTE
  | TIME
  | CAMERA
  | RAYTRACE
  | POST_PROCESS_COMMON
  | POST_PROCESS_SPECIFIC
  deriving DecidableEq, Repr

/-- The element access `v[index]` of a `std::vector` with an `int` index: the
element at that position, and `none` for an index outside the vector, where
the access is undefined. -/
def vectorAt {α : Type} (v : List α) (index : Int) : Option α :=
  if 0 ≤ index then v[index.toNat]? else none

/-- `Scene::getModel`: the model stored under `key`; an error is raised when
`m_modelMap.find(key)` finds none. -/
def Scene.getModel {F : Type} (scene : Scene F) (key : String) : Except VulkanError Model :=
  match scene.m_modelMap.find? (fun entry => entry.1 == key) with
  | some found => Except.ok found.2
  | none => Except.error (VulkanError.runtimeError "failed to find the model specified")

/-- `Scene::getDescriptorSet`: a switch on the tag; the three tags of the scene
read the descriptor set at `index` of their owner, every other tag reaches the
`default` label, which raises. -/
def Scene.getDescriptorSet {F : Type} (scene : Scene F) (type : DSL_TYPE) (index : Int)
    (key : String) : Except VulkanError (Option Nat) :=
  match type with
  | DSL_TYPE.MODEL =>
    match scene.getModel key with
    | Except.ok model => Except.ok (vectorAt model.m_DS_model index)
    | Except.error error => Except.error error
  | DSL_TYPE.COMPUTE => Except.ok (vectorAt scene.m_DS_compute index)
  | DSL_TYPE.TIME => Except.ok (vectorAt scene.m_DS_time index)
  | _ =>
    Except.error
      (VulkanError.runtimeError "no such Descriptor Set Layout Type (DSL_TYPE) exists")

/-- `Scene::getDescriptorSetLayout`: a switch on the tag; the three tags of the
scene return their layout, every other tag reaches the `default` label, which
raises. -/
def Scene.getDescriptorSetLayout {F : Type} (scene : Scene F) (key : DSL_TYPE) :
    Except VulkanError Nat :=
  match key with
  | DSL_TYPE.MODEL => Except.ok scene.m_DSL_model
  | DSL_TYPE.COMPUTE => Except.ok scene.m_DSL_compute
  | DSL_TYPE.TIME => Except.ok scene.m_DSL_time
  | _ =>
    Except.error
      (VulkanError.runtimeError "no such Descriptor Set Layout Type (DSL_TYPE) exists")

/-! ## Creation of a command buffer -/

/-- `VulkanCommandUtil::createCommandBuffer` (`Vulkan/Utilities/vCommandUtil.h`):
one command buffer is allocated by `allocateCommandBuffers`, whose level
argument is the constant `VK_COMMAND_BUFFER_LEVEL_PRIMARY`; with `begin` set the
buffer is begun with `flags`, and a failure of the begin raises.  The value
returned is the command buffer. -/
def Device.createCommandBuffer (driver : DeviceDriver) (level : VkCommandBufferLevel)
    (begin : Bool) (flags : Nat) (device : Device) : Result Nat :=
  (device.allocateCommandBuffers driver 1 VkCommandBufferLevel.primary).andThen
    fun cmdBuffer device =>
  if begin then
    (device.checked driver (DeviceCall.vkBeginCommandBuffer cmdBuffer flags)
      (VulkanError.runtimeError "failed to begin recording command buffer!")).andThen
      fun _ device =>
    Result.done cmdBuffer device
  else Result.done cmdBuffer device

/-! ## Auxiliary definitions used to state the results -/

/-- The driver that accepts every call. -/
def accepting : Driver := fun _ => true

/-- The calls `Renderer::cleanup` makes, for given sizes of the frame buffer
vector and of the two command buffer vectors. -/
def cleanupActions (frameBufferCount graphicsCount computeCount : Nat) : List Action :=
  [ Action.vkDeviceWaitIdle,
    Action.vkDestroyImage Attachment.depth,
    Action.vkFreeMemory Attachment.depth,
    Action.vkDestroyImageView Attachment.depth,
    Action.vkDestroyImage Attachment.msaaColor,
    Action.vkFreeMemory Attachment.msaaColor,
    Action.vkDestroyImageView Attachment.msaaColor ]
  ++ (List.range frameBufferCount).map Action.vkDestroyFramebuffer
  ++ [ Action.vkFreeCommandBuffers CommandPool.graphics graphicsCount,
       Action.vkFreeCommandBuffers CommandPool.compute computeCount,
       Action.vkDestroyPipeline,
       Action.vkDestroyPipelineLayout,
       Action.vkDestroyRenderPass,
       Action.presentationCleanup,
       Action.vkDestroyDescriptorSetLayout,
       Action.vkDestroyDescriptorPool ]

/-- The calls one round of the descriptor set loop of `setupDescriptorSets` makes. -/
def descriptorSetActions (i : Nat) : List Action :=
  [Action.createDescriptorSets i, Action.vkUpdateDescriptorSets (writeGraphicsSetInfo i)]

/-- The calls `recordAllCommandBuffers` makes for graphics command buffer `i`. -/
def recordGraphicsActions (extent : VkExtent2D) (numIndices i : Nat) : List Action :=
  Action.vkBeginCommandBuffer { pool := CommandPool.graphics, index := i }
    :: (graphicsCommands extent numIndices i).map
        (Action.vkCmd { pool := CommandPool.graphics, index := i })
    ++ [Action.vkEndCommandBuffer { pool := CommandPool.graphics, index := i }]

/-- The calls `recordAllCommandBuffers` makes for compute command buffer `i`. -/
def recordComputeActions (i : Nat) : List Action :=
  [ Action.vkBeginCommandBuffer { pool := CommandPool.compute, index := i },
    Action.vkEndCommandBuffer { pool := CommandPool.compute, index := i } ]

/-- The calls `setupDescriptorSets` makes for `n` swapchain images. -/
def descriptorActions (n : Nat) : List Action :=
  [ Action.createDescriptorPool
      [ { type := VkDescriptorType.uniformBuffer, descriptorCount := n },
        { type := VkDescriptorType.uniformBuffer, descriptorCount := n },
        { type := VkDescriptorType.combinedImageSampler, descriptorCount := n } ],
    Action.createDescriptorSetLayout
      [ { binding := 0, descriptorType := VkDescriptorType.uniformBuffer,
          descriptorCount := 1, fragmentOnly := false },
        { binding := 1, descriptorType := VkDescriptorType.uniformBuffer,
          descriptorCount := 1, fragmentOnly := false },
        { binding := 2, descriptorType := VkDescriptorType.combinedImageSampler,
          descriptorCount := 1, fragmentOnly := true } ] ]
  ++ (List.range n).flatMap descriptorSetActions

/-- The calls `recordAllCommandBuffers` makes for `graphicsCount` graphics and
`computeCount` compute command buffers. -/
def recordActions (extent : VkExtent2D) (numIndices graphicsCount computeCount : Nat) :
    List Action :=
  (List.range graphicsCount).flatMap (recordGraphicsActions extent numIndices)
  ++ (List.range computeCount).flatMap recordComputeActions

/-- The calls the wait loop of `recreate` makes in `k` rounds. -/
def pollActions (k : Nat) : List Action :=
  (List.replicate k [Action.glfwGetFramebufferSize, Action.glfwWaitEvents]).flatten

/-- The number of rounds of the wait loop of `recreate`: up to and including the
first answer with both sizes non-zero. -/
def pollRounds : List (Int × Int) → Nat
  | [] => 0
  | size :: later => if size.1 == 0 || size.2 == 0 then pollRounds later + 1 else 1

/-- The window reports a frame buffer size with both components non-zero at
some point, so that the wait loop of `recreate` ends. -/
def reportsSize (sizes : List (Int × Int)) : Bool :=
  sizes.any fun size => !(size.1 == 0 || size.2 == 0)

/-- The calls that create the render pass, the descriptor sets, the two
attachments, the pipeline and the frame buffers, in the order `recreate` and
`initialize` make them, for `imageCount` swapchain images of size `extent`. -/
def buildActions (imageCount : Nat) (extent : VkExtent2D) : List Action :=
  [Action.findDepthFormat, Action.createRenderPass 3]
  ++ descriptorActions imageCount
  ++ [ Action.createImage Attachment.msaaColor extent,
       Action.createImageView Attachment.msaaColor,
       Action.transitionImageLayout Attachment.msaaColor,
       Action.findDepthFormat,
       Action.createImage Attachment.depth extent,
       Action.createImageView Attachment.depth,
       Action.transitionImageLayout Attachment.depth,
       Action.createPipelineLayout,
       Action.createShaderModule ShaderModule.vert,
       Action.createShaderModule ShaderModule.frag,
       Action.createGraphicsPipelines,
       Action.vkDestroyShaderModule ShaderModule.vert,
       Action.vkDestroyShaderModule ShaderModule.frag ]
  ++ (List.range imageCount).map
      (fun i => Action.vkCreateFramebuffer i (framebufferInfo extent i))

/-- The presentation object after `create`: new image count, extent and format. -/
def recreatedPresentation (win : WindowInput) (p : VulkanPresentation) : VulkanPresentation :=
  { p with
    imageCount := win.imageCount
    extent := chooseSwapExtent win.capabilities win.windowSize
    imageFormat := win.imageFormat }

/-- The calls of a `recreate` that returns, started in state `r`. -/
def recreateActions (win : WindowInput) (r : Renderer) : List Action :=
  Action.enterRecreate :: pollActions (pollRounds win.framebufferSizes)
  ++ cleanupActions r.frameBuffers.length r.graphicsCommandBuffers.length
      r.computeCommandBuffers.length
  ++ Action.presentationCreate
      :: buildActions win.imageCount (chooseSwapExtent win.capabilities win.windowSize)
  ++ [ Action.vkAllocateCommandBuffers CommandPool.graphics win.imageCount,
       Action.vkAllocateCommandBuffers CommandPool.compute win.imageCount ]
  ++ recordActions (chooseSwapExtent win.capabilities win.windowSize) r.numIndices
      win.imageCount win.imageCount

/-- The state in which a `recreate` that returns leaves the renderer. -/
def recreated (win : WindowInput) (r : Renderer) : Renderer :=
  { presentation := recreatedPresentation win r.presentation
    resizeFrameBuffer := false
    numIndices := r.numIndices
    graphicsCommandBuffers := (List.range win.imageCount).map fun i =>
      { commands :=
          graphicsCommands (chooseSwapExtent win.capabilities win.windowSize) r.numIndices i }
    computeCommandBuffers := (List.range win.imageCount).map fun _ => { commands := [] }
    frameBuffers := (List.range win.imageCount).map
      (framebufferInfo (chooseSwapExtent win.capabilities win.windowSize))
    DS_graphics := (List.range win.imageCount).map fun i => { writes := writeGraphicsSetInfo i }
    trace := r.trace ++ recreateActions win r }

/-- The calls of an `initialize` that returns, started in state `r`. -/
def initializeActions (r : Renderer) : List Action :=
  [ Action.createCommandPool CommandPool.graphics,
    Action.createCommandPool CommandPool.compute,
    Action.vkAllocateCommandBuffers CommandPool.graphics r.presentation.imageCount,
    Action.vkAllocateCommandBuffers CommandPool.compute r.presentation.imageCount,
    Action.findDepthFormat, Action.createRenderPass 3,
    Action.createModel ]
  ++ (buildActions r.presentation.imageCount r.presentation.extent).drop 2
  ++ recordActions r.presentation.extent r.numIndices
      r.presentation.imageCount r.presentation.imageCount

/-- The state in which an `initialize` that returns leaves the renderer. -/
def initialized (r : Renderer) : Renderer :=
  { r with
    graphicsCommandBuffers := (List.range r.presentation.imageCount).map fun i =>
      { commands := graphicsCommands r.presentation.extent r.numIndices i }
    computeCommandBuffers := (List.range r.presentation.imageCount).map fun _ =>
      { commands := [] }
    frameBuffers := (List.range r.presentation.imageCount).map
      (framebufferInfo r.presentation.extent)
    DS_graphics := (List.range r.presentation.imageCount).map fun i =>
      { writes := writeGraphicsSetInfo i }
    trace := r.trace ++ initializeActions r }

/-- The calls that belong to the teardown and rebuild of the swapchain
dependent objects, as opposed to the calls of the frame loop proper (fence
wait, acquire, uniform updates, fence reset, submission, present, frame
advance) and to the marker of an invocation of `recreate`. -/
def Action.isRebuildStep : Action → Bool
  | Action.vkWaitForFences _ => false
  | Action.acquireNextSwapChainImage => false
  | Action.cameraUpdateUniformBuffer _ => false
  | Action.modelUpdateUniformBuffer _ => false
  | Action.vkResetFences _ => false
  | Action.vkQueueSubmit _ _ _ => false
  | Action.presentImageToSwapChain => false
  | Action.advanceCurrentFrameIndex => false
  | Action.enterRecreate => false
  | Action.createModel => false
  | Action.createCommandPool _ => false
  | _ => true

/-- State `r'` is reached from state `r` by teardown/rebuild calls only, and
with the frame index, the in-flight count and the image index unchanged. -/
def Extends (r r' : Renderer) : Prop :=
  r'.presentation.currentFrame = r.presentation.currentFrame
    ∧ r'.presentation.framesInFlight = r.presentation.framesInFlight
    ∧ r'.presentation.imageIndex = r.presentation.imageIndex
    ∧ ∃ steps, r'.trace = r.trace ++ steps ∧ ∀ a ∈ steps, a.isRebuildStep = true

/-- The `VkSubmitInfo` of the submission of `renderLoop`, for frame index
`frame` and image index `imageIndex`. -/
def frameSubmitInfo (frame imageIndex : Nat) : VkSubmitInfo :=
  { commandBuffers := [{ pool := CommandPool.graphics, index := imageIndex }]
    waitSemaphores := [Semaphore.imageAvailable frame]
    waitDstStageMask := [VK_PIPELINE_STAGE_COLOR_ATTACHMENT_OUTPUT_BIT]
    signalSemaphores := [Semaphore.renderFinished frame] }

/-- The calls of the rebuild that follows a call reporting `flag`: none when the
flag is set, otherwise the marker of `recreate` followed by `steps`. -/
def rebuildCalls (flag : Bool) (steps : List Action) : List Action :=
  if flag then [] else Action.enterRecreate :: steps

/-- The calls of one complete iteration of `renderLoop` started with frame index
`frame`, in which the acquire reports `acquire` and the present reports
`present`, and in which the rebuilds (if any) make the calls `steps1` and
`steps2`. -/
def iterationCalls (frame : Nat) (acquire : Bool × Nat) (present : Bool)
    (steps1 steps2 : List Action) : List Action :=
  [Action.vkWaitForFences { frame := frame }, Action.acquireNextSwapChainImage]
  ++ rebuildCalls acquire.1 steps1
  ++ [ Action.cameraUpdateUniformBuffer acquire.2,
       Action.modelUpdateUniformBuffer acquire.2,
       Action.vkResetFences { frame := frame },
       Action.vkQueueSubmit QueueFlags.Graphics (frameSubmitInfo frame acquire.2)
         { frame := frame },
       Action.presentImageToSwapChain ]
  ++ rebuildCalls present steps2
  ++ [Action.advanceCurrentFrameIndex]

/-- The call is a queue submission. -/
def Action.isSubmit : Action → Bool
  | Action.vkQueueSubmit _ _ _ => true
  | _ => false

/-- In `calls`, every call satisfying `p` is made before every call satisfying `q`. -/
def Precedes (p q : Action → Bool) (calls : List Action) : Prop :=
  ∀ (i j : Nat) (a b : Action),
    calls[i]? = some a → calls[j]? = some b → p a = true → q b = true → i < j

/-- The call destroys or frees a driver object. -/
def Action.isDestroyOrFree : Action → Bool
  | Action.vkDestroyImage _ => true
  | Action.vkFreeMemory _ => true
  | Action.vkDestroyImageView _ => true
  | Action.vkDestroyFramebuffer _ => true
  | Action.vkFreeCommandBuffers _ _ => true
  | Action.vkDestroyPipeline => true
  | Action.vkDestroyPipelineLayout => true
  | Action.vkDestroyRenderPass => true
  | Action.presentationCleanup => true
  | Action.vkDestroyDescriptorSetLayout => true
  | Action.vkDestroyDescriptorPool => true
  | Action.vkDestroyShaderModule _ => true
  | _ => false

/-- The call destroys the image, the memory or the view of a frame buffer
attachment (depth or multisample color). -/
def Action.isAttachmentDestroy : Action → Bool
  | Action.vkDestroyImage _ => true
  | Action.vkFreeMemory _ => true
  | Action.vkDestroyImageView _ => true
  | _ => false

/-- The call destroys a frame buffer. -/
def Action.isDestroyFramebuffer : Action → Bool
  | Action.vkDestroyFramebuffer _ => true
  | _ => false

/-- The call frees command buffers. -/
def Action.isFreeCommandBuffers : Action → Bool
  | Action.vkFreeCommandBuffers _ _ => true
  | _ => false

/-- The call allocates command buffers. -/
def Action.isAllocateCommandBuffers : Action → Bool
  | Action.vkAllocateCommandBuffers _ _ => true
  | _ => false

/-- The call records into a command buffer (begin, a command, end). -/
def Action.isRecording : Action → Bool
  | Action.vkBeginCommandBuffer _ => true
  | Action.vkCmd _ _ => true
  | Action.vkEndCommandBuffer _ => true
  | _ => false

/-- The call belongs to steps 2 to 5 of the teardown: attachments, frame
buffers, command buffers, pipeline, pipeline layout, render pass. -/
def Action.isTeardownStep (a : Action) : Bool :=
  a.isAttachmentDestroy || a.isDestroyFramebuffer || a.isFreeCommandBuffers
    || a == Action.vkDestroyPipeline || a == Action.vkDestroyPipelineLayout
    || a == Action.vkDestroyRenderPass

/-- The position of a call in the teardown/rebuild cycle, used to compare calls. -/
def Action.phase : Action → Nat
  | Action.enterRecreate => 0
  | Action.glfwGetFramebufferSize => 0
  | Action.glfwWaitEvents => 0
  | Action.vkDeviceWaitIdle => 1
  | Action.vkDestroyImage _ => 2
  | Action.vkFreeMemory _ => 2
  | Action.vkDestroyImageView _ => 2
  | Action.vkDestroyFramebuffer _ => 3
  | Action.vkFreeCommandBuffers _ _ => 4
  | Action.vkDestroyPipeline => 5
  | Action.vkDestroyPipelineLayout => 6
  | Action.vkDestroyRenderPass => 7
  | Action.presentationCleanup => 8
  | Action.vkDestroyDescriptorSetLayout => 8
  | Action.vkDestroyDescriptorPool => 8
  | Action.presentationCreate => 9
  | Action.vkAllocateCommandBuffers _ _ => 11
  | Action.vkBeginCommandBuffer _ => 12
  | Action.vkCmd _ _ => 12
  | Action.vkEndCommandBuffer _ => 12
  | Action.vkWaitForFences _ => 13
  | Action.acquireNextSwapChainImage => 13
  | Action.cameraUpdateUniformBuffer _ => 13
  | Action.modelUpdateUniformBuffer _ => 13
  | Action.vkResetFences _ => 13
  | Action.vkQueueSubmit _ _ _ => 13
  | Action.presentImageToSwapChain => 13
  | Action.advanceCurrentFrameIndex => 13
  | Action.createModel => 13
  | Action.createCommandPool _ => 13
  | _ => 10

/-- The calls of `l` are in non-decreasing phase order, none beyond phase `c`. -/
def PhaseSortedUpTo (c : Nat) (l : List Action) : Prop :=
  l.Pairwise (fun a b => a.phase ≤ b.phase) ∧ ∀ a ∈ l, a.phase ≤ c

/-- The observable state of the renderer that the idempotence of the rebuild
talks about: swapchain image count and extent, the sizes of the frame buffer
vector and of the two command buffer vectors, and the descriptor sets with the
bindings written to them. -/
structure Observable where
  imageCount : Nat
  extent : VkExtent2D
  frameBufferCount : Nat
  graphicsCommandBufferCount : Nat
  computeCommandBufferCount : Nat
  descriptorSets : List DescriptorSet
  deriving DecidableEq, Repr

/-- The observable state of a renderer. -/
def observable (r : Renderer) : Observable :=
  { imageCount := r.presentation.getCount
    extent := r.presentation.getVkExtent
    frameBufferCount := r.frameBuffers.length
    graphicsCommandBufferCount := r.graphicsCommandBuffers.length
    computeCommandBufferCount := r.computeCommandBuffers.length
    descriptorSets := r.DS_graphics }

/-! ## The frame loop and the fences: a step relation -/

/-- The iteration returned. -/
def Outcome.isDone : Outcome → Bool
  | Outcome.done _ => true
  | _ => false

/-- Whether a call can return, given the fences of the submitted command buffers
that have not signalled yet: a fence wait returns only once its fence is not
pending, a wait for device idle only once nothing is pending. -/
def Action.enabled (inFlight : List Fence) : Action → Bool
  | Action.vkWaitForFences fence => !inFlight.contains fence
  | Action.vkDeviceWaitIdle => inFlight.isEmpty
  | _ => true

/-- The effect of a call on the list of in-flight command buffers: a submission
adds one entry, holding the fence of the submission, per submitted command
buffer. -/
def Action.gpuEffect (inFlight : List Fence) : Action → List Fence
  | Action.vkQueueSubmit _ submit fence => submit.commandBuffers.map (fun _ => fence) ++ inFlight
  | _ => inFlight

/-- The renderer together with the device: `pendingCalls` are the calls of the
current iteration that have not been made yet, `inFlight` holds the fence of
every submitted command buffer whose fence has not signalled, `running` tells
whether the last iteration returned. -/
structure FrameSystem where
  renderer : Renderer
  pendingCalls : List Action
  inFlight : List Fence
  running : Bool

/-- The system at the start of a new iteration of `renderLoop`, for the given
answers of the driver and the environment: the calls of the iteration become
pending. -/
def FrameSystem.startIteration (s : FrameSystem) (driver : Driver) (input : FrameInput) :
    FrameSystem :=
  { renderer := (renderLoop driver input { s.renderer with trace := [] }).state
    pendingCalls := (renderLoop driver input { s.renderer with trace := [] }).state.trace
    inFlight := s.inFlight
    running := (renderLoop driver input { s.renderer with trace := [] }).isDone }

/-- One step of the system: a fence signals (the command buffers it guards are
no longer in flight), the next pending call is made (if it can return), or a
new iteration of `renderLoop` starts (when the previous one has made all its
calls and returned). -/
inductive FrameSystem.Step : FrameSystem → FrameSystem → Prop where
  | signal (s : FrameSystem) (fence : Fence) :
      FrameSystem.Step s { s with inFlight := s.inFlight.filter (fun f => f != fence) }
  | exec (s : FrameSystem) (a : Action) (rest : List Action) :
      s.pendingCalls = a :: rest → a.enabled s.inFlight = true →
      FrameSystem.Step s
        { s with pendingCalls := rest, inFlight := a.gpuEffect s.inFlight }
  | iterate (s : FrameSystem) (driver : Driver) (input : FrameInput) :
      s.pendingCalls = [] → s.running = true →
      FrameSystem.Step s (s.startIteration driver input)

/-- The states the system reaches from the renderer `init` with nothing in flight. -/
inductive FrameSystem.Reachable (init : Renderer) : FrameSystem → Prop where
  | start :
      FrameSystem.Reachable init
        { renderer := init, pendingCalls := [], inFlight := [], running := true }
  | step {s s' : FrameSystem} :
      FrameSystem.Reachable init s → FrameSystem.Step s s' → FrameSystem.Reachable init s'

/-- The pending calls keep the in-flight list free of repetitions and within
`n` fences, however the fences signal in between: every submission is for at
most one command buffer and with a fence that an earlier pending wait has
cleared. -/
def SafeCalls (n : Nat) : List Fence → List Action → Prop
  | _, [] => True
  | inFlight, Action.vkWaitForFences fence :: rest =>
    SafeCalls n (inFlight.filter (fun f => f != fence)) rest
  | _, Action.vkDeviceWaitIdle :: rest => SafeCalls n [] rest
  | inFlight, Action.vkQueueSubmit _ submit fence :: rest =>
    submit.commandBuffers.length ≤ 1 ∧ fence ∉ inFlight ∧ fence.frame < n
      ∧ SafeCalls n (submit.commandBuffers.map (fun _ => fence) ++ inFlight) rest
  | inFlight, _ :: rest => SafeCalls n inFlight rest

/-- The call is a fence wait or a submission. -/
def Action.isSync : Action → Bool
  | Action.vkWaitForFences _ => true
  | Action.vkQueueSubmit _ _ _ => true
  | _ => false

/-- The invariant of the system for `n` frames in flight. -/
def FrameSystem.Inv (n : Nat) (s : FrameSystem) : Prop :=
  s.inFlight.Nodup ∧ (∀ f ∈ s.inFlight, f.frame < n)
    ∧ SafeCalls n s.inFlight s.pendingCalls
    ∧ (s.running = true → s.renderer.presentation.framesInFlight = n
        ∧ s.renderer.presentation.currentFrame < n)

/-- Make the next pending call of the system, if there is one. -/
def FrameSystem.execNext (s : FrameSystem) : FrameSystem :=
  match s.pendingCalls with
  | [] => s
  | a :: rest => { s with pendingCalls := rest, inFlight := a.gpuEffect s.inFlight }

/-- The next pending call of the system, if there is one, can return. -/
def FrameSystem.nextEnabled (s : FrameSystem) : Bool :=
  match s.pendingCalls with
  | [] => true
  | a :: _ => a.enabled s.inFlight

/-! ## Auxiliary definitions for the command buffers, the pool sizes and the scene -/

/-- The command buffer a recording call works on (begin, a command, end); none
for every other call. -/
def Action.recordsInto : Action → Option CommandBufferRef
  | Action.vkBeginCommandBuffer cmdBuffer => some cmdBuffer
  | Action.vkCmd cmdBuffer _ => some cmdBuffer
  | Action.vkEndCommandBuffer cmdBuffer => some cmdBuffer
  | _ => none

/-- The sum of the descriptor counts of the entries of type `type`. -/
def descriptorTotal (type : VkDescriptorType) (poolSizes : List VkDescriptorPoolSize) : Nat :=
  ((poolSizes.filter (fun entry => entry.type == type)).map
    (fun entry => entry.descriptorCount)).sum

/-- The pool sizes all owners contribute: the scene (models, compute, time) and
the camera expand an empty list in turn. -/
def ownersPoolSizes {F : Type} (scene : Scene F) (camera : Camera) : List VkDescriptorPoolSize :=
  camera.expandDescriptorPool (scene.expandDescriptorPool [])

/-- What the mapped time buffer of index `i` holds: the contents of the mapping
that `m_mappedDataTimeBuffers[i]` points at. -/
def Scene.mappedTimeBuffer {F : Type} (scene : Scene F) (i : Nat) : Option (TimeUBO F) :=
  (scene.m_mappedDataTimeBuffers[i]?).join.bind scene.mappedMemory

/-- The time block `Scene::updateTimeUBO` leaves in place of `ubo` when the
elapsed time is `deltaTime`. -/
def TimeUBO.updated {F : Type} (add : F → F → F) (deltaTime : F) (ubo : TimeUBO F) : TimeUBO F :=
  { ubo with
    time_x := deltaTime
    time_y := add ubo.time_y deltaTime
    frameCount := (ubo.frameCount + 1) % 16 }

/-- A scene with one model of ubo count 1, as the constructor leaves it for `n`
swapchain images, with time values in the integers. -/
def sampleScene (n : Nat) : Scene Int :=
  Scene.construct 0 (fun a b => a + b) (fun index base => (index : Int) * base)
    { time_x := 0, time_y := 0, haltonSeq1 := (0, 0, 0, 0), haltonSeq2 := (0, 0, 0, 0),
      haltonSeq3 := (0, 0, 0, 0), haltonSeq4 := (0, 0, 0, 0), frameCount := 0 } n 1

/-- The time vectors of a scene for `n` swapchain images have their size: each
of the four vectors has `n` entries. -/
structure Scene.TimeVectors {F : Type} (n : Nat) (scene : Scene F) : Prop where
  numSwapChainImages : scene.m_numSwapChainImages = n
  timeBuffers : scene.m_timeBuffers.length = n
  timeBufferMemories : scene.m_timeBufferMemories.length = n
  timeUBOs : scene.m_timeUBOs.length = n
  mappedDataTimeBuffers : scene.m_mappedDataTimeBuffers.length = n

/-- The time vectors of a scene for `n` swapchain images are in place: they
have their size, and for every index below `n` the buffer handle, the memory
handle and the mapped pointer of that index name the object of that index. -/
structure Scene.Constructed {F : Type} (n : Nat) (scene : Scene F) : Prop where
  vectors : Scene.TimeVectors n scene
  timeBuffer : ∀ j, j < n → scene.m_timeBuffers[j]? = some (some j)
  timeBufferMemory : ∀ j, j < n → scene.m_timeBufferMemories[j]? = some (some j)
  mappedData : ∀ j, j < n → scene.m_mappedDataTimeBuffers[j]? = some (some j)

/-- The feature set the driver reports for the requested tiling contains all
requested features, for a tiling that is linear or optimal. -/
def SupportsFeatures (formatProperties : VkFormatProperties) (tiling features : Nat) : Prop :=
  (tiling = VK_IMAGE_TILING_LINEAR
      ∧ flagsSuperset formatProperties.linearTilingFeatures features)
    ∨ (tiling = VK_IMAGE_TILING_OPTIMAL
      ∧ flagsSuperset formatProperties.optimalTilingFeatures features)

/-- The enumerator of `QueueFlagBit` that belongs to an enumerator of `QueueFlags`. -/
def QueueFlags.bit : QueueFlags → QueueFlagBit
  | QueueFlags.Graphics => QueueFlagBit.GraphicsBit
  | QueueFlags.Compute => QueueFlagBit.ComputeBit
  | QueueFlags.Transfer => QueueFlagBit.TransferBit
  | QueueFlags.Present => QueueFlagBit.PresentBit

/-- The surface format `chooseSwapSurfaceFormat` prefers:
(B8G8R8A8_UNORM, SRGB_NONLINEAR). -/
def preferredSurfaceFormat : VkSurfaceFormatKHR :=
  { format := VK_FORMAT_B8G8R8A8_UNORM, colorSpace := VK_COLOR_SPACE_SRGB_NONLINEAR_KHR }

/-- The first part of `Renderer::renderLoop`: the wait on the in-flight fence,
the acquire, and the rebuild that follows an acquire that reports a stale
swapchain.  The state it returns is the one in which `renderLoop` goes on to
read `m_graphicsCommandBuffers[m_presentationObject->getIndex()]`. -/
def renderLoopAcquire (driver : Driver) (input : FrameInput) (r : Renderer) : Outcome :=
  let inFlightFence := r.presentation.getInFlightFence
  let r := emit (Action.vkWaitForFences inFlightFence) r
  let acquired := acquireNextSwapChainImage input.acquire r
  let flag_recreateSwapChain := acquired.1
  if !flag_recreateSwapChain then recreate driver input.rebuildAfterAcquire acquired.2
  else Outcome.done acquired.2

/-- The rest of `Renderer::renderLoop`, from the uniform updates on;
`inFlightFence` is the fence read at the start of the iteration. -/
def renderLoopSubmit (driver : Driver) (input : FrameInput) (inFlightFence : Fence)
    (r : Renderer) : Outcome :=
  let r := emit (Action.cameraUpdateUniformBuffer r.presentation.getIndex) r
  let r := emit (Action.modelUpdateUniformBuffer r.presentation.getIndex) r
  let waitSemaphores := [r.presentation.getImageAvailableVkSemaphore]
  let waitStages := [VK_PIPELINE_STAGE_COLOR_ATTACHMENT_OUTPUT_BIT]
  let signalSemaphores := [r.presentation.getRenderFinishedVkSemaphore]
  let graphicsCommandBuffer : List CommandBufferRef :=
    [{ pool := CommandPool.graphics, index := r.presentation.getIndex }]
  let r := emit (Action.vkResetFences inFlightFence) r
  (submitToQueueSynced driver QueueFlags.Graphics 1 graphicsCommandBuffer 1 waitSemaphores
    waitStages 1 signalSemaphores inFlightFence r).andThen fun r =>
  let presented := presentImageToSwapChain input.present r
  let flag_recreateSwapChain := presented.1
  (if !flag_recreateSwapChain then recreate driver input.rebuildAfterPresent presented.2
   else Outcome.done presented.2).andThen fun r =>
  Outcome.done (advanceCurrentFrameIndex r)

/-- The elapsed times of the updates of index `i` among `updates`, in call
order; an update is the pair of the elapsed time and the index it is made for. -/
def elapsedTimesAt {F : Type} (i : Nat) (updates : List (F × Nat)) : List F :=
  (updates.filter (fun u => u.2 == i)).map (fun u => u.1)

/-! ## Concrete inputs -/

/-- A renderer before `initialize`: two swapchain images of 800 by 600, two
frames in flight, empty vectors. -/
def sampleInitial : Renderer :=
  { presentation :=
      { imageCount := 2, extent := { width := 800, height := 600 }, imageFormat := 44,
        currentFrame := 0, imageIndex := 0, framesInFlight := 2 }
    resizeFrameBuffer := false
    numIndices := 36
    graphicsCommandBuffers := []
    computeCommandBuffers := []
    frameBuffers := []
    DS_graphics := []
    trace := [] }

/-- The sample renderer after `initialize`, with an empty log. -/
def sampleRenderer : Renderer :=
  { (initializeRenderer accepting sampleInitial).state with trace := [] }

/-- A window that is minimised at the first poll and 640 by 480 afterwards, on a
surface that fixes the extent and gives three images. -/
def sampleWindow : WindowInput :=
  { framebufferSizes := [(0, 0), (640, 480)]
    capabilities :=
      { currentExtent := { width := 640, height := 480 }
        minImageExtent := { width := 1, height := 1 }
        maxImageExtent := { width := 4096, height := 4096 } }
    windowSize := (640, 480)
    imageCount := 3
    imageFormat := 44 }

/-- A window resized once more, to 1024 by 768. -/
def sampleWindowLater : WindowInput :=
  { framebufferSizes := [(1024, 768)]
    capabilities :=
      { currentExtent := { width := 1024, height := 768 }
        minImageExtent := { width := 1, height := 1 }
        maxImageExtent := { width := 4096, height := 4096 } }
    windowSize := (1024, 768)
    imageCount := 3
    imageFormat := 44 }

/-- An iteration in which acquire and present both succeed; image 1 is acquired. -/
def sampleFrameInput : FrameInput :=
  { acquire := (true, 1), present := true,
    rebuildAfterAcquire := sampleWindow, rebuildAfterPresent := sampleWindowLater }

/-- An iteration in which acquire and present both report a stale swapchain. -/
def sampleStaleInput : FrameInput :=
  { acquire := (false, 1), present := false,
    rebuildAfterAcquire := sampleWindow, rebuildAfterPresent := sampleWindowLater }

/-- The sample system right after the submission of its first iteration: the
sample renderer starts an iteration in which acquire and present succeed, and
makes the calls up to and including the submission. -/
def sampleSystemAfterSubmit : FrameSystem :=
  let s0 : FrameSystem :=
    { renderer := sampleRenderer, pendingCalls := [], inFlight := [], running := true }
  (s0.startIteration accepting sampleFrameInput).execNext.execNext.execNext.execNext.execNext.execNext

/-- A device on which nothing has been created and nothing called. -/
def sampleDevice : Device :=
  { buffers := [], memories := [], bindings := [], calls := [] }

/-- The call is a memory allocation. -/
def DeviceCall.isAllocateMemory : DeviceCall → Bool
  | DeviceCall.vkAllocateMemory _ => true
  | _ => false

/-- The call binds memory to a buffer. -/
def DeviceCall.isBindBufferMemory : DeviceCall → Bool
  | DeviceCall.vkBindBufferMemory _ _ _ => true
  | _ => false

/-- A driver on the sample memory types that reports a failure exactly for the
calls `fails` selects; every buffer may use each of the three memory types and
needs as many bytes as it holds. -/
def sampleDeviceDriver (fails : DeviceCall → Bool) : DeviceDriver :=
  { succeeds := fun _ c => !fails c
    memoryRequirements := fun info => { size := info.size, alignment := 16, memoryTypeBits := 7 }
    memProperties := sampleMemoryProperties }

/-- A scene for two swapchain images that holds one model, `house`, with the
descriptor sets 7 and 8, the compute descriptor sets 3 and 4, the time
descriptor sets 5 and 6, and the layouts 10, 11 and 12. -/
def sampleRoutedScene : Scene Int :=
  { sampleScene 2 with
    m_modelMap := [("house", { m_uboCount := 1, m_numSwapChainImages := 2, m_DS_model := [7, 8] })]
    m_DSL_model := 10
    m_DSL_compute := 11
    m_DSL_time := 12
    m_DS_compute := [3, 4]
    m_DS_time := [5, 6] }

/-! ### Correctness of the selection -/

theorem and_one_shiftLeft_ne_zero_iff (x i : Nat) :
    x &&& (1 <<< i) ≠ 0 ↔ x.testBit i = true := by
  rw [Nat.one_shiftLeft]
  constructor
  · intro h
    obtain ⟨j, hj⟩ := Nat.ne_zero_implies_bit_true h
    rw [Nat.testBit_and, Nat.testBit_two_pow] at hj
    simp only [Bool.and_eq_true, decide_eq_true_eq] at hj
    rw [hj.2]
    exact hj.1
  · intro h h0
    have hb : (x &&& 2 ^ i).testBit i = true := by
      rw [Nat.testBit_and, Nat.testBit_two_pow_self, h]
      rfl
    rw [h0, Nat.zero_testBit] at hb
    exact Bool.false_ne_true hb

theorem and_eq_right_iff_flagsSuperset (flags required : Nat) :
    flags &&& required = required ↔ flagsSuperset flags required := by
  constructor
  · intro h b hb
    have hbit : (flags &&& required).testBit b = true := by rw [h]; exact hb
    rw [Nat.testBit_and] at hbit
    simp only [Bool.and_eq_true] at hbit
    exact hbit.1
  · intro h
    apply Nat.eq_of_testBit_eq
    intro b
    rw [Nat.testBit_and]
    cases hr : required.testBit b
    · simp
    · simp [h b hr]

theorem memoryTypeMatches_iff (memProperties : VkPhysicalDeviceMemoryProperties)
    (typeFilter properties i : Nat) :
    memoryTypeMatches memProperties typeFilter properties i = true
      ↔ suitableMemoryType memProperties typeFilter properties i := by
  unfold memoryTypeMatches suitableMemoryType filterBitSet
  rw [Bool.and_eq_true, bne_iff_ne, beq_iff_eq, and_one_shiftLeft_ne_zero_iff,
    and_eq_right_iff_flagsSuperset]

theorem findMemoryTypeLoop_ok (memProperties : VkPhysicalDeviceMemoryProperties)
    (typeFilter properties : Nat) (remaining i k : Nat) :
    findMemoryTypeLoop memProperties typeFilter properties remaining i = Except.ok k
      ↔ (i ≤ k ∧ k < i + remaining
          ∧ memoryTypeMatches memProperties typeFilter properties k = true
          ∧ ∀ j, i ≤ j → j < k →
              memoryTypeMatches memProperties typeFilter properties j = false) := by
  induction remaining generalizing i with
  | zero =>
    simp only [findMemoryTypeLoop, Nat.add_zero]
    constructor
    · intro h; cases h
    · rintro ⟨h1, h2, _⟩; omega
  | succ r ih =>
    simp only [findMemoryTypeLoop]
    by_cases hm : memoryTypeMatches memProperties typeFilter properties i = true
    · rw [if_pos hm]
      constructor
      · intro h
        cases h
        exact ⟨le_refl _, by omega, hm, fun j h1 h2 => by omega⟩
      · rintro ⟨h1, _, _, h4⟩
        rcases Nat.eq_or_lt_of_le h1 with h | h
        · rw [h]
        · have := h4 i (le_refl _) h
          rw [hm] at this
          cases this
    · rw [if_neg hm, ih (i + 1)]
      have hf : memoryTypeMatches memProperties typeFilter properties i = false := by
        simpa using hm
      constructor
      · rintro ⟨h1, h2, h3, h4⟩
        refine ⟨by omega, by omega, h3, fun j hj1 hj2 => ?_⟩
        rcases Nat.eq_or_lt_of_le hj1 with h | h
        · rw [← h]; exact hf
        · exact h4 j h hj2
      · rintro ⟨h1, h2, h3, h4⟩
        have hne : i ≠ k := by
          intro h
          rw [h] at hf
          rw [hf] at h3
          cases h3
        exact ⟨by omega, by omega, h3, fun j hj1 hj2 => h4 j (by omega) hj2⟩

theorem findMemoryTypeLoop_error (memProperties : VkPhysicalDeviceMemoryProperties)
    (typeFilter properties : Nat) (remaining i : Nat) (e : VulkanError) :
    findMemoryTypeLoop memProperties typeFilter properties remaining i = Except.error e
      ↔ (e = VulkanError.noSuitableMemoryType ∧ ∀ j, i ≤ j → j < i + remaining →
              memoryTypeMatches memProperties typeFilter properties j = false) := by
  induction remaining generalizing i with
  | zero =>
    simp only [findMemoryTypeLoop, Nat.add_zero]
    constructor
    · intro h
      cases h
      exact ⟨rfl, fun j h1 h2 => by omega⟩
    · rintro ⟨h, _⟩
      rw [h]
  | succ r ih =>
    simp only [findMemoryTypeLoop]
    by_cases hm : memoryTypeMatches memProperties typeFilter properties i = true
    · rw [if_pos hm]
      constructor
      · intro h; cases h
      · rintro ⟨_, h⟩
        have := h i (le_refl _) (by omega)
        rw [hm] at this
        cases this
    · rw [if_neg hm, ih (i + 1)]
      have hf : memoryTypeMatches memProperties typeFilter properties i = false := by
        simpa using hm
      constructor
      · rintro ⟨h1, h2⟩
        refine ⟨h1, fun j hj1 hj2 => ?_⟩
        rcases Nat.eq_or_lt_of_le hj1 with h | h
        · rw [← h]; exact hf
        · exact h2 j h (by omega)
      · rintro ⟨h1, h2⟩
        exact ⟨h1, fun j hj1 hj2 => h2 j (by omega) (by omega)⟩

/-- C3: whenever `findMemoryType` returns an index `i`, that index is below the
memory type count of the device, bit `i` is set in the filter, the property
flags of type `i` contain all required flags, and no smaller index satisfies
both conditions. -/
theorem findMemoryType_returns_first_match (memProperties : VkPhysicalDeviceMemoryProperties)
    (typeFilter properties i : Nat)
    (h : findMemoryType memProperties typeFilter properties = Except.ok i) :
    i < memProperties.memoryTypeCount
      ∧ filterBitSet typeFilter i
      ∧ flagsSuperset (memProperties.memoryTypes i) properties
      ∧ ∀ j, j < i →
          ¬ (filterBitSet typeFilter j ∧ flagsSuperset (memProperties.memoryTypes j) properties) := by
  unfold findMemoryType at h
  rw [findMemoryTypeLoop_ok] at h
  obtain ⟨_, hlt, hm, hfirst⟩ := h
  have hs := (memoryTypeMatches_iff memProperties typeFilter properties i).mp hm
  refine ⟨by omega, hs.1, hs.2, fun j hj hsuit => ?_⟩
  have hmj := (memoryTypeMatches_iff memProperties typeFilter properties j).mpr hsuit
  rw [hfirst j (Nat.zero_le j) hj] at hmj
  cases hmj

/-- Witness for C3: on the sample device, filter `0b111` and the host visible
flag select index 0. -/
theorem findMemoryType_returns_first_match_witness :
    findMemoryType sampleMemoryProperties 7 VK_MEMORY_PROPERTY_HOST_VISIBLE_BIT = Except.ok 0
      ∧ (0 < sampleMemoryProperties.memoryTypeCount
        ∧ filterBitSet 7 0
        ∧ flagsSuperset (sampleMemoryProperties.memoryTypes 0) VK_MEMORY_PROPERTY_HOST_VISIBLE_BIT
        ∧ ∀ j, j < 0 →
            ¬ (filterBitSet 7 j
                ∧ flagsSuperset (sampleMemoryProperties.memoryTypes j)
                    VK_MEMORY_PROPERTY_HOST_VISIBLE_BIT)) :=
  ⟨rfl, findMemoryType_returns_first_match sampleMemoryProperties 7
    VK_MEMORY_PROPERTY_HOST_VISIBLE_BIT 0 rfl⟩

/-- C4: `findMemoryType` raises the no-suitable-memory-type error exactly when no
index below the memory type count has its bit set in the filter and property
flags containing the required ones; it raises no other error; and on every
device whose type 2 is device local only, a filter with only bit 2 set fails
for the host visible flag and returns index 2 for the device local flag, and
so does the allocation of memory for a buffer with these type bits. -/
theorem findMemoryType_fails_iff_no_suitable_type :
    (∀ (memProperties : VkPhysicalDeviceMemoryProperties) (typeFilter properties : Nat),
        findMemoryType memProperties typeFilter properties
            = Except.error VulkanError.noSuitableMemoryType
          ↔ ¬ ∃ i, i < memProperties.memoryTypeCount
                ∧ filterBitSet typeFilter i
                ∧ flagsSuperset (memProperties.memoryTypes i) properties)
      ∧ (∀ (memProperties : VkPhysicalDeviceMemoryProperties) (typeFilter properties : Nat)
          (e : VulkanError),
          findMemoryType memProperties typeFilter properties = Except.error e
            → e = VulkanError.noSuitableMemoryType)
      ∧ (∀ memProperties : VkPhysicalDeviceMemoryProperties,
          2 < memProperties.memoryTypeCount →
          memProperties.memoryTypes 2 = VK_MEMORY_PROPERTY_DEVICE_LOCAL_BIT →
          findMemoryType memProperties (1 <<< 2) VK_MEMORY_PROPERTY_HOST_VISIBLE_BIT
              = Except.error VulkanError.noSuitableMemoryType
            ∧ findMemoryType memProperties (1 <<< 2) VK_MEMORY_PROPERTY_DEVICE_LOCAL_BIT
              = Except.ok 2
            ∧ ∀ (size alignment : Nat) (allocated : Bool),
                allocateMemory memProperties
                    { size := size, alignment := alignment, memoryTypeBits := 1 <<< 2 }
                    VK_MEMORY_PROPERTY_HOST_VISIBLE_BIT allocated
                  = Except.error VulkanError.noSuitableMemoryType
                ∧ allocateMemory memProperties
                    { size := size, alignment := alignment, memoryTypeBits := 1 <<< 2 }
                    VK_MEMORY_PROPERTY_DEVICE_LOCAL_BIT true
                  = Except.ok { allocationSize := size, memoryTypeIndex := 2 }) := by
  have hgen : ∀ (memProperties : VkPhysicalDeviceMemoryProperties)
      (typeFilter properties : Nat),
      findMemoryType memProperties typeFilter properties
          = Except.error VulkanError.noSuitableMemoryType
        ↔ ¬ ∃ i, i < memProperties.memoryTypeCount
              ∧ filterBitSet typeFilter i
              ∧ flagsSuperset (memProperties.memoryTypes i) properties := by
    intro memProperties typeFilter properties
    unfold findMemoryType
    rw [findMemoryTypeLoop_error]
    constructor
    · rintro ⟨_, h⟩ ⟨i, hi, hs⟩
      have hm := (memoryTypeMatches_iff memProperties typeFilter properties i).mpr hs
      rw [h i (Nat.zero_le i) (by omega)] at hm
      cases hm
    · intro h
      refine ⟨rfl, fun j _ hj => ?_⟩
      cases hm : memoryTypeMatches memProperties typeFilter properties j
      · rfl
      · exact absurd ⟨j, by omega,
          (memoryTypeMatches_iff memProperties typeFilter properties j).mp hm⟩ h
  refine ⟨hgen, ?_, ?_⟩
  · intro memProperties typeFilter properties e h
    unfold findMemoryType at h
    exact ((findMemoryTypeLoop_error _ _ _ _ _ _).mp h).1
  · intro memProperties hcount hflags
    have hbit : ∀ j, filterBitSet (1 <<< 2) j ↔ j = 2 := by
      intro j
      unfold filterBitSet
      rw [Nat.one_shiftLeft, Nat.testBit_two_pow]
      simp [eq_comm]
    have hhost : findMemoryType memProperties (1 <<< 2) VK_MEMORY_PROPERTY_HOST_VISIBLE_BIT
        = Except.error VulkanError.noSuitableMemoryType := by
      rw [hgen]
      rintro ⟨i, _, hi, hsup⟩
      rw [hbit] at hi
      subst hi
      rw [hflags] at hsup
      have := hsup 1 (by decide)
      revert this
      decide
    have hlocal : findMemoryType memProperties (1 <<< 2) VK_MEMORY_PROPERTY_DEVICE_LOCAL_BIT
        = Except.ok 2 := ?_
    · refine ⟨hhost, hlocal, fun size alignment allocated => ?_⟩
      simp only [allocateMemory, hhost, hlocal, if_true, and_self]
    · unfold findMemoryType
      rw [findMemoryTypeLoop_ok]
      refine ⟨Nat.zero_le _, by omega, ?_, ?_⟩
      · rw [memoryTypeMatches_iff]
        refine ⟨(hbit 2).mpr rfl, ?_⟩
        rw [hflags]
        intro b hb
        exact hb
      · intro j _ hj
        cases hm : memoryTypeMatches memProperties (1 <<< 2)
            VK_MEMORY_PROPERTY_DEVICE_LOCAL_BIT j
        · rfl
        · have := ((memoryTypeMatches_iff _ _ _ _).mp hm).1
          rw [hbit] at this
          omega

/-- Witness for C4: the sample device has three memory types and its type 2 is
device local only. -/
theorem findMemoryType_fails_iff_no_suitable_type_witness :
    2 < sampleMemoryProperties.memoryTypeCount
      ∧ sampleMemoryProperties.memoryTypes 2 = VK_MEMORY_PROPERTY_DEVICE_LOCAL_BIT
      ∧ findMemoryType sampleMemoryProperties (1 <<< 2) VK_MEMORY_PROPERTY_HOST_VISIBLE_BIT
        = Except.error VulkanError.noSuitableMemoryType
      ∧ findMemoryType sampleMemoryProperties (1 <<< 2) VK_MEMORY_PROPERTY_DEVICE_LOCAL_BIT
        = Except.ok 2 :=
  ⟨by decide, rfl,
    (findMemoryType_fails_iff_no_suitable_type.2.2 sampleMemoryProperties (by decide) rfl).1,
    (findMemoryType_fails_iff_no_suitable_type.2.2 sampleMemoryProperties (by decide) rfl).2.1⟩

/-! ## The frame loop: basic facts -/

@[simp] theorem andThen_done (r : Renderer) (f : Renderer → Outcome) :
    (Outcome.done r).andThen f = f r := rfl

@[simp] theorem andThen_raised (r : Renderer) (f : Renderer → Outcome) :
    (Outcome.raised r).andThen f = Outcome.raised r := rfl

@[simp] theorem andThen_blocked (r : Renderer) (f : Renderer → Outcome) :
    (Outcome.blocked r).andThen f = Outcome.blocked r := rfl

@[simp] theorem call_accepting (a : Action) (r : Renderer) :
    call accepting a r = Outcome.done (emit a r) := rfl

theorem forLoop_eq (body : Nat → Renderer → Outcome) (n : Nat) :
    ∀ (first : Nat) (g : Nat → Renderer),
      (∀ j, j < n → body (first + j) (g j) = Outcome.done (g (j + 1))) →
      forLoop body n first (g 0) = Outcome.done (g n) := by
  induction n with
  | zero => intro first g _; rfl
  | succ n ih =>
    intro first g h
    have h0 := h 0 (Nat.succ_pos n)
    rw [Nat.add_zero] at h0
    simp only [forLoop, h0, andThen_done]
    refine ih (first + 1) (fun j => g (j + 1)) (fun j hj => ?_)
    have := h (j + 1) (Nat.succ_lt_succ hj)
    rw [show first + (j + 1) = first + 1 + j by omega] at this
    exact this

theorem forEach_emit (act : Nat → Action) (n : Nat) :
    ∀ (first : Nat) (r : Renderer),
      forEach (fun i r => emit (act i) r) n first r
        = { r with trace := r.trace ++ (List.range' first n).map act } := by
  induction n with
  | zero => intro first r; simp [forEach]
  | succ n ih =>
    intro first r
    simp only [forEach]
    rw [ih]
    simp [emit, List.range'_succ]

theorem cleanup_eq (r : Renderer) :
    cleanup r = { r with trace := r.trace ++ (cleanupActions r.frameBuffers.length
      r.graphicsCommandBuffers.length r.computeCommandBuffers.length) } := by
  simp only [cleanup, forEach_emit]
  simp [cleanupActions, emit, List.range_eq_range']

theorem set_fill {α : Type} (f : Nat → α) (l : List α) (j : Nat) (h : j < l.length) (x : α) :
    ((List.range j).map f ++ l.drop j).set j x = (List.range j).map f ++ x :: l.drop (j + 1) := by
  rw [List.set_append]
  simp only [List.length_map, List.length_range, Nat.lt_irrefl, if_false, Nat.sub_self]
  rw [List.drop_eq_getElem_cons h, List.set_cons_zero]

theorem length_resize {α : Type} (v : List α) (n : Nat) (fill : α) :
    (resize v n fill).length = n := by
  simp only [resize, List.length_append, List.length_take, List.length_replicate]
  omega

theorem createFrameBuffers_accepting (r : Renderer) :
    createFrameBuffers accepting r = Outcome.done
      { r with
        frameBuffers := (List.range r.presentation.imageCount).map
          (framebufferInfo r.presentation.extent)
        trace := r.trace ++ (List.range r.presentation.imageCount).map
          (fun i => Action.vkCreateFramebuffer i (framebufferInfo r.presentation.extent i)) } := by
  have key := forLoop_eq
    (fun i r =>
      call accepting (Action.vkCreateFramebuffer i (framebufferInfo r.presentation.getVkExtent i))
        { r with
          frameBuffers := r.frameBuffers.set i (framebufferInfo r.presentation.getVkExtent i) })
    r.presentation.imageCount 0
    (fun j => { r with
        frameBuffers := (List.range j).map (framebufferInfo r.presentation.extent)
          ++ (resize r.frameBuffers r.presentation.imageCount
                { attachments := [], width := 0, height := 0, layers := 0 }).drop j
        trace := r.trace ++ (List.range j).map
          (fun i => Action.vkCreateFramebuffer i (framebufferInfo r.presentation.extent i)) })
    (by
      intro j hj
      simp only [call_accepting, emit, Nat.zero_add]
      rw [set_fill _ _ _ (by rw [length_resize]; exact hj)]
      simp [List.range_succ, VulkanPresentation.getVkExtent])
  simp only [List.range_zero, List.map_nil, List.nil_append, List.drop_zero,
    List.append_nil] at key
  rw [List.drop_of_length_le (by rw [length_resize])] at key
  simpa [createFrameBuffers, VulkanPresentation.getCount] using key

theorem setupDescriptorSets_accepting (r : Renderer) :
    setupDescriptorSets accepting r = Outcome.done
      { r with
        DS_graphics := (List.range r.presentation.imageCount).map
          (fun i => { writes := writeGraphicsSetInfo i })
        trace := r.trace ++ descriptorActions r.presentation.imageCount } := by
  have key := forLoop_eq
    (fun i r =>
      (call accepting (Action.createDescriptorSets i)
        { r with DS_graphics := r.DS_graphics.set i { writes := [] } }).andThen fun r =>
      Outcome.done (emit (Action.vkUpdateDescriptorSets (writeGraphicsSetInfo i))
        { r with DS_graphics := r.DS_graphics.set i { writes := writeGraphicsSetInfo i } }))
    r.presentation.imageCount 0
    (fun j => { r with
        DS_graphics := (List.range j).map (fun i => { writes := writeGraphicsSetInfo i })
          ++ (resize r.DS_graphics r.presentation.imageCount { writes := [] }).drop j
        trace := r.trace ++ (descriptorActions r.presentation.imageCount).take 2
          ++ (List.range j).flatMap descriptorSetActions })
    (by
      intro j hj
      simp only [call_accepting, andThen_done, emit, Nat.zero_add, List.set_set]
      rw [set_fill _ _ _ (by rw [length_resize]; exact hj)]
      simp [List.range_succ, descriptorSetActions])
  simp only [List.range_zero, List.map_nil, List.nil_append, List.drop_zero,
    List.append_nil, List.flatMap_nil, List.take_zero] at key
  rw [List.drop_of_length_le (by rw [length_resize])] at key
  simpa [setupDescriptorSets, VulkanPresentation.getCount, descriptorActions, emit] using key

theorem recordAllCommandBuffers_accepting (r : Renderer) :
    recordAllCommandBuffers accepting r = Outcome.done
      { r with
        graphicsCommandBuffers := (List.range r.graphicsCommandBuffers.length).map
          (fun i => { commands := graphicsCommands r.presentation.extent r.numIndices i })
        computeCommandBuffers := (List.range r.computeCommandBuffers.length).map
          (fun _ => { commands := [] })
        trace := r.trace
          ++ recordActions r.presentation.extent r.numIndices
              r.graphicsCommandBuffers.length r.computeCommandBuffers.length } := by
  have key1 := forLoop_eq
    (fun i r =>
      (beginCommandBuffer accepting { pool := CommandPool.graphics, index := i } r).andThen fun r =>
      endCommandBuffer accepting { pool := CommandPool.graphics, index := i }
        (recordGraphicsCommandBuffer i r))
    r.graphicsCommandBuffers.length 0
    (fun j => { r with
        graphicsCommandBuffers := (List.range j).map
            (fun i => { commands := graphicsCommands r.presentation.extent r.numIndices i })
          ++ r.graphicsCommandBuffers.drop j
        trace := r.trace
          ++ (List.range j).flatMap (recordGraphicsActions r.presentation.extent r.numIndices) })
    (by
      intro j hj
      simp only [beginCommandBuffer, endCommandBuffer, recordGraphicsCommandBuffer, setCommands,
        call_accepting, andThen_done, emit, Nat.zero_add, List.set_set]
      rw [set_fill _ _ _ hj]
      simp [List.range_succ, recordGraphicsActions, VulkanPresentation.getVkExtent])
  have key2 := forLoop_eq
    (fun i r =>
      (beginCommandBuffer accepting { pool := CommandPool.compute, index := i } r).andThen fun r =>
      endCommandBuffer accepting { pool := CommandPool.compute, index := i }
        (recordComputeCommandBuffer i r))
    r.computeCommandBuffers.length 0
    (fun j => { r with
        graphicsCommandBuffers := (List.range r.graphicsCommandBuffers.length).map
          (fun i => { commands := graphicsCommands r.presentation.extent r.numIndices i })
        computeCommandBuffers := (List.range j).map (fun _ => { commands := [] })
          ++ r.computeCommandBuffers.drop j
        trace := r.trace ++ (List.range r.graphicsCommandBuffers.length).flatMap
            (recordGraphicsActions r.presentation.extent r.numIndices)
          ++ (List.range j).flatMap recordComputeActions })
    (by
      intro j hj
      simp only [beginCommandBuffer, endCommandBuffer, recordComputeCommandBuffer, setCommands,
        call_accepting, andThen_done, emit, Nat.zero_add]
      rw [set_fill _ _ _ hj]
      simp [List.range_succ, recordComputeActions])
  simp only [List.range_zero, List.map_nil, List.nil_append, List.drop_zero,
    List.append_nil, List.flatMap_nil] at key1 key2
  rw [List.drop_of_length_le (le_refl _)] at key1 key2
  simp only [List.append_nil] at key1 key2
  unfold recordAllCommandBuffers
  rw [key1]
  simp only [andThen_done]
  rw [key2]
  simp [recordActions]

theorem waitForFramebufferSize_eq (sizes : List (Int × Int)) :
    ∀ r : Renderer, waitForFramebufferSize sizes r =
      if reportsSize sizes then
        Outcome.done { r with trace := r.trace ++ pollActions (pollRounds sizes) }
      else
        Outcome.blocked { r with trace := r.trace ++ pollActions (pollRounds sizes) } := by
  induction sizes with
  | nil => intro r; simp [waitForFramebufferSize, reportsSize, pollActions, pollRounds]
  | cons size later ih =>
    intro r
    simp only [waitForFramebufferSize, pollRounds]
    by_cases hz : (size.1 == 0 || size.2 == 0) = true
    · rw [if_pos hz, if_pos hz, ih]
      have hrep : reportsSize (size :: later) = reportsSize later := by
        simp only [reportsSize, List.any_cons, hz]
        rfl
      rw [hrep]
      simp [emit, pollActions, List.replicate_succ]
    · rw [if_neg hz, if_neg hz]
      have hrep : reportsSize (size :: later) = true := by
        simp only [reportsSize, List.any_cons]
        simp only [Bool.not_eq_true] at hz
        rw [hz]
        rfl
      rw [hrep]
      simp [emit, pollActions]

theorem recreate_accepting (win : WindowInput) (r : Renderer)
    (hw : reportsSize win.framebufferSizes = true) :
    recreate accepting win r = Outcome.done (recreated win r) := by
  unfold recreate
  simp only [waitForFramebufferSize_eq, hw, if_true, andThen_done, cleanup_eq,
    presentationCreate, call_accepting, createRenderPass, setupDescriptorSets_accepting,
    setupMSAA, createDepthResources, createAllPipelines, createGraphicsPipeline,
    createFrameBuffers_accepting, allocateCommandBuffers, recordAllCommandBuffers_accepting]
  simp only [emit, List.length_map, length_resize, VulkanPresentation.getCount,
    VulkanPresentation.getVkExtent]
  simp [recreated, recreateActions, recreatedPresentation, buildActions]

theorem initializeRenderer_accepting (r : Renderer) :
    initializeRenderer accepting r = Outcome.done (initialized r) := by
  unfold initializeRenderer
  simp only [createCommandPoolsAndBuffers, andThen_done,
    call_accepting, createRenderPass, setupDescriptorSets_accepting,
    setupMSAA, createDepthResources, createAllPipelines, createGraphicsPipeline,
    createFrameBuffers_accepting, allocateCommandBuffers, recordAllCommandBuffers_accepting]
  simp only [emit, List.length_map, length_resize, VulkanPresentation.getCount,
    VulkanPresentation.getVkExtent]
  simp [initialized, initializeActions, buildActions]

/-! ## Teardown and rebuild stay within their own calls, whatever the driver answers -/

theorem Extends.refl (r : Renderer) : Extends r r :=
  ⟨rfl, rfl, rfl, [], by simp, by simp⟩

theorem Extends.trans {r1 r2 r3 : Renderer} (h12 : Extends r1 r2) (h23 : Extends r2 r3) :
    Extends r1 r3 := by
  obtain ⟨a1, b1, c1, s1, t1, p1⟩ := h12
  obtain ⟨a2, b2, c2, s2, t2, p2⟩ := h23
  refine ⟨a2.trans a1, b2.trans b1, c2.trans c1, s1 ++ s2, ?_, ?_⟩
  · rw [t2, t1, List.append_assoc]
  · intro a ha
    rcases List.mem_append.mp ha with h | h
    · exact p1 a h
    · exact p2 a h

theorem Extends.of_eq {r r' : Renderer}
    (hf : r'.presentation.currentFrame = r.presentation.currentFrame)
    (hn : r'.presentation.framesInFlight = r.presentation.framesInFlight)
    (hi : r'.presentation.imageIndex = r.presentation.imageIndex)
    (ht : r'.trace = r.trace) : Extends r r' :=
  ⟨hf, hn, hi, [], by simp [ht], by simp⟩

theorem Extends.emit (a : Action) (r : Renderer) (h : a.isRebuildStep = true) :
    Extends r (emit a r) :=
  ⟨rfl, rfl, rfl, [a], rfl, by simpa using h⟩

theorem Extends.call (driver : Driver) (a : Action) (r : Renderer)
    (h : a.isRebuildStep = true) : Extends r (call driver a r).state := by
  unfold ShaderPlayGround.call
  cases driver a
  · exact Extends.emit a r h
  · exact Extends.emit a r h

theorem Extends.andThen {r : Renderer} {o : Outcome} {k : Renderer → Outcome}
    (ho : Extends r o.state) (hk : ∀ r1, Extends r1 (k r1).state) :
    Extends r (o.andThen k).state := by
  cases o with
  | done r1 => exact Extends.trans ho (hk r1)
  | raised r1 => exact ho
  | blocked r1 => exact ho

theorem Extends.forLoop (body : Nat → Renderer → Outcome)
    (hbody : ∀ i r, Extends r (body i r).state) (n : Nat) :
    ∀ (first : Nat) (r : Renderer), Extends r (forLoop body n first r).state := by
  induction n with
  | zero => intro first r; exact Extends.refl r
  | succ n ih =>
    intro first r
    exact Extends.andThen (hbody first r) (fun r1 => ih (first + 1) r1)

theorem Extends.forEach (body : Nat → Renderer → Renderer)
    (hbody : ∀ i r, Extends r (body i r)) (n : Nat) :
    ∀ (first : Nat) (r : Renderer), Extends r (forEach body n first r) := by
  induction n with
  | zero => intro first r; exact Extends.refl r
  | succ n ih =>
    intro first r
    exact Extends.trans (hbody first r) (ih (first + 1) (body first r))

theorem cleanup_extends (r : Renderer) : Extends r (cleanup r) := by
  rw [cleanup_eq]
  refine ⟨rfl, rfl, rfl, _, rfl, ?_⟩
  intro a ha
  simp only [cleanupActions, List.mem_append, List.mem_cons, List.mem_map, List.mem_range,
    List.mem_singleton, List.not_mem_nil, or_false] at ha
  rcases ha with (h | h) | h
  · rcases h with h | h | h | h | h | h | h <;> rw [h] <;> rfl
  · obtain ⟨i, _, h⟩ := h
    rw [← h]; rfl
  · rcases h with h | h | h | h | h | h | h | h <;> rw [h] <;> rfl

theorem waitForFramebufferSize_extends (sizes : List (Int × Int)) :
    ∀ r : Renderer, Extends r (waitForFramebufferSize sizes r).state := by
  induction sizes with
  | nil => intro r; exact Extends.refl r
  | cons size later ih =>
    intro r
    simp only [waitForFramebufferSize]
    have h2 : Extends r (ShaderPlayGround.emit Action.glfwWaitEvents
        (ShaderPlayGround.emit Action.glfwGetFramebufferSize r)) :=
      Extends.trans (Extends.emit Action.glfwGetFramebufferSize _ rfl)
        (Extends.emit Action.glfwWaitEvents _ rfl)
    split
    · exact Extends.trans h2 (ih _)
    · exact h2

theorem presentationCreate_extends (driver : Driver) (win : WindowInput) (r : Renderer) :
    Extends r (presentationCreate driver win r).state :=
  Extends.trans (Extends.of_eq rfl rfl rfl rfl) (Extends.call driver _ _ rfl)

theorem createRenderPass_extends (driver : Driver) (r : Renderer) :
    Extends r (createRenderPass driver r).state :=
  Extends.andThen (Extends.call driver _ _ rfl) fun _ => Extends.call driver _ _ rfl

theorem setupDescriptorSets_extends (driver : Driver) (r : Renderer) :
    Extends r (setupDescriptorSets driver r).state := by
  unfold setupDescriptorSets
  refine Extends.andThen (Extends.call driver _ _ rfl) fun r1 => ?_
  refine Extends.andThen (Extends.call driver _ _ rfl) fun r2 => ?_
  refine Extends.trans (Extends.of_eq rfl rfl rfl rfl) (Extends.forLoop _ (fun i r3 => ?_) _ _ _)
  refine Extends.andThen
    (Extends.trans (Extends.of_eq rfl rfl rfl rfl) (Extends.call driver _ _ rfl)) fun r4 => ?_
  exact Extends.trans (Extends.of_eq rfl rfl rfl rfl) (Extends.emit _ _ rfl)

theorem setupMSAA_extends (driver : Driver) (r : Renderer) :
    Extends r (setupMSAA driver r).state :=
  Extends.andThen (Extends.call driver _ _ rfl) fun _ =>
    Extends.andThen (Extends.call driver _ _ rfl) fun _ => Extends.call driver _ _ rfl

theorem createDepthResources_extends (driver : Driver) (r : Renderer) :
    Extends r (createDepthResources driver r).state :=
  Extends.andThen (Extends.call driver _ _ rfl) fun _ =>
    Extends.andThen (Extends.call driver _ _ rfl) fun _ =>
      Extends.andThen (Extends.call driver _ _ rfl) fun _ => Extends.call driver _ _ rfl

theorem createGraphicsPipeline_extends (driver : Driver) (r : Renderer) :
    Extends r (createGraphicsPipeline driver r).state :=
  Extends.andThen (Extends.call driver _ _ rfl) fun _ =>
    Extends.andThen (Extends.call driver _ _ rfl) fun _ =>
      Extends.andThen (Extends.call driver _ _ rfl) fun _ =>
        Extends.trans (Extends.emit (Action.vkDestroyShaderModule ShaderModule.vert) _ rfl)
          (Extends.emit (Action.vkDestroyShaderModule ShaderModule.frag) _ rfl)

theorem createAllPipelines_extends (driver : Driver) (r : Renderer) :
    Extends r (createAllPipelines driver r).state :=
  Extends.andThen (Extends.call driver _ _ rfl) fun _ => createGraphicsPipeline_extends driver _

theorem createFrameBuffers_extends (driver : Driver) (r : Renderer) :
    Extends r (createFrameBuffers driver r).state := by
  unfold createFrameBuffers
  refine Extends.trans (Extends.of_eq rfl rfl rfl rfl) (Extends.forLoop _ (fun i r1 => ?_) _ _ _)
  exact Extends.trans (Extends.of_eq rfl rfl rfl rfl) (Extends.call driver _ _ rfl)

theorem allocateCommandBuffers_extends (driver : Driver) (pool : CommandPool) (r : Renderer) :
    Extends r (allocateCommandBuffers driver pool r).state := by
  cases pool with
  | graphics =>
    exact Extends.trans (Extends.of_eq rfl rfl rfl rfl) (Extends.call driver _ _ rfl)
  | compute =>
    exact Extends.trans (Extends.of_eq rfl rfl rfl rfl) (Extends.call driver _ _ rfl)

theorem setCommands_extends (cmdBuffer : CommandBufferRef) (commands : List Cmd)
    (r : Renderer) : Extends r (setCommands cmdBuffer commands r) := by
  unfold setCommands
  cases cmdBuffer.pool with
  | graphics => exact Extends.of_eq rfl rfl rfl rfl
  | compute => exact Extends.of_eq rfl rfl rfl rfl

theorem recordGraphicsCommandBuffer_extends (frameIndex : Nat) (r : Renderer) :
    Extends r (recordGraphicsCommandBuffer frameIndex r) := by
  unfold recordGraphicsCommandBuffer
  obtain ⟨h1, h2, h3, steps, ht, hs⟩ := setCommands_extends
    { pool := CommandPool.graphics, index := frameIndex }
    (graphicsCommands r.presentation.getVkExtent r.numIndices frameIndex) r
  refine ⟨h1, h2, h3, steps ++ (graphicsCommands r.presentation.getVkExtent r.numIndices
    frameIndex).map (Action.vkCmd { pool := CommandPool.graphics, index := frameIndex }), ?_, ?_⟩
  · simp only [ht, List.append_assoc]
  · intro a ha
    rcases List.mem_append.mp ha with h | h
    · exact hs a h
    · obtain ⟨c, _, hc⟩ := List.mem_map.mp h
      rw [← hc]; rfl

theorem recordAllCommandBuffers_extends (driver : Driver) (r : Renderer) :
    Extends r (recordAllCommandBuffers driver r).state := by
  unfold recordAllCommandBuffers
  refine Extends.andThen (Extends.forLoop _ (fun i r1 => ?_) _ _ _) fun r2 =>
    Extends.forLoop _ (fun i r3 => ?_) _ _ _
  · refine Extends.andThen ?_ fun r4 => ?_
    · exact Extends.trans (setCommands_extends _ _ _) (Extends.call driver _ _ rfl)
    · exact Extends.trans (recordGraphicsCommandBuffer_extends i r4)
        (Extends.call driver _ _ rfl)
  · refine Extends.andThen ?_ fun r4 => ?_
    · exact Extends.trans (setCommands_extends _ _ _) (Extends.call driver _ _ rfl)
    · exact Extends.call driver _ _ rfl

theorem recreate_extends (driver : Driver) (win : WindowInput) (r : Renderer) :
    Extends (emit Action.enterRecreate r) (recreate driver win r).state := by
  unfold recreate
  refine Extends.andThen
    (Extends.trans (Extends.of_eq rfl rfl rfl rfl) (waitForFramebufferSize_extends _ _))
    fun r1 => ?_
  refine Extends.andThen
    (Extends.trans (cleanup_extends r1) (presentationCreate_extends driver win _)) fun r2 => ?_
  refine Extends.andThen (createRenderPass_extends driver r2) fun r3 => ?_
  refine Extends.andThen (setupDescriptorSets_extends driver r3) fun r4 => ?_
  refine Extends.andThen (setupMSAA_extends driver r4) fun r5 => ?_
  refine Extends.andThen (createDepthResources_extends driver r5) fun r6 => ?_
  refine Extends.andThen (createAllPipelines_extends driver r6) fun r7 => ?_
  refine Extends.andThen (createFrameBuffers_extends driver r7) fun r8 => ?_
  refine Extends.andThen
    (Extends.trans (Extends.of_eq rfl rfl rfl rfl)
      (allocateCommandBuffers_extends driver CommandPool.graphics _)) fun r9 => ?_
  refine Extends.andThen (allocateCommandBuffers_extends driver CommandPool.compute r9)
    fun r10 => ?_
  refine Extends.andThen (recordAllCommandBuffers_extends driver r10) fun r11 => ?_
  exact Extends.of_eq rfl rfl rfl rfl

/-! ## The shape of one iteration of the frame loop -/

theorem rebuild_or_skip (driver : Driver) (win : WindowInput) (flag : Bool) (r : Renderer) :
    ∃ steps, (∀ a ∈ steps, a.isRebuildStep = true)
      ∧ (if !flag then recreate driver win r else Outcome.done r).state.trace
          = r.trace ++ rebuildCalls flag steps
      ∧ (if !flag then recreate driver win r else Outcome.done r).state.presentation.currentFrame
          = r.presentation.currentFrame
      ∧ (if !flag then recreate driver win r
          else Outcome.done r).state.presentation.framesInFlight
          = r.presentation.framesInFlight
      ∧ (if !flag then recreate driver win r else Outcome.done r).state.presentation.imageIndex
          = r.presentation.imageIndex := by
  cases flag with
  | true =>
    exact ⟨[], by simp, by simp [rebuildCalls, Outcome.state], rfl, rfl, rfl⟩
  | false =>
    obtain ⟨h1, h2, h3, steps, ht, hs⟩ := recreate_extends driver win r
    refine ⟨steps, hs, ?_, h1, h2, h3⟩
    simp only [Bool.not_false, if_true, rebuildCalls]
    rw [ht]
    simp [emit]

theorem renderLoop_calls (driver : Driver) (input : FrameInput) (r : Renderer) :
    ∃ steps1 steps2 : List Action,
      (∀ a ∈ steps1, a.isRebuildStep = true) ∧ (∀ a ∈ steps2, a.isRebuildStep = true)
      ∧ (∃ calls, (renderLoop driver input r).state.trace = r.trace ++ calls
          ∧ calls <+: iterationCalls r.presentation.currentFrame input.acquire input.present
              steps1 steps2)
      ∧ ∀ r', renderLoop driver input r = Outcome.done r' →
          r'.trace = r.trace ++ iterationCalls r.presentation.currentFrame input.acquire
              input.present steps1 steps2
          ∧ r'.presentation.currentFrame
              = (r.presentation.currentFrame + 1) % r.presentation.framesInFlight
          ∧ r'.presentation.framesInFlight = r.presentation.framesInFlight
          ∧ r'.presentation.imageIndex = input.acquire.2 := by
  obtain ⟨steps1, hs1, ht1, hf1, hn1, hi1⟩ := rebuild_or_skip driver input.rebuildAfterAcquire
    input.acquire.1
    (acquireNextSwapChainImage input.acquire
      (emit (Action.vkWaitForFences r.presentation.getInFlightFence) r)).2
  unfold renderLoop
  simp only [acquireNextSwapChainImage] at ht1 hf1 hn1 hi1 ⊢
  generalize (if !input.acquire.1 then
      recreate driver input.rebuildAfterAcquire
        (emit Action.acquireNextSwapChainImage
          { emit (Action.vkWaitForFences r.presentation.getInFlightFence) r with
            presentation :=
              { (emit (Action.vkWaitForFences r.presentation.getInFlightFence) r).presentation with
                imageIndex := input.acquire.2 } })
    else Outcome.done
        (emit Action.acquireNextSwapChainImage
          { emit (Action.vkWaitForFences r.presentation.getInFlightFence) r with
            presentation :=
              { (emit (Action.vkWaitForFences r.presentation.getInFlightFence) r).presentation with
                imageIndex := input.acquire.2 } })) = o1 at ht1 hf1 hn1 hi1 ⊢
  simp only [emit, VulkanPresentation.getInFlightFence, List.append_assoc,
    List.singleton_append] at ht1 hf1 hn1 hi1
  cases o1 with
  | raised r1 =>
    refine ⟨steps1, [], hs1, by simp, ⟨_, ht1, ?_⟩, ?_⟩
    · simp [iterationCalls, VulkanPresentation.getInFlightFence]
    · intro r' h; simp at h
  | blocked r1 =>
    refine ⟨steps1, [], hs1, by simp, ⟨_, ht1, ?_⟩, ?_⟩
    · simp [iterationCalls, VulkanPresentation.getInFlightFence]
    · intro r' h; simp at h
  | done r1 =>
    simp only [Outcome.state] at ht1 hf1 hn1 hi1
    simp only [andThen_done, submitToQueueSynced, presentImageToSwapChain, List.take,
      VulkanPresentation.getIndex, VulkanPresentation.getImageAvailableVkSemaphore,
      VulkanPresentation.getRenderFinishedVkSemaphore, VulkanPresentation.getInFlightFence,
      emit, hf1, hi1, ShaderPlayGround.call]
    cases hsub : driver (Action.vkQueueSubmit QueueFlags.Graphics
        { commandBuffers := [{ pool := CommandPool.graphics, index := input.acquire.2 }]
          waitSemaphores := [Semaphore.imageAvailable r.presentation.currentFrame]
          waitDstStageMask := [VK_PIPELINE_STAGE_COLOR_ATTACHMENT_OUTPUT_BIT]
          signalSemaphores := [Semaphore.renderFinished r.presentation.currentFrame] }
        { frame := r.presentation.currentFrame })
    · refine ⟨steps1, [], hs1, by simp,
        ⟨[Action.vkWaitForFences { frame := r.presentation.currentFrame },
            Action.acquireNextSwapChainImage]
          ++ rebuildCalls input.acquire.1 steps1
          ++ [ Action.cameraUpdateUniformBuffer input.acquire.2,
               Action.modelUpdateUniformBuffer input.acquire.2,
               Action.vkResetFences { frame := r.presentation.currentFrame },
               Action.vkQueueSubmit QueueFlags.Graphics
                 (frameSubmitInfo r.presentation.currentFrame input.acquire.2)
                 { frame := r.presentation.currentFrame } ], ?_, ?_⟩, ?_⟩
      · simp [Outcome.state, ht1, frameSubmitInfo]
      · simp [iterationCalls]
      · intro r' h; simp at h
    · simp only [if_true, andThen_done]
      obtain ⟨steps2, hs2, ht2, hf2, hn2, hi2⟩ := rebuild_or_skip driver
        input.rebuildAfterPresent input.present
        { r1 with trace := r1.trace
            ++ [Action.cameraUpdateUniformBuffer input.acquire.2]
            ++ [Action.modelUpdateUniformBuffer input.acquire.2]
            ++ [Action.vkResetFences { frame := r.presentation.currentFrame }]
            ++ [Action.vkQueueSubmit QueueFlags.Graphics
                { commandBuffers := [{ pool := CommandPool.graphics, index := input.acquire.2 }]
                  waitSemaphores := [Semaphore.imageAvailable r.presentation.currentFrame]
                  waitDstStageMask := [VK_PIPELINE_STAGE_COLOR_ATTACHMENT_OUTPUT_BIT]
                  signalSemaphores := [Semaphore.renderFinished r.presentation.currentFrame] }
                { frame := r.presentation.currentFrame }]
            ++ [Action.presentImageToSwapChain] }
      generalize (if !input.present then recreate driver input.rebuildAfterPresent _
        else Outcome.done _) = o2 at ht2 hf2 hn2 hi2 ⊢
      simp only [ht1, List.append_assoc, List.singleton_append] at ht2
      simp only [hf1, hn1, hi1] at hf2 hn2 hi2
      cases o2 with
      | raised r2 =>
        refine ⟨steps1, steps2, hs1, hs2, ⟨_, ht2, ?_⟩, ?_⟩
        · simp [iterationCalls, frameSubmitInfo]
        · intro r' h; simp at h
      | blocked r2 =>
        refine ⟨steps1, steps2, hs1, hs2, ⟨_, ht2, ?_⟩, ?_⟩
        · simp [iterationCalls, frameSubmitInfo]
        · intro r' h; simp at h
      | done r2 =>
        simp only [Outcome.state] at ht2 hf2 hn2 hi2
        refine ⟨steps1, steps2, hs1, hs2, ⟨_, ?_, List.prefix_refl _⟩, ?_⟩
        · simp [advanceCurrentFrameIndex, emit, Outcome.state, ht2, iterationCalls,
            frameSubmitInfo]
        · intro r' h
          simp only [andThen_done, Outcome.done.injEq] at h
          subst h
          simp [advanceCurrentFrameIndex, emit, ht2, hf2, hn2, hi2, iterationCalls,
            frameSubmitInfo]

/-- C1: in an iteration of `renderLoop` in which neither acquire nor present
reports a stale swapchain (and the driver accepts the submission), the calls
made are exactly: wait on the in-flight fence of the current frame, acquire,
update the camera and the model uniform buffer for the acquired index, reset
the fence, submit, present, advance the frame index; the iteration returns. -/
theorem renderLoop_call_sequence (driver : Driver) (input : FrameInput) (r : Renderer)
    (hacquire : input.acquire.1 = true) (hpresent : input.present = true)
    (hsubmit : ∀ info fence,
      driver (Action.vkQueueSubmit QueueFlags.Graphics info fence) = true) :
    ∃ r', renderLoop driver input r = Outcome.done r'
      ∧ r'.trace = r.trace ++
          [ Action.vkWaitForFences r.presentation.getInFlightFence,
            Action.acquireNextSwapChainImage,
            Action.cameraUpdateUniformBuffer input.acquire.2,
            Action.modelUpdateUniformBuffer input.acquire.2,
            Action.vkResetFences r.presentation.getInFlightFence,
            Action.vkQueueSubmit QueueFlags.Graphics
              (frameSubmitInfo r.presentation.currentFrame input.acquire.2)
              r.presentation.getInFlightFence,
            Action.presentImageToSwapChain,
            Action.advanceCurrentFrameIndex ] := by
  unfold renderLoop
  simp [acquireNextSwapChainImage, presentImageToSwapChain, submitToQueueSynced,
    hacquire, hpresent, hsubmit, ShaderPlayGround.call, emit, advanceCurrentFrameIndex,
    frameSubmitInfo, VulkanPresentation.getIndex, VulkanPresentation.getInFlightFence,
    VulkanPresentation.getImageAvailableVkSemaphore,
    VulkanPresentation.getRenderFinishedVkSemaphore]

/-- Witness for C1: the sample iteration on the initialised sample renderer. -/
theorem renderLoop_call_sequence_witness :
    ∃ r', renderLoop accepting sampleFrameInput sampleRenderer = Outcome.done r'
      ∧ r'.trace = sampleRenderer.trace ++
          [ Action.vkWaitForFences sampleRenderer.presentation.getInFlightFence,
            Action.acquireNextSwapChainImage,
            Action.cameraUpdateUniformBuffer sampleFrameInput.acquire.2,
            Action.modelUpdateUniformBuffer sampleFrameInput.acquire.2,
            Action.vkResetFences sampleRenderer.presentation.getInFlightFence,
            Action.vkQueueSubmit QueueFlags.Graphics
              (frameSubmitInfo sampleRenderer.presentation.currentFrame
                sampleFrameInput.acquire.2)
              sampleRenderer.presentation.getInFlightFence,
            Action.presentImageToSwapChain,
            Action.advanceCurrentFrameIndex ] :=
  renderLoop_call_sequence accepting sampleFrameInput sampleRenderer rfl rfl (fun _ _ => rfl)

theorem isSubmit_of_isRebuildStep (a : Action) (h : a.isRebuildStep = true) :
    a.isSubmit = false := by
  cases a <;> simp_all [Action.isRebuildStep, Action.isSubmit]

theorem filter_isSubmit_rebuildCalls (flag : Bool) (steps : List Action)
    (hs : ∀ a ∈ steps, a.isRebuildStep = true) :
    (rebuildCalls flag steps).filter Action.isSubmit = [] := by
  rw [List.filter_eq_nil_iff]
  intro a ha
  unfold rebuildCalls at ha
  cases flag with
  | true => simp at ha
  | false =>
    simp only [Bool.false_eq_true, if_false, List.mem_cons] at ha
    rcases ha with h | h
    · rw [h]; simp [Action.isSubmit]
    · rw [isSubmit_of_isRebuildStep a (hs a h)]; simp

theorem filter_isSubmit_iterationCalls (frame : Nat) (acquire : Bool × Nat) (present : Bool)
    (steps1 steps2 : List Action)
    (hs1 : ∀ a ∈ steps1, a.isRebuildStep = true) (hs2 : ∀ a ∈ steps2, a.isRebuildStep = true) :
    (iterationCalls frame acquire present steps1 steps2).filter Action.isSubmit
      = [Action.vkQueueSubmit QueueFlags.Graphics (frameSubmitInfo frame acquire.2)
          { frame := frame }] := by
  simp [iterationCalls, List.filter_append, List.filter_cons,
    filter_isSubmit_rebuildCalls _ _ hs1, filter_isSubmit_rebuildCalls _ _ hs2,
    Action.isSubmit]

/-- C2: the queue submission of `renderLoop`.  In every outcome of an iteration
the calls contain at most one submission; when the iteration returns they start
with the wait on the in-flight fence of the current frame and contain exactly
one submission, to the graphics queue, which waits on exactly the
image-available semaphore of the current frame, signals exactly the
render-finished semaphore of the current frame, carries the fence that was
waited on, and submits exactly the graphics command buffer at the image index
that the acquire left in the presentation object. -/
theorem renderLoop_single_submission (driver : Driver) (input : FrameInput) (r : Renderer) :
    (∃ calls, (renderLoop driver input r).state.trace = r.trace ++ calls
        ∧ (calls.filter Action.isSubmit).length ≤ 1)
      ∧ ∀ r', renderLoop driver input r = Outcome.done r' →
          ∃ calls, r'.trace = r.trace ++ calls
            ∧ calls.head? = some (Action.vkWaitForFences r.presentation.getInFlightFence)
            ∧ calls.filter Action.isSubmit =
                [Action.vkQueueSubmit QueueFlags.Graphics
                  { commandBuffers :=
                      [{ pool := CommandPool.graphics, index := r'.presentation.getIndex }]
                    waitSemaphores := [r.presentation.getImageAvailableVkSemaphore]
                    waitDstStageMask := [VK_PIPELINE_STAGE_COLOR_ATTACHMENT_OUTPUT_BIT]
                    signalSemaphores := [r.presentation.getRenderFinishedVkSemaphore] }
                  r.presentation.getInFlightFence]
            ∧ r'.presentation.getIndex = input.acquire.2 := by
  obtain ⟨steps1, steps2, hs1, hs2, ⟨calls, htrace, hprefix⟩, hdone⟩ :=
    renderLoop_calls driver input r
  constructor
  · refine ⟨calls, htrace, ?_⟩
    have hlen := (List.IsPrefix.filter Action.isSubmit hprefix).length_le
    rw [filter_isSubmit_iterationCalls _ _ _ _ _ hs1 hs2] at hlen
    exact hlen
  · intro r' h
    obtain ⟨ht, _, _, hi⟩ := hdone r' h
    refine ⟨_, ht, ?_, ?_, hi⟩
    · simp [iterationCalls, VulkanPresentation.getInFlightFence]
    · rw [filter_isSubmit_iterationCalls _ _ _ _ _ hs1 hs2]
      simp [frameSubmitInfo, VulkanPresentation.getIndex, hi,
        VulkanPresentation.getInFlightFence, VulkanPresentation.getImageAvailableVkSemaphore,
        VulkanPresentation.getRenderFinishedVkSemaphore]

/-- Witness for C2: an iteration of the sample renderer in which both acquire and
present report a stale swapchain returns, and its only submission is the one
described. -/
theorem renderLoop_single_submission_witness :
    ∃ r', renderLoop accepting sampleStaleInput sampleRenderer = Outcome.done r'
      ∧ ∃ calls, r'.trace = sampleRenderer.trace ++ calls
        ∧ calls.head? = some (Action.vkWaitForFences { frame := 0 })
        ∧ calls.filter Action.isSubmit =
            [Action.vkQueueSubmit QueueFlags.Graphics
              { commandBuffers := [{ pool := CommandPool.graphics, index := 1 }]
                waitSemaphores := [Semaphore.imageAvailable 0]
                waitDstStageMask := [VK_PIPELINE_STAGE_COLOR_ATTACHMENT_OUTPUT_BIT]
                signalSemaphores := [Semaphore.renderFinished 0] }
              { frame := 0 }] :=
  ⟨(renderLoop accepting sampleStaleInput sampleRenderer).state, rfl, by
    obtain ⟨calls, h1, h2, h3, h4⟩ :=
      (renderLoop_single_submission accepting sampleStaleInput sampleRenderer).2
        (renderLoop accepting sampleStaleInput sampleRenderer).state rfl
    refine ⟨calls, h1, h2, ?_⟩
    rw [h3, h4]
    rfl⟩

theorem PhaseSortedUpTo.nil : PhaseSortedUpTo 0 [] :=
  ⟨List.Pairwise.nil, by simp⟩

theorem PhaseSortedUpTo.append {c c' : Nat} {l l2 : List Action} (h : PhaseSortedUpTo c l)
    (h2 : ∀ b ∈ l2, b.phase = c') (hc : c ≤ c') : PhaseSortedUpTo c' (l ++ l2) := by
  constructor
  · rw [List.pairwise_append]
    refine ⟨h.1, ?_, ?_⟩
    · rw [List.pairwise_iff_forall_sublist]
      intro a b hab
      have ha := h2 a (hab.subset (by simp))
      have hb := h2 b (hab.subset (by simp))
      omega
    · intro a ha b hb
      have := h.2 a ha
      have := h2 b hb
      omega
  · intro a ha
    rcases List.mem_append.mp ha with h' | h'
    · have := h.2 a h'; omega
    · have := h2 a h'; omega

theorem precedes_of_phaseSorted {c : Nat} {calls : List Action} (hs : PhaseSortedUpTo c calls)
    (p q : Action → Bool) (k : Nat)
    (hp : ∀ a, p a = true → a.phase ≤ k) (hq : ∀ b, q b = true → k < b.phase) :
    Precedes p q calls := by
  intro i j a b hi hj hpa hqb
  by_contra hij
  have hji : j ≤ i := Nat.le_of_not_lt hij
  have hpa' := hp a hpa
  have hqb' := hq b hqb
  rcases Nat.eq_or_lt_of_le hji with h | h
  · subst h
    rw [hi] at hj
    cases hj
    omega
  · obtain ⟨hil, hia⟩ := List.getElem?_eq_some_iff.mp hi
    obtain ⟨hjl, hjb⟩ := List.getElem?_eq_some_iff.mp hj
    have := (List.pairwise_iff_getElem.mp hs.1) j i hjl hil h
    rw [hia, hjb] at this
    omega

theorem precedes_of_split (p q : Action → Bool) (front back : List Action)
    (hfront : ∀ a ∈ front, q a = false) (hback : ∀ b ∈ back, p b = false) :
    Precedes p q (front ++ back) := by
  intro i j a b hi hj hpa hqb
  have hj' : front.length ≤ j := by
    by_contra hlt
    rw [List.getElem?_append_left (Nat.lt_of_not_le hlt)] at hj
    have := hfront b (List.getElem?_mem hj)
    rw [hqb] at this
    cases this
  have hi' : i < front.length := by
    by_contra hge
    rw [List.getElem?_append_right (Nat.le_of_not_lt hge)] at hi
    have := hback a (List.getElem?_mem hi)
    rw [hpa] at this
    cases this
  omega

theorem precedes_eq_of_split (x y : Action) (front back : List Action)
    (hfront : y ∉ front) (hback : x ∉ back) :
    Precedes (fun a => a == x) (fun a => a == y) (front ++ back) := by
  apply precedes_of_split
  · intro a ha
    cases h : (a == y)
    · rfl
    · rw [eq_of_beq h] at ha
      exact absurd ha hfront
  · intro b hb
    cases h : (b == x)
    · rfl
    · rw [eq_of_beq h] at hb
      exact absurd hb hback

theorem phase_pollActions (k : Nat) : ∀ b ∈ pollActions k, b.phase = 0 := by
  intro b hb
  simp only [pollActions, List.mem_flatten, List.mem_replicate] at hb
  obtain ⟨l, ⟨_, hl⟩, hbl⟩ := hb
  subst hl
  simp only [List.mem_cons, List.mem_singleton, List.not_mem_nil, or_false] at hbl
  rcases hbl with h | h <;> rw [h] <;> rfl

theorem phase_buildActions (n : Nat) (extent : VkExtent2D) :
    ∀ b ∈ buildActions n extent, b.phase = 10 := by
  intro b hb
  simp only [buildActions, descriptorActions, descriptorSetActions, List.mem_append,
    List.mem_cons, List.mem_singleton, List.mem_flatMap, List.mem_map, List.mem_range,
    List.not_mem_nil, or_false] at hb
  rcases hb with ((h | h) | h) | h
  · rcases h with h | h <;> rw [h] <;> rfl
  · rcases h with (h | h) | ⟨i, _, h | h⟩ <;> rw [h] <;> rfl
  · rcases h with h | h | h | h | h | h | h | h | h | h | h | h | h <;> rw [h] <;> rfl
  · obtain ⟨i, _, h⟩ := h
    rw [← h]; rfl

theorem phase_recordActions (extent : VkExtent2D) (numIndices g c : Nat) :
    ∀ b ∈ recordActions extent numIndices g c, b.phase = 12 := by
  intro b hb
  simp only [recordActions, recordGraphicsActions, recordComputeActions, List.mem_append,
    List.mem_cons, List.mem_singleton, List.mem_flatMap, List.mem_map, List.mem_range,
    List.not_mem_nil, or_false] at hb
  rcases hb with ⟨i, _, (h | ⟨cmd, _, h⟩) | h⟩ | ⟨i, _, h | h⟩
  · rw [h]; rfl
  · rw [← h]; rfl
  · rw [h]; rfl
  · rw [h]; rfl
  · rw [h]; rfl

theorem isRecording_recordActions (extent : VkExtent2D) (numIndices g c : Nat) :
    ∀ b ∈ recordActions extent numIndices g c, b.isRecording = true := by
  intro b hb
  have := phase_recordActions extent numIndices g c b hb
  cases b <;> simp_all [Action.phase, Action.isRecording]

/-- The calls of a rebuild up to, but not including, the allocation of the
command buffers. -/
theorem recreateActions_front_sorted (win : WindowInput) (r : Renderer) :
    ∃ front, recreateActions win r = front
        ++ [ Action.vkAllocateCommandBuffers CommandPool.graphics win.imageCount,
             Action.vkAllocateCommandBuffers CommandPool.compute win.imageCount ]
        ++ recordActions (chooseSwapExtent win.capabilities win.windowSize) r.numIndices
            win.imageCount win.imageCount
      ∧ PhaseSortedUpTo 10 front := by
  refine ⟨[] ++ (Action.enterRecreate :: pollActions (pollRounds win.framebufferSizes))
      ++ [Action.vkDeviceWaitIdle]
      ++ [ Action.vkDestroyImage Attachment.depth, Action.vkFreeMemory Attachment.depth,
           Action.vkDestroyImageView Attachment.depth,
           Action.vkDestroyImage Attachment.msaaColor, Action.vkFreeMemory Attachment.msaaColor,
           Action.vkDestroyImageView Attachment.msaaColor ]
      ++ (List.range r.frameBuffers.length).map Action.vkDestroyFramebuffer
      ++ [ Action.vkFreeCommandBuffers CommandPool.graphics r.graphicsCommandBuffers.length,
           Action.vkFreeCommandBuffers CommandPool.compute r.computeCommandBuffers.length ]
      ++ [Action.vkDestroyPipeline]
      ++ [Action.vkDestroyPipelineLayout]
      ++ [Action.vkDestroyRenderPass]
      ++ [ Action.presentationCleanup, Action.vkDestroyDescriptorSetLayout,
           Action.vkDestroyDescriptorPool ]
      ++ [Action.presentationCreate]
      ++ buildActions win.imageCount (chooseSwapExtent win.capabilities win.windowSize),
    ?_, ?_⟩
  · simp [recreateActions, cleanupActions]
  · refine PhaseSortedUpTo.append (c := 9) ?_ (phase_buildActions _ _) (by omega)
    refine PhaseSortedUpTo.append (c := 8) ?_ (by simp [Action.phase]) (by omega)
    refine PhaseSortedUpTo.append (c := 7) ?_ (by simp [Action.phase]) (by omega)
    refine PhaseSortedUpTo.append (c := 6) ?_ (by simp [Action.phase]) (by omega)
    refine PhaseSortedUpTo.append (c := 5) ?_ (by simp [Action.phase]) (by omega)
    refine PhaseSortedUpTo.append (c := 4) ?_ (by simp [Action.phase]) (by omega)
    refine PhaseSortedUpTo.append (c := 3) ?_ (by simp [Action.phase]) (by omega)
    refine PhaseSortedUpTo.append (c := 2) ?_ (by simp [Action.phase]) (by omega)
    refine PhaseSortedUpTo.append (c := 1) ?_ (by simp [Action.phase]) (by omega)
    refine PhaseSortedUpTo.append (c := 0) ?_ (by simp [Action.phase]) (by omega)
    refine PhaseSortedUpTo.append (c := 0) PhaseSortedUpTo.nil ?_ (by omega)
    intro b hb
    rcases List.mem_cons.mp hb with h | h
    · rw [h]; rfl
    · exact phase_pollActions _ b h

theorem recreateActions_sorted (win : WindowInput) (r : Renderer) :
    PhaseSortedUpTo 12 (recreateActions win r) := by
  obtain ⟨front, heq, hsorted⟩ := recreateActions_front_sorted win r
  rw [heq]
  refine PhaseSortedUpTo.append (c := 11) ?_ (phase_recordActions _ _ _ _) (by omega)
  exact PhaseSortedUpTo.append hsorted (by simp [Action.phase]) (by omega)

theorem phase_of_beq {x : Action} (a : Action) (h : (a == x) = true) : a.phase = x.phase := by
  rw [eq_of_beq h]

theorem phase_isDestroyOrFree (a : Action) (h : a.isDestroyOrFree = true) : 1 < a.phase := by
  cases a <;> simp_all [Action.isDestroyOrFree, Action.phase]

theorem phase_isAttachmentDestroy (a : Action) (h : a.isAttachmentDestroy = true) :
    a.phase = 2 := by
  cases a <;> simp_all [Action.isAttachmentDestroy, Action.phase]

theorem phase_isDestroyFramebuffer (a : Action) (h : a.isDestroyFramebuffer = true) :
    a.phase = 3 := by
  cases a <;> simp_all [Action.isDestroyFramebuffer, Action.phase]

theorem phase_isFreeCommandBuffers (a : Action) (h : a.isFreeCommandBuffers = true) :
    a.phase = 4 := by
  cases a <;> simp_all [Action.isFreeCommandBuffers, Action.phase]

theorem phase_isAllocateCommandBuffers (a : Action) (h : a.isAllocateCommandBuffers = true) :
    a.phase = 11 := by
  cases a <;> simp_all [Action.isAllocateCommandBuffers, Action.phase]

theorem phase_isRecording (a : Action) (h : a.isRecording = true) : a.phase = 12 := by
  cases a <;> simp_all [Action.isRecording, Action.phase]

theorem phase_isTeardownStep (a : Action) (h : a.isTeardownStep = true) : a.phase ≤ 7 := by
  simp only [Action.isTeardownStep, Bool.or_eq_true] at h
  rcases h with ((((h | h) | h) | h) | h) | h
  · rw [phase_isAttachmentDestroy a h]; omega
  · rw [phase_isDestroyFramebuffer a h]; omega
  · rw [phase_isFreeCommandBuffers a h]; omega
  · rw [phase_of_beq a h]; decide
  · rw [phase_of_beq a h]; decide
  · rw [phase_of_beq a h]; decide

/-- C5: the order of the calls of a teardown/rebuild.  When every driver call
succeeds and the window reports a non-zero size, `recreate` returns, and among
its calls: the wait for device idle is made, and before every destroy or free;
the images, memories and views of the depth and multisample color attachments
are destroyed before every frame buffer; every frame buffer is destroyed before
the command buffers are freed; the command buffers are freed before the
pipeline is destroyed, the pipeline before the pipeline layout, the pipeline
layout before the render pass; the swapchain is recreated after all of these;
and the calls end with the allocation of the graphics and compute command
buffers followed by the recording, with no allocation or recording earlier.
The recording is, for each image of the new swapchain in index order, the begin
of its graphics command buffer, the seven commands of
`recordGraphicsCommandBuffer` and the end, and then, for each image, the begin
and the end of its compute command buffer; every graphics command buffer holds
its seven commands afterwards. -/
theorem recreate_call_order (driver : Driver) (win : WindowInput) (r : Renderer)
    (hd : ∀ a, driver a = true) (hw : reportsSize win.framebufferSizes = true) :
    ∃ r' calls front recording,
      recreate driver win r = Outcome.done r'
      ∧ r'.trace = r.trace ++ calls
      ∧ Action.vkDeviceWaitIdle ∈ calls
      ∧ (∀ att, Action.vkDestroyImage att ∈ calls ∧ Action.vkFreeMemory att ∈ calls
          ∧ Action.vkDestroyImageView att ∈ calls)
      ∧ (∀ i, i < r.frameBuffers.length → Action.vkDestroyFramebuffer i ∈ calls)
      ∧ Action.vkFreeCommandBuffers CommandPool.graphics r.graphicsCommandBuffers.length ∈ calls
      ∧ Action.vkFreeCommandBuffers CommandPool.compute r.computeCommandBuffers.length ∈ calls
      ∧ Action.vkDestroyPipeline ∈ calls
      ∧ Action.vkDestroyPipelineLayout ∈ calls
      ∧ Action.vkDestroyRenderPass ∈ calls
      ∧ Action.presentationCreate ∈ calls
      ∧ Precedes (fun a => a == Action.vkDeviceWaitIdle) Action.isDestroyOrFree calls
      ∧ Precedes Action.isAttachmentDestroy Action.isDestroyFramebuffer calls
      ∧ Precedes Action.isDestroyFramebuffer Action.isFreeCommandBuffers calls
      ∧ Precedes Action.isFreeCommandBuffers (fun a => a == Action.vkDestroyPipeline) calls
      ∧ Precedes (fun a => a == Action.vkDestroyPipeline)
          (fun a => a == Action.vkDestroyPipelineLayout) calls
      ∧ Precedes (fun a => a == Action.vkDestroyPipelineLayout)
          (fun a => a == Action.vkDestroyRenderPass) calls
      ∧ Precedes Action.isTeardownStep (fun a => a == Action.presentationCreate) calls
      ∧ calls = front
          ++ [ Action.vkAllocateCommandBuffers CommandPool.graphics win.imageCount,
               Action.vkAllocateCommandBuffers CommandPool.compute win.imageCount ]
          ++ recording
      ∧ (∀ a ∈ front, a.isAllocateCommandBuffers = false ∧ a.isRecording = false)
      ∧ (∀ a ∈ recording, a.isRecording = true)
      ∧ recording
          = (List.range win.imageCount).flatMap (fun i =>
              [ Action.vkBeginCommandBuffer { pool := CommandPool.graphics, index := i },
                Action.vkCmd { pool := CommandPool.graphics, index := i }
                  (Cmd.beginRenderPass i (chooseSwapExtent win.capabilities win.windowSize) 2),
                Action.vkCmd { pool := CommandPool.graphics, index := i } Cmd.bindPipeline,
                Action.vkCmd { pool := CommandPool.graphics, index := i }
                  (Cmd.bindVertexBuffers 0 1),
                Action.vkCmd { pool := CommandPool.graphics, index := i } Cmd.bindIndexBuffer,
                Action.vkCmd { pool := CommandPool.graphics, index := i }
                  (Cmd.bindDescriptorSets i),
                Action.vkCmd { pool := CommandPool.graphics, index := i }
                  (Cmd.drawIndexed r.numIndices 1 0 0 0),
                Action.vkCmd { pool := CommandPool.graphics, index := i } Cmd.endRenderPass,
                Action.vkEndCommandBuffer { pool := CommandPool.graphics, index := i } ])
            ++ (List.range win.imageCount).flatMap (fun i =>
              [ Action.vkBeginCommandBuffer { pool := CommandPool.compute, index := i },
                Action.vkEndCommandBuffer { pool := CommandPool.compute, index := i } ])
      ∧ recording.length = 11 * win.imageCount
      ∧ (∀ i, i < win.imageCount →
          r'.graphicsCommandBuffers[i]? = some
            { commands :=
              [ Cmd.beginRenderPass i (chooseSwapExtent win.capabilities win.windowSize) 2,
                Cmd.bindPipeline, Cmd.bindVertexBuffers 0 1, Cmd.bindIndexBuffer,
                Cmd.bindDescriptorSets i, Cmd.drawIndexed r.numIndices 1 0 0 0,
                Cmd.endRenderPass ] }) := by
  have hacc : driver = accepting := funext hd
  subst hacc
  obtain ⟨front, hfront, hfs⟩ := recreateActions_front_sorted win r
  have hs := recreateActions_sorted win r
  have hlen : ∀ (n : Nat) (f : Nat → List Action) (k : Nat), (∀ i, (f i).length = k) →
      ((List.range n).flatMap f).length = k * n := by
    intro n f k hf
    induction n with
    | zero => rfl
    | succ n ih =>
      rw [List.range_succ, List.flatMap_append, List.length_append, ih]
      simp [hf, Nat.mul_succ]
  refine ⟨recreated win r, recreateActions win r, front, _, recreate_accepting win r hw, rfl,
    ?_, ?_, ?_, ?_, ?_, ?_, ?_, ?_, ?_, ?_, ?_, ?_, ?_, ?_, ?_, ?_, hfront, ?_,
    isRecording_recordActions _ _ _ _, rfl, ?_, ?_⟩
  · simp [recreateActions, cleanupActions]
  · intro att
    cases att <;> simp [recreateActions, cleanupActions]
  · intro i hi
    simp [recreateActions, cleanupActions, hi]
  · simp [recreateActions, cleanupActions]
  · simp [recreateActions, cleanupActions]
  · simp [recreateActions, cleanupActions]
  · simp [recreateActions, cleanupActions]
  · simp [recreateActions, cleanupActions]
  · simp [recreateActions, cleanupActions]
  · exact precedes_of_phaseSorted hs _ _ 1
      (fun a h => by rw [phase_of_beq a h]; decide) phase_isDestroyOrFree
  · exact precedes_of_phaseSorted hs _ _ 2
      (fun a h => by rw [phase_isAttachmentDestroy a h])
      (fun a h => by rw [phase_isDestroyFramebuffer a h]; omega)
  · exact precedes_of_phaseSorted hs _ _ 3
      (fun a h => by rw [phase_isDestroyFramebuffer a h])
      (fun a h => by rw [phase_isFreeCommandBuffers a h]; omega)
  · exact precedes_of_phaseSorted hs _ _ 4
      (fun a h => by rw [phase_isFreeCommandBuffers a h])
      (fun a h => by rw [phase_of_beq a h]; decide)
  · exact precedes_of_phaseSorted hs _ _ 5
      (fun a h => by rw [phase_of_beq a h]; decide)
      (fun a h => by rw [phase_of_beq a h]; decide)
  · exact precedes_of_phaseSorted hs _ _ 6
      (fun a h => by rw [phase_of_beq a h]; decide)
      (fun a h => by rw [phase_of_beq a h]; decide)
  · exact precedes_of_phaseSorted hs _ _ 7 phase_isTeardownStep
      (fun a h => by rw [phase_of_beq a h]; decide)
  · intro a ha
    have hphase := hfs.2 a ha
    constructor
    · cases hal : a.isAllocateCommandBuffers
      · rfl
      · rw [phase_isAllocateCommandBuffers a hal] at hphase; omega
    · cases hrec : a.isRecording
      · rfl
      · rw [phase_isRecording a hrec] at hphase; omega
  · unfold recordActions
    rw [List.length_append, hlen _ (recordGraphicsActions _ _) 9 (fun _ => rfl),
      hlen _ recordComputeActions 2 (fun _ => rfl)]
    omega
  · intro i hi
    simp [recreated, hi, graphicsCommands]

/-- Witness for C5: a rebuild of the initialised sample renderer for the sample
window, which has three images; the calls end with the two allocations and the
33 recording calls. -/
theorem recreate_call_order_witness :
    ∃ r' calls front recording,
      recreate accepting sampleWindow sampleRenderer = Outcome.done r'
      ∧ r'.trace = sampleRenderer.trace ++ calls
      ∧ Precedes (fun a => a == Action.vkDeviceWaitIdle) Action.isDestroyOrFree calls
      ∧ Precedes Action.isTeardownStep (fun a => a == Action.presentationCreate) calls
      ∧ calls = front
          ++ [ Action.vkAllocateCommandBuffers CommandPool.graphics 3,
               Action.vkAllocateCommandBuffers CommandPool.compute 3 ]
          ++ recording
      ∧ recording.length = 33 := by
  obtain ⟨r', calls, front, recording, h1, h2, _, _, _, _, _, _, _, _, _, h3, _, _, _, _, _, h4,
      h5, _, _, _, h6, _⟩ :=
    recreate_call_order accepting sampleWindow sampleRenderer (fun _ => rfl) rfl
  exact ⟨r', calls, front, recording, h1, h2, h3, h4, h5, h6⟩

/-- C6, as stated, fails: in the teardown of the sample renderer the depth image
is destroyed by the second call and its view only by the fourth, so the view is
not destroyed before the image it views. -/
theorem cleanup_view_before_image_counterexample :
    (cleanup sampleRenderer).trace[1]? = some (Action.vkDestroyImage Attachment.depth)
      ∧ (cleanup sampleRenderer).trace[3]? = some (Action.vkDestroyImageView Attachment.depth)
      ∧ ¬ Precedes (fun a => a == Action.vkDestroyImageView Attachment.depth)
            (fun a => a == Action.vkDestroyImage Attachment.depth)
            (cleanup sampleRenderer).trace := by
  refine ⟨rfl, rfl, fun h => ?_⟩
  have := h 3 1 _ _ rfl rfl rfl rfl
  omega

/-- C6, amended: in the teardown performed by `cleanup`, for each frame buffer
attachment (depth and multisample color) the image and the image view are each
destroyed exactly once, and the image is destroyed before the view of it. -/
theorem cleanup_image_before_view (r : Renderer) (att : Attachment) :
    ∃ calls, (cleanup r).trace = r.trace ++ calls
      ∧ calls.count (Action.vkDestroyImage att) = 1
      ∧ calls.count (Action.vkDestroyImageView att) = 1
      ∧ Precedes (fun a => a == Action.vkDestroyImage att)
          (fun a => a == Action.vkDestroyImageView att) calls := by
  refine ⟨cleanupActions r.frameBuffers.length r.graphicsCommandBuffers.length
    r.computeCommandBuffers.length, by rw [cleanup_eq], ?_, ?_, ?_⟩
  · cases att <;>
      simp [cleanupActions, List.count_cons, List.count_append, List.count_eq_zero]
  · cases att <;>
      simp [cleanupActions, List.count_cons, List.count_append, List.count_eq_zero]
  · cases att with
    | depth =>
      have hsplit : cleanupActions r.frameBuffers.length r.graphicsCommandBuffers.length
          r.computeCommandBuffers.length
          = [Action.vkDeviceWaitIdle, Action.vkDestroyImage Attachment.depth]
            ++ (cleanupActions r.frameBuffers.length r.graphicsCommandBuffers.length
                r.computeCommandBuffers.length).drop 2 := by
        simp [cleanupActions]
      rw [hsplit]
      apply precedes_eq_of_split
      · simp
      · simp [cleanupActions]
    | msaaColor =>
      have hsplit : cleanupActions r.frameBuffers.length r.graphicsCommandBuffers.length
          r.computeCommandBuffers.length
          = [ Action.vkDeviceWaitIdle, Action.vkDestroyImage Attachment.depth,
              Action.vkFreeMemory Attachment.depth, Action.vkDestroyImageView Attachment.depth,
              Action.vkDestroyImage Attachment.msaaColor ]
            ++ (cleanupActions r.frameBuffers.length r.graphicsCommandBuffers.length
                r.computeCommandBuffers.length).drop 5 := by
        simp [cleanupActions]
      rw [hsplit]
      apply precedes_eq_of_split
      · simp
      · simp [cleanupActions]

/-- C9: rebuilding twice in a row gives the same observable state as rebuilding
once for the final window.  When every driver call succeeds and the window
reports a non-zero size in both rebuilds, all three rebuilds return; the state
after the second rebuild and the state after a single rebuild for the final
window agree on image count, extent, number of frame buffers, numbers of
command buffers and descriptor sets; the extent is the one chosen for the final
window; and there is one descriptor set per image, holding the model uniform
buffer at binding 0, the camera uniform buffer at binding 1 and the sampler at
binding 2. -/
theorem recreate_idempotent (driver : Driver) (win1 win2 : WindowInput) (r : Renderer)
    (hd : ∀ a, driver a = true)
    (hw1 : reportsSize win1.framebufferSizes = true)
    (hw2 : reportsSize win2.framebufferSizes = true) :
    ∃ r1 twice once,
      recreate driver win1 r = Outcome.done r1
      ∧ recreate driver win2 r1 = Outcome.done twice
      ∧ recreate driver win2 r = Outcome.done once
      ∧ observable twice = observable once
      ∧ (observable twice).imageCount = win2.imageCount
      ∧ (observable twice).extent = chooseSwapExtent win2.capabilities win2.windowSize
      ∧ (observable twice).frameBufferCount = win2.imageCount
      ∧ (observable twice).graphicsCommandBufferCount = win2.imageCount
      ∧ (observable twice).computeCommandBufferCount = win2.imageCount
      ∧ (observable twice).descriptorSets.length = win2.imageCount
      ∧ ∀ i, i < win2.imageCount →
          (observable twice).descriptorSets[i]? = some
            { writes :=
                [ { dstSet := i, dstBinding := 0, descriptorCount := 1,
                    descriptorType := VkDescriptorType.uniformBuffer,
                    resource := BoundResource.modelUniformBuffer i },
                  { dstSet := i, dstBinding := 1, descriptorCount := 1,
                    descriptorType := VkDescriptorType.uniformBuffer,
                    resource := BoundResource.cameraUniformBuffer i },
                  { dstSet := i, dstBinding := 2, descriptorCount := 1,
                    descriptorType := VkDescriptorType.combinedImageSampler,
                    resource := BoundResource.textureSampler } ] } := by
  have hacc : driver = accepting := funext hd
  subst hacc
  refine ⟨recreated win1 r, recreated win2 (recreated win1 r), recreated win2 r,
    recreate_accepting win1 r hw1, recreate_accepting win2 _ hw2, recreate_accepting win2 r hw2,
    ?_, ?_, ?_, ?_, ?_, ?_, ?_, ?_⟩
  · simp [observable, recreated, recreatedPresentation, VulkanPresentation.getCount,
      VulkanPresentation.getVkExtent]
  · simp [observable, recreated, recreatedPresentation, VulkanPresentation.getCount]
  · simp [observable, recreated, recreatedPresentation, VulkanPresentation.getVkExtent]
  · simp [observable, recreated]
  · simp [observable, recreated]
  · simp [observable, recreated]
  · simp [observable, recreated]
  · intro i hi
    simp [observable, recreated, writeGraphicsSetInfo, hi]

/-- Witness for C9: the sample renderer rebuilt for the sample window and then for
the later window, against a single rebuild for the later window. -/
theorem recreate_idempotent_witness :
    reportsSize sampleWindow.framebufferSizes = true
      ∧ reportsSize sampleWindowLater.framebufferSizes = true
      ∧ ∃ r1 twice once,
          recreate accepting sampleWindow sampleRenderer = Outcome.done r1
          ∧ recreate accepting sampleWindowLater r1 = Outcome.done twice
          ∧ recreate accepting sampleWindowLater sampleRenderer = Outcome.done once
          ∧ observable twice = observable once
          ∧ (observable twice).extent = { width := 1024, height := 768 } := by
  refine ⟨rfl, rfl, ?_⟩
  obtain ⟨r1, twice, once, h1, h2, h3, h4, _, h5, _⟩ :=
    recreate_idempotent accepting sampleWindow sampleWindowLater sampleRenderer
      (fun _ => rfl) rfl rfl
  exact ⟨r1, twice, once, h1, h2, h3, h4, by rw [h5]; rfl⟩

/-- C10: command buffers are freed and reallocated by a rebuild.  When every
driver call succeeds and the window reports a non-zero size, `recreate`
returns; its calls free all graphics command buffers and all compute command
buffers held before (the whole vectors), every such free is made before every
allocation of command buffers, one allocation per pool for as many command
buffers as the new swapchain has images is made, and afterwards each of the two
vectors holds exactly as many command buffers as the swapchain has images; the
same holds for the vectors after `initialize`. -/
theorem recreate_reallocates_command_buffers (driver : Driver) (win : WindowInput)
    (r : Renderer) (hd : ∀ a, driver a = true)
    (hw : reportsSize win.framebufferSizes = true) :
    (∃ r' calls,
        recreate driver win r = Outcome.done r'
        ∧ r'.trace = r.trace ++ calls
        ∧ Action.vkFreeCommandBuffers CommandPool.graphics r.graphicsCommandBuffers.length
            ∈ calls
        ∧ Action.vkFreeCommandBuffers CommandPool.compute r.computeCommandBuffers.length
            ∈ calls
        ∧ Action.vkAllocateCommandBuffers CommandPool.graphics r'.presentation.getCount ∈ calls
        ∧ Action.vkAllocateCommandBuffers CommandPool.compute r'.presentation.getCount ∈ calls
        ∧ Precedes Action.isFreeCommandBuffers Action.isAllocateCommandBuffers calls
        ∧ r'.graphicsCommandBuffers.length = r'.presentation.getCount
        ∧ r'.computeCommandBuffers.length = r'.presentation.getCount)
      ∧ ∃ r0, initializeRenderer driver r = Outcome.done r0
          ∧ r0.graphicsCommandBuffers.length = r0.presentation.getCount
          ∧ r0.computeCommandBuffers.length = r0.presentation.getCount := by
  have hacc : driver = accepting := funext hd
  subst hacc
  constructor
  · refine ⟨recreated win r, recreateActions win r, recreate_accepting win r hw, rfl,
      ?_, ?_, ?_, ?_, ?_, ?_, ?_⟩
    · simp [recreateActions, cleanupActions]
    · simp [recreateActions, cleanupActions]
    · simp [recreateActions, recreated, recreatedPresentation, VulkanPresentation.getCount]
    · simp [recreateActions, recreated, recreatedPresentation, VulkanPresentation.getCount]
    · exact precedes_of_phaseSorted (recreateActions_sorted win r) _ _ 4
        (fun a h => by rw [phase_isFreeCommandBuffers a h])
        (fun a h => by rw [phase_isAllocateCommandBuffers a h]; omega)
    · simp [recreated, recreatedPresentation, VulkanPresentation.getCount]
    · simp [recreated, recreatedPresentation, VulkanPresentation.getCount]
  · exact ⟨initialized r, initializeRenderer_accepting r,
      by simp [initialized, VulkanPresentation.getCount],
      by simp [initialized, VulkanPresentation.getCount]⟩

/-- Witness for C10: the initialised sample renderer holds two graphics and two
compute command buffers; its rebuild for the sample window frees them and
allocates three of each. -/
theorem recreate_reallocates_command_buffers_witness :
    reportsSize sampleWindow.framebufferSizes = true
      ∧ ∃ r' calls,
          recreate accepting sampleWindow sampleRenderer = Outcome.done r'
          ∧ r'.trace = sampleRenderer.trace ++ calls
          ∧ Action.vkFreeCommandBuffers CommandPool.graphics 2 ∈ calls
          ∧ Action.vkFreeCommandBuffers CommandPool.compute 2 ∈ calls
          ∧ Precedes Action.isFreeCommandBuffers Action.isAllocateCommandBuffers calls
          ∧ r'.graphicsCommandBuffers.length = 3
          ∧ r'.computeCommandBuffers.length = 3 := by
  refine ⟨rfl, ?_⟩
  obtain ⟨⟨r', calls, h1, h2, h3, h4, _, _, h5, h6, h7⟩, _⟩ :=
    recreate_reallocates_command_buffers accepting sampleWindow sampleRenderer
      (fun _ => rfl) rfl
  have hr : r' = (recreate accepting sampleWindow sampleRenderer).state := by rw [h1]; rfl
  refine ⟨r', calls, h1, h2, h3, h4, h5, ?_, ?_⟩
  · rw [h6, hr]; rfl
  · rw [h7, hr]; rfl

/-! ## The bound on the frames in flight -/

theorem SafeCalls.mono (n : Nat) (calls : List Action) :
    ∀ (inFlight inFlight' : List Fence), (∀ f ∈ inFlight', f ∈ inFlight) →
      SafeCalls n inFlight calls → SafeCalls n inFlight' calls := by
  induction calls with
  | nil => intro _ _ _ _; trivial
  | cons a rest ih =>
    intro inFlight inFlight' hsub h
    cases a
    case vkWaitForFences fence =>
      simp only [SafeCalls] at h ⊢
      refine ih _ _ (fun f hf => ?_) h
      rw [List.mem_filter] at hf ⊢
      exact ⟨hsub f hf.1, hf.2⟩
    case vkDeviceWaitIdle =>
      simp only [SafeCalls] at h ⊢
      exact h
    case vkQueueSubmit queue submit fence =>
      simp only [SafeCalls] at h ⊢
      refine ⟨h.1, fun hm => h.2.1 (hsub _ hm), h.2.2.1, ih _ _ (fun f hf => ?_) h.2.2.2⟩
      rcases List.mem_append.mp hf with h' | h'
      · exact List.mem_append_left _ h'
      · exact List.mem_append_right _ (hsub f h')
    all_goals
      simp only [SafeCalls] at h ⊢
      exact ih _ _ hsub h

theorem SafeCalls.append_of_quiet (n : Nat) (quiet rest : List Action)
    (hq : ∀ a ∈ quiet, a.isSync = false) :
    ∀ inFlight : List Fence, SafeCalls n inFlight rest → SafeCalls n inFlight (quiet ++ rest) := by
  induction quiet with
  | nil => intro _ h; exact h
  | cons a l ih =>
    intro inFlight h
    have ha := hq a (List.mem_cons_self _ _)
    have hl : ∀ b ∈ l, b.isSync = false := fun b hb => hq b (List.mem_cons_of_mem _ hb)
    cases a
    case vkWaitForFences fence => simp [Action.isSync] at ha
    case vkQueueSubmit queue submit fence => simp [Action.isSync] at ha
    case vkDeviceWaitIdle =>
      simp only [List.cons_append, SafeCalls]
      exact ih hl [] (SafeCalls.mono n rest inFlight [] (by simp) h)
    all_goals
      simp only [List.cons_append, SafeCalls]
      exact ih hl inFlight h

theorem SafeCalls.of_prefix (n : Nat) (calls rest : List Action) :
    ∀ inFlight : List Fence, SafeCalls n inFlight (calls ++ rest) → SafeCalls n inFlight calls := by
  induction calls with
  | nil => intro _ _; trivial
  | cons a l ih =>
    intro inFlight h
    cases a
    case vkQueueSubmit queue submit fence =>
      simp only [List.cons_append, SafeCalls] at h ⊢
      exact ⟨h.1, h.2.1, h.2.2.1, ih _ h.2.2.2⟩
    all_goals
      simp only [List.cons_append, SafeCalls] at h ⊢
      exact ih _ h

theorem isSync_of_isRebuildStep (a : Action) (h : a.isRebuildStep = true) :
    a.isSync = false := by
  cases a <;> simp_all [Action.isRebuildStep, Action.isSync]

theorem isSync_rebuildCalls (flag : Bool) (steps : List Action)
    (hs : ∀ a ∈ steps, a.isRebuildStep = true) :
    ∀ a ∈ rebuildCalls flag steps, a.isSync = false := by
  intro a ha
  unfold rebuildCalls at ha
  cases flag with
  | true => simp at ha
  | false =>
    simp only [Bool.false_eq_true, if_false, List.mem_cons] at ha
    rcases ha with h | h
    · rw [h]; rfl
    · exact isSync_of_isRebuildStep a (hs a h)

theorem safeCalls_iterationCalls (n frame : Nat) (acquire : Bool × Nat) (present : Bool)
    (steps1 steps2 : List Action)
    (hs1 : ∀ a ∈ steps1, a.isRebuildStep = true) (hs2 : ∀ a ∈ steps2, a.isRebuildStep = true)
    (hframe : frame < n) (inFlight : List Fence) :
    SafeCalls n inFlight (iterationCalls frame acquire present steps1 steps2) := by
  have hshape : iterationCalls frame acquire present steps1 steps2
      = Action.vkWaitForFences { frame := frame }
        :: ((Action.acquireNextSwapChainImage :: rebuildCalls acquire.1 steps1)
          ++ (Action.cameraUpdateUniformBuffer acquire.2
            :: Action.modelUpdateUniformBuffer acquire.2
            :: Action.vkResetFences { frame := frame }
            :: Action.vkQueueSubmit QueueFlags.Graphics (frameSubmitInfo frame acquire.2)
                { frame := frame }
            :: ((Action.presentImageToSwapChain :: rebuildCalls present steps2
                  ++ [Action.advanceCurrentFrameIndex]) ++ []))) := by
    simp [iterationCalls]
  rw [hshape]
  simp only [SafeCalls]
  apply SafeCalls.append_of_quiet
  · exact isSync_rebuildCalls _ _ hs1
  · simp only [SafeCalls]
    refine ⟨by simp [frameSubmitInfo], ?_, hframe, ?_⟩
    · intro hmem
      simp [List.mem_filter] at hmem
    · apply SafeCalls.append_of_quiet
      · intro a ha
        rcases List.mem_append.mp ha with h | h
        · exact isSync_rebuildCalls _ _ hs2 a h
        · simp only [List.mem_singleton] at h
          rw [h]; rfl
      · trivial

theorem length_le_of_nodup_of_bounded (n : Nat) (inFlight : List Fence)
    (hnodup : inFlight.Nodup) (hbound : ∀ f ∈ inFlight, f.frame < n) :
    inFlight.length ≤ n := by
  have hinj : ∀ f g : Fence, f.frame = g.frame → f = g := by
    intro f g h
    cases f; cases g
    simp only at h
    rw [h]
  have hmap : (inFlight.map Fence.frame).Nodup :=
    List.Nodup.map (fun f g h => hinj f g h) hnodup
  have hsub : inFlight.map Fence.frame ⊆ List.range n := by
    intro x hx
    obtain ⟨f, hf, rfl⟩ := List.mem_map.mp hx
    exact List.mem_range.mpr (hbound f hf)
  have := (List.subperm_of_subset hmap hsub).length_le
  simpa using this

theorem FrameSystem.Inv.step (n : Nat) (hn : 0 < n) {s s' : FrameSystem}
    (hinv : FrameSystem.Inv n s) (hstep : FrameSystem.Step s s') : FrameSystem.Inv n s' := by
  obtain ⟨hnodup, hbound, hsafe, hrun⟩ := hinv
  cases hstep with
  | signal fence =>
    refine ⟨hnodup.filter _, fun f hf => hbound f (List.mem_filter.mp hf).1, ?_, hrun⟩
    exact SafeCalls.mono n _ _ _ (fun f hf => (List.mem_filter.mp hf).1) hsafe
  | exec a rest hpending henabled =>
    simp only [hpending] at hsafe
    refine ⟨?_, ?_, ?_, hrun⟩
    · cases a
      case vkQueueSubmit queue submit fence =>
        simp only [SafeCalls] at hsafe
        simp only [Action.gpuEffect]
        obtain ⟨hlen, hnot, _, _⟩ := hsafe
        match hcb : submit.commandBuffers, hlen with
        | [], _ => simpa using hnodup
        | [c], _ =>
          simp only [List.map_cons, List.map_nil, List.singleton_append]
          exact List.nodup_cons.mpr ⟨hnot, hnodup⟩
      all_goals exact hnodup
    · cases a
      case vkQueueSubmit queue submit fence =>
        simp only [SafeCalls] at hsafe
        simp only [Action.gpuEffect]
        intro f hf
        rcases List.mem_append.mp hf with h | h
        · obtain ⟨c, _, hc⟩ := List.mem_map.mp h
          rw [← hc]
          exact hsafe.2.2.1
        · exact hbound f h
      all_goals exact hbound
    · cases a
      case vkWaitForFences fence =>
        simp only [SafeCalls] at hsafe
        simp only [Action.enabled, Bool.not_eq_true', List.contains_eq_any_beq,
          List.any_eq_false, beq_iff_eq] at henabled
        simp only [Action.gpuEffect]
        refine SafeCalls.mono n _ _ _ (fun f hf => ?_) hsafe
        rw [List.mem_filter]
        refine ⟨hf, ?_⟩
        simp only [bne_iff_ne, ne_eq]
        intro hfe
        exact henabled f hf hfe.symm
      case vkDeviceWaitIdle =>
        simp only [SafeCalls] at hsafe
        simp only [Action.enabled, List.isEmpty_iff] at henabled
        simp only [Action.gpuEffect, henabled]
        exact hsafe
      case vkQueueSubmit queue submit fence =>
        simp only [SafeCalls] at hsafe
        exact hsafe.2.2.2
      all_goals
        simp only [SafeCalls] at hsafe
        exact hsafe
  | iterate driver input hpending hrunning =>
    obtain ⟨hcount, hframe⟩ := hrun hrunning
    obtain ⟨steps1, steps2, hs1, hs2, ⟨calls, htrace, hprefix⟩, hdone⟩ :=
      renderLoop_calls driver input { s.renderer with trace := [] }
    refine ⟨hnodup, hbound, ?_, ?_⟩
    · simp only [FrameSystem.startIteration, htrace, List.nil_append]
      obtain ⟨rest, hrest⟩ := hprefix
      apply SafeCalls.of_prefix n calls rest
      rw [hrest]
      exact safeCalls_iterationCalls n _ _ _ _ _ hs1 hs2 hframe _
    · intro hdone'
      simp only [FrameSystem.startIteration] at hdone' ⊢
      cases ho : renderLoop driver input { s.renderer with trace := [] } with
      | done r' =>
        obtain ⟨_, hf, hc, _⟩ := hdone r' ho
        simp only [Outcome.state]
        refine ⟨by rw [hc]; exact hcount, ?_⟩
        rw [hf]
        simp only [hcount]
        exact Nat.mod_lt _ hn
      | raised r' => rw [ho] at hdone'; simp [Outcome.isDone] at hdone'
      | blocked r' => rw [ho] at hdone'; simp [Outcome.isDone] at hdone'

/-- C8: over any sequence of iterations of `renderLoop`, interleaved in any way
with the signalling of fences, where a submission makes its command buffer in
flight under its fence and a fence wait returns only once no command buffer is
in flight under that fence, the number of submitted command buffers whose fence
has not signalled never exceeds the configured number of frames in flight.  The
system starts from a renderer whose frame index is below that number. -/
theorem frames_in_flight_bound (init : Renderer)
    (hinit : init.presentation.currentFrame < init.presentation.framesInFlight)
    (s : FrameSystem) (hreach : FrameSystem.Reachable init s) :
    s.inFlight.length ≤ init.presentation.framesInFlight := by
  have hn : 0 < init.presentation.framesInFlight := Nat.lt_of_le_of_lt (Nat.zero_le _) hinit
  have hinv : FrameSystem.Inv init.presentation.framesInFlight s := by
    induction hreach with
    | start => exact ⟨List.nodup_nil, by simp, trivial, fun _ => ⟨rfl, hinit⟩⟩
    | step _ hstep ih => exact FrameSystem.Inv.step _ hn ih hstep
  exact length_le_of_nodup_of_bounded _ _ hinv.1 hinv.2.1

theorem FrameSystem.Reachable.execNext {init : Renderer} {s : FrameSystem}
    (h : FrameSystem.Reachable init s) (hen : s.nextEnabled = true) :
    FrameSystem.Reachable init s.execNext := by
  unfold FrameSystem.execNext
  unfold FrameSystem.nextEnabled at hen
  split
  · exact h
  · next a rest hp =>
    rw [hp] at hen
    exact FrameSystem.Reachable.step h (FrameSystem.Step.exec s a rest hp hen)

theorem sampleSystemAfterSubmit_reachable :
    FrameSystem.Reachable sampleRenderer sampleSystemAfterSubmit := by
  have h0 : FrameSystem.Reachable sampleRenderer
      { renderer := sampleRenderer, pendingCalls := [], inFlight := [], running := true } :=
    FrameSystem.Reachable.start
  have h1 := FrameSystem.Reachable.step h0
    (FrameSystem.Step.iterate _ accepting sampleFrameInput rfl rfl)
  exact (((((h1.execNext rfl).execNext rfl).execNext rfl).execNext rfl).execNext rfl).execNext rfl

/-- Witness for C8: after the submission of the first iteration of the sample
renderer (two frames in flight) one command buffer is in flight, under the
fence of frame 0. -/
theorem frames_in_flight_bound_witness :
    sampleRenderer.presentation.currentFrame < sampleRenderer.presentation.framesInFlight
      ∧ sampleSystemAfterSubmit.inFlight = [{ frame := 0 }]
      ∧ sampleSystemAfterSubmit.inFlight.length ≤ sampleRenderer.presentation.framesInFlight :=
  ⟨by decide, rfl,
    frames_in_flight_bound sampleRenderer (by decide) sampleSystemAfterSubmit
      sampleSystemAfterSubmit_reachable⟩

/-! ## Frame buffers and the render pass description -/

theorem forLoop_done_of (body body2 : Nat → Renderer → Outcome)
    (h : ∀ i r r', body i r = Outcome.done r' → body2 i r = Outcome.done r') (n : Nat) :
    ∀ (first : Nat) (r r' : Renderer),
      forLoop body n first r = Outcome.done r' → forLoop body2 n first r = Outcome.done r' := by
  induction n with
  | zero => intro first r r' hd; exact hd
  | succ n ih =>
    intro first r r' hd
    simp only [forLoop] at hd ⊢
    cases hb : body first r with
    | done r1 =>
      rw [hb] at hd
      rw [h first r r1 hb]
      exact ih (first + 1) r1 r' hd
    | raised r1 => rw [hb] at hd; exact absurd hd (by simp)
    | blocked r1 => rw [hb] at hd; exact absurd hd (by simp)

theorem call_done_accepting (driver : Driver) (a : Action) (r r' : Renderer)
    (h : call driver a r = Outcome.done r') : call accepting a r = Outcome.done r' := by
  unfold call at h
  split at h
  · exact h
  · exact absurd h (by simp)

theorem createFrameBuffers_done_accepting (driver : Driver) (r r' : Renderer)
    (h : createFrameBuffers driver r = Outcome.done r') :
    createFrameBuffers accepting r = Outcome.done r' := by
  unfold createFrameBuffers at h ⊢
  exact forLoop_done_of _ _ (fun i r0 r1 hc => call_done_accepting driver _ _ _ hc) _ _ _ _ h

/-- C16: for every image count and extent, `Renderer::createFrameBuffers` returns
when the driver accepts the frame buffer creations, and whenever it returns it
has created one frame buffer per swapchain image (one creation call each, in
index order); frame buffer `i` references as many attachments as the render pass
description of `Renderer::createRenderPass` lists (three), has the view of
swapchain image `i` at the index of the resolve reference, and has the width and
height of the swapchain extent. -/
theorem createFrameBuffers_one_per_image (driver : Driver) (r : Renderer)
    (swapChainImageFormat depthFormat msaaSamples : Nat) :
    ((∀ i info, driver (Action.vkCreateFramebuffer i info) = true) →
      ∃ r', createFrameBuffers driver r = Outcome.done r') ∧
    ∀ r', createFrameBuffers driver r = Outcome.done r' →
      r'.frameBuffers.length = r.presentation.getCount ∧
      r'.trace = r.trace ++ (List.range r.presentation.getCount).map
        (fun i => Action.vkCreateFramebuffer i (framebufferInfo r.presentation.getVkExtent i)) ∧
      ∀ i, i < r.presentation.getCount →
        ∃ fb, r'.frameBuffers[i]? = some fb ∧
          fb.attachments.length
            = (renderPassCreateInfo swapChainImageFormat depthFormat
                msaaSamples).pAttachments.length ∧
          fb.attachments.length = 3 ∧
          fb.attachments[colorAttachmentResolveRef.attachment]?
            = some (ImageViewRef.swapChain i) ∧
          fb.width = r.presentation.getVkExtent.width ∧
          fb.height = r.presentation.getVkExtent.height := by
  constructor
  · intro hacc
    have : createFrameBuffers driver r = createFrameBuffers accepting r := by
      simp only [createFrameBuffers, call, hacc, accepting]
    rw [this]
    exact ⟨_, createFrameBuffers_accepting r⟩
  · intro r' hd
    have h := createFrameBuffers_done_accepting driver r r' hd
    rw [createFrameBuffers_accepting] at h
    injection h with h
    subst h
    refine ⟨by simp [VulkanPresentation.getCount], rfl, ?_⟩
    intro i hi
    refine ⟨framebufferInfo r.presentation.extent i, ?_, rfl, rfl, rfl, rfl, rfl⟩
    have hi' : i < r.presentation.imageCount := hi
    simp [hi']

/-- C16 at a concrete renderer with two swapchain images. -/
theorem createFrameBuffers_one_per_image_witness :
    ∃ r', createFrameBuffers accepting sampleRenderer = Outcome.done r' ∧
      r'.frameBuffers.length = 2 ∧
      ∃ fb, r'.frameBuffers[1]? = some fb ∧ fb.attachments.length = 3 ∧
        fb.attachments[2]? = some (ImageViewRef.swapChain 1) := by
  obtain ⟨r', hr'⟩ :=
    (createFrameBuffers_one_per_image accepting sampleRenderer 44 126 4).1 (fun _ _ => rfl)
  obtain ⟨hlen, _, hfb⟩ :=
    (createFrameBuffers_one_per_image accepting sampleRenderer 44 126 4).2 r' hr'
  obtain ⟨fb, h1, _, h3, h4, _, _⟩ := hfb 1 (by decide)
  exact ⟨r', hr', hlen, fb, h1, h3, h4⟩

/-- C17: in the render pass description of `Renderer::createRenderPass` every
attachment index a subpass references (input, color, resolve, depth-stencil) is
below the length of the attachment list, and in the one subpass the color
reference points at the multisampled color attachment (swapchain format, the
device's sample count), the depth reference at the depth attachment (depth
format) and the resolve reference at the resolve attachment (swapchain format,
one sample). -/
theorem renderPass_references_match_attachments
    (swapChainImageFormat depthFormat msaaSamples : Nat) :
    (∀ subpass ∈ (renderPassCreateInfo swapChainImageFormat depthFormat msaaSamples).pSubpasses,
      ∀ ref ∈ subpass.references,
        ref.attachment
          < (renderPassCreateInfo swapChainImageFormat depthFormat
              msaaSamples).pAttachments.length) ∧
    ∃ subpass color depth resolve,
      (renderPassCreateInfo swapChainImageFormat depthFormat msaaSamples).pSubpasses = [subpass] ∧
      subpass.pColorAttachments = [color] ∧
      subpass.pDepthStencilAttachment = some depth ∧
      subpass.pResolveAttachments = some [resolve] ∧
      subpass.references = [color, resolve, depth] ∧
      (renderPassCreateInfo swapChainImageFormat depthFormat
          msaaSamples).pAttachments[color.attachment]?
        = some (colorAttachment swapChainImageFormat msaaSamples) ∧
      (renderPassCreateInfo swapChainImageFormat depthFormat
          msaaSamples).pAttachments[depth.attachment]?
        = some (depthAttachment depthFormat msaaSamples) ∧
      (renderPassCreateInfo swapChainImageFormat depthFormat
          msaaSamples).pAttachments[resolve.attachment]?
        = some (colorAttachmentResolve swapChainImageFormat) ∧
      (colorAttachment swapChainImageFormat msaaSamples).format = swapChainImageFormat ∧
      (colorAttachment swapChainImageFormat msaaSamples).samples = msaaSamples ∧
      (depthAttachment depthFormat msaaSamples).format = depthFormat ∧
      (depthAttachment depthFormat msaaSamples).finalLayout
        = VkImageLayout.depthStencilAttachmentOptimal ∧
      (colorAttachmentResolve swapChainImageFormat).format = swapChainImageFormat ∧
      (colorAttachmentResolve swapChainImageFormat).samples = VK_SAMPLE_COUNT_1_BIT := by
  refine ⟨?_, ?_⟩
  · intro subpass hs ref href
    simp only [renderPassCreateInfo, List.mem_singleton] at hs
    subst hs
    simp only [VkSubpassDescription.references, subpassDescription, Option.getD_some,
      Option.toList, List.nil_append, List.mem_append, List.mem_singleton] at href
    rcases href with (h | h) | h <;> subst h <;>
      simp [colorAttachmentRef, colorAttachmentResolveRef, depthAttachmentRef,
        attachmentReference, renderPassCreateInfo]
  · exact ⟨_, colorAttachmentRef, depthAttachmentRef, colorAttachmentResolveRef,
      rfl, rfl, rfl, rfl, rfl, rfl, rfl, rfl, rfl, rfl, rfl, rfl, rfl, rfl⟩

/-- C18: in the render pass description of `Renderer::createRenderPass` the one
color reference of the subpass is paired with a resolve reference; the resolve
attachment has one sample and the present-source final layout; the multisampled
color attachment and the depth attachment do not have a presentable final
layout; and an attachment of the list has a presentable final layout exactly
when it is the one the resolve reference points at. -/
theorem renderPass_resolve_is_the_presentable_attachment
    (swapChainImageFormat depthFormat msaaSamples : Nat) :
    ∃ subpass color resolve,
      (renderPassCreateInfo swapChainImageFormat depthFormat msaaSamples).pSubpasses = [subpass] ∧
      subpass.colorAttachmentCount = 1 ∧
      subpass.pColorAttachments = [color] ∧
      subpass.pResolveAttachments = some [resolve] ∧
      (renderPassCreateInfo swapChainImageFormat depthFormat
          msaaSamples).pAttachments[color.attachment]?
        = some (colorAttachment swapChainImageFormat msaaSamples) ∧
      (renderPassCreateInfo swapChainImageFormat depthFormat
          msaaSamples).pAttachments[resolve.attachment]?
        = some (colorAttachmentResolve swapChainImageFormat) ∧
      (colorAttachmentResolve swapChainImageFormat).samples = VK_SAMPLE_COUNT_1_BIT ∧
      (colorAttachmentResolve swapChainImageFormat).finalLayout = VkImageLayout.presentSrcKHR ∧
      (colorAttachment swapChainImageFormat msaaSamples).samples = msaaSamples ∧
      (colorAttachment swapChainImageFormat msaaSamples).finalLayout.isPresentable = false ∧
      (depthAttachment depthFormat msaaSamples).finalLayout.isPresentable = false ∧
      ∀ i att,
        (renderPassCreateInfo swapChainImageFormat depthFormat msaaSamples).pAttachments[i]?
          = some att →
        (att.finalLayout.isPresentable = true ↔ i = resolve.attachment) := by
  refine ⟨_, colorAttachmentRef, colorAttachmentResolveRef,
    rfl, rfl, rfl, rfl, rfl, rfl, rfl, rfl, rfl, rfl, rfl, ?_⟩
  intro i att h
  match i, h with
  | 0, h =>
    simp only [renderPassCreateInfo, List.getElem?_cons_zero, Option.some.injEq] at h
    subst h
    simp [colorAttachment, attachmentDescription, VkImageLayout.isPresentable,
      colorAttachmentResolveRef, attachmentReference]
  | 1, h =>
    simp only [renderPassCreateInfo, List.getElem?_cons_succ, List.getElem?_cons_zero,
      Option.some.injEq] at h
    subst h
    simp [depthAttachment, attachmentDescription, VkImageLayout.isPresentable,
      colorAttachmentResolveRef, attachmentReference]
  | 2, h =>
    simp only [renderPassCreateInfo, List.getElem?_cons_succ, List.getElem?_cons_zero,
      Option.some.injEq] at h
    subst h
    simp [colorAttachmentResolve, attachmentDescription, VkImageLayout.isPresentable,
      colorAttachmentResolveRef, attachmentReference]
  | i + 3, h =>
    simp [renderPassCreateInfo] at h

/-! ## Commands are recorded once per image and reused -/

theorem andThen_eq_done {o : Outcome} {f : Renderer → Outcome} {r' : Renderer}
    (h : o.andThen f = Outcome.done r') : ∃ r1, o = Outcome.done r1 ∧ f r1 = Outcome.done r' := by
  cases o with
  | done r1 => exact ⟨r1, rfl, h⟩
  | raised r1 => exact absurd h (by simp)
  | blocked r1 => exact absurd h (by simp)

theorem recordLoop_done_accepting (driver : Driver) (pool : CommandPool)
    (record : Nat → Renderer → Renderer) (i : Nat) (r r' : Renderer)
    (h : ((beginCommandBuffer driver { pool := pool, index := i } r).andThen fun r =>
        endCommandBuffer driver { pool := pool, index := i } (record i r)) = Outcome.done r') :
    ((beginCommandBuffer accepting { pool := pool, index := i } r).andThen fun r =>
        endCommandBuffer accepting { pool := pool, index := i } (record i r))
      = Outcome.done r' := by
  obtain ⟨r1, h1, h2⟩ := andThen_eq_done h
  unfold beginCommandBuffer at h1 ⊢
  unfold endCommandBuffer at h2 ⊢
  rw [call_done_accepting driver _ _ _ h1]
  exact call_done_accepting driver _ _ _ h2

theorem recordAllCommandBuffers_done_accepting (driver : Driver) (r r' : Renderer)
    (h : recordAllCommandBuffers driver r = Outcome.done r') :
    recordAllCommandBuffers accepting r = Outcome.done r' := by
  unfold recordAllCommandBuffers at h ⊢
  obtain ⟨r1, h1, h2⟩ := andThen_eq_done h
  rw [forLoop_done_of _ _
    (fun i r0 r1 hc => recordLoop_done_accepting driver CommandPool.graphics
      recordGraphicsCommandBuffer i r0 r1 hc) _ _ _ _ h1]
  exact forLoop_done_of _ _
    (fun i r0 r1 hc => recordLoop_done_accepting driver CommandPool.compute
      recordComputeCommandBuffer i r0 r1 hc) _ _ _ _ h2

theorem filter_flatMap_range_nil (p : Action → Bool) (f : Nat → List Action) (n : Nat)
    (h : ∀ j, j < n → (f j).filter p = []) :
    ((List.range n).flatMap f).filter p = [] := by
  induction n with
  | zero => rfl
  | succ n ih =>
    rw [List.range_succ, List.flatMap_append, List.filter_append,
      ih (fun j hj => h j (Nat.lt_succ_of_lt hj))]
    simp [h n (Nat.lt_succ_self n)]

theorem filter_flatMap_range (p : Action → Bool) (f : Nat → List Action) (i : Nat)
    (hsame : (f i).filter p = f i) (hother : ∀ j, j ≠ i → (f j).filter p = []) (n : Nat)
    (hi : i < n) : ((List.range n).flatMap f).filter p = f i := by
  induction n with
  | zero => omega
  | succ n ih =>
    rw [List.range_succ, List.flatMap_append, List.filter_append]
    by_cases hin : i < n
    · rw [ih hin]
      simp [hother n (by omega)]
    · have : i = n := by omega
      subst this
      rw [filter_flatMap_range_nil p f i (fun j hj => hother j (by omega))]
      simp [hsame]

theorem filter_recordsInto_recordActions (extent : VkExtent2D) (numIndices g c i : Nat)
    (hi : i < g) :
    (recordActions extent numIndices g c).filter
        (fun a => a.recordsInto == some { pool := CommandPool.graphics, index := i })
      = recordGraphicsActions extent numIndices i := by
  unfold recordActions
  rw [List.filter_append,
    filter_flatMap_range _ (recordGraphicsActions extent numIndices) i ?_ ?_ g hi,
    filter_flatMap_range_nil _ recordComputeActions c ?_]
  · simp
  · intro j _
    simp [recordComputeActions, Action.recordsInto]
  · simp [recordGraphicsActions, graphicsCommands, Action.recordsInto]
  · intro j hj
    simp [recordGraphicsActions, graphicsCommands, Action.recordsInto, hj]

/-- C19: `Renderer::recordAllCommandBuffers` returns when the driver accepts
every begin and end, and whenever it returns the calls it has made on graphics
command buffer `i` are, in this order and each once: begin, begin render pass on
frame buffer `i`, bind pipeline, bind vertex buffers, bind index buffer, bind
descriptor set `i`, one indexed draw of the model's index count, end render
pass, end; the buffer then holds these commands.  An iteration of
`Renderer::renderLoop` in which acquire and present both succeed (so that
`recreate` is not entered) makes no begin, command or end call on any command
buffer, whatever the driver answers, and leaves the recorded command buffers as
they are. -/
theorem commands_recorded_once_and_reused (driver : Driver) (input : FrameInput)
    (r : Renderer) :
    ((∀ cmdBuffer, driver (Action.vkBeginCommandBuffer cmdBuffer) = true
        ∧ driver (Action.vkEndCommandBuffer cmdBuffer) = true) →
      ∃ r', recordAllCommandBuffers driver r = Outcome.done r') ∧
    (∀ r', recordAllCommandBuffers driver r = Outcome.done r' →
      ∃ calls, r'.trace = r.trace ++ calls ∧
        ∀ i, i < r.graphicsCommandBuffers.length →
          calls.filter
              (fun a => a.recordsInto == some { pool := CommandPool.graphics, index := i })
            = [ Action.vkBeginCommandBuffer { pool := CommandPool.graphics, index := i },
                Action.vkCmd { pool := CommandPool.graphics, index := i }
                  (Cmd.beginRenderPass i r.presentation.getVkExtent 2),
                Action.vkCmd { pool := CommandPool.graphics, index := i } Cmd.bindPipeline,
                Action.vkCmd { pool := CommandPool.graphics, index := i }
                  (Cmd.bindVertexBuffers 0 1),
                Action.vkCmd { pool := CommandPool.graphics, index := i } Cmd.bindIndexBuffer,
                Action.vkCmd { pool := CommandPool.graphics, index := i }
                  (Cmd.bindDescriptorSets i),
                Action.vkCmd { pool := CommandPool.graphics, index := i }
                  (Cmd.drawIndexed r.numIndices 1 0 0 0),
                Action.vkCmd { pool := CommandPool.graphics, index := i } Cmd.endRenderPass,
                Action.vkEndCommandBuffer { pool := CommandPool.graphics, index := i } ]
          ∧ r'.graphicsCommandBuffers[i]? = some
              { commands :=
                [ Cmd.beginRenderPass i r.presentation.getVkExtent 2, Cmd.bindPipeline,
                  Cmd.bindVertexBuffers 0 1, Cmd.bindIndexBuffer, Cmd.bindDescriptorSets i,
                  Cmd.drawIndexed r.numIndices 1 0 0 0, Cmd.endRenderPass ] }) ∧
    (input.acquire.1 = true → input.present = true →
      (∀ a ∈ (renderLoop driver input r).state.trace.drop r.trace.length,
        a.isRecording = false)
      ∧ (renderLoop driver input r).state.graphicsCommandBuffers = r.graphicsCommandBuffers
      ∧ (renderLoop driver input r).state.computeCommandBuffers
          = r.computeCommandBuffers) := by
  refine ⟨?_, ?_, ?_⟩
  · intro hacc
    have : recordAllCommandBuffers driver r = recordAllCommandBuffers accepting r := by
      simp only [recordAllCommandBuffers, beginCommandBuffer, endCommandBuffer, call, hacc,
        accepting]
    rw [this]
    exact ⟨_, recordAllCommandBuffers_accepting r⟩
  · intro r' hd
    have h := recordAllCommandBuffers_done_accepting driver r r' hd
    rw [recordAllCommandBuffers_accepting] at h
    injection h with h
    subst h
    refine ⟨_, rfl, ?_⟩
    intro i hi
    constructor
    · rw [filter_recordsInto_recordActions _ _ _ _ _ hi]
      rfl
    · simp [hi, graphicsCommands, VulkanPresentation.getVkExtent]
  · intro hacquire hpresent
    obtain ⟨steps1, steps2, _, _, ⟨calls, htrace, hprefix⟩, _⟩ := renderLoop_calls driver input r
    refine ⟨?_, ?_, ?_⟩
    · intro a ha
      rw [htrace, List.drop_left] at ha
      have hmem := hprefix.subset ha
      simp only [iterationCalls, rebuildCalls, hacquire, hpresent, if_true, List.append_nil,
        List.cons_append, List.nil_append, List.mem_cons, List.mem_singleton,
        List.not_mem_nil, or_false] at hmem
      rcases hmem with h | h | h | h | h | h | h | h <;> subst h <;> rfl
    · unfold renderLoop
      simp only [acquireNextSwapChainImage, presentImageToSwapChain, submitToQueueSynced,
        hacquire, hpresent, ShaderPlayGround.call, emit, advanceCurrentFrameIndex,
        Bool.not_true, Bool.false_eq_true, if_false, andThen_done]
      split_ifs <;> rfl
    · unfold renderLoop
      simp only [acquireNextSwapChainImage, presentImageToSwapChain, submitToQueueSynced,
        hacquire, hpresent, ShaderPlayGround.call, emit, advanceCurrentFrameIndex,
        Bool.not_true, Bool.false_eq_true, if_false, andThen_done]
      split_ifs <;> rfl

/-- C19 at the sample renderer: recording returns and makes the nine calls on
graphics command buffer 1; the sample iteration makes no recording call. -/
theorem commands_recorded_once_and_reused_witness :
    (∃ r', recordAllCommandBuffers accepting sampleRenderer = Outcome.done r') ∧
    (∀ a ∈ (renderLoop accepting sampleFrameInput sampleRenderer).state.trace.drop
        sampleRenderer.trace.length, a.isRecording = false) :=
  ⟨(commands_recorded_once_and_reused accepting sampleFrameInput sampleRenderer).1
      (fun _ => ⟨rfl, rfl⟩),
    ((commands_recorded_once_and_reused accepting sampleFrameInput sampleRenderer).2.2
      rfl rfl).1⟩

/-! ## Descriptor pool sizes -/

theorem foldl_addToDescriptorPoolSize (models : List (String × Model)) :
    ∀ poolSizes : List VkDescriptorPoolSize,
      models.foldl (fun poolSizes model => model.2.addToDescriptorPoolSize poolSizes) poolSizes
        = poolSizes ++ models.flatMap (fun model => model.2.addToDescriptorPoolSize []) := by
  induction models with
  | nil => intro poolSizes; simp
  | cons model models ih =>
    intro poolSizes
    rw [List.foldl_cons, ih]
    simp [Model.addToDescriptorPoolSize]

theorem expandDescriptorPool_eq {F : Type} (scene : Scene F)
    (poolSizes : List VkDescriptorPoolSize) :
    scene.expandDescriptorPool poolSizes
      = poolSizes ++ (scene.m_modelMap.flatMap (fun model => model.2.addToDescriptorPoolSize [])
        ++ [ { type := VkDescriptorType.storageImage,
               descriptorCount := scene.m_numSwapChainImages },
             { type := VkDescriptorType.uniformBuffer,
               descriptorCount := scene.m_numSwapChainImages } ]) := by
  simp [Scene.expandDescriptorPool, foldl_addToDescriptorPoolSize]

theorem length_flatMap_addToDescriptorPoolSize (models : List (String × Model)) :
    (models.flatMap (fun model => model.2.addToDescriptorPoolSize [])).length
      = 2 * models.length := by
  induction models with
  | nil => rfl
  | cons model models ih =>
    rw [List.flatMap_cons, List.length_append, ih]
    simp [Model.addToDescriptorPoolSize]
    omega

/-- C15: `Model::addToDescriptorPoolSize` appends to the list exactly the entry
(uniform buffer, `2 * uboCount * N`) followed by the entry (combined image
sampler, `7 * uboCount * N`), the products taken modulo `2 ^ 32`;
`Scene::expandDescriptorPool` appends the two entries of every model, in the
order of the models, followed by exactly (storage image, `N`) and (uniform
buffer, `N`); the entries already in the list keep their positions and values,
and the list grows by `2 * (number of models) + 2`. -/
theorem expandDescriptorPool_appends {F : Type} (scene : Scene F) (model : Model)
    (poolSizes : List VkDescriptorPoolSize) :
    model.addToDescriptorPoolSize poolSizes
      = poolSizes ++
        [ { type := VkDescriptorType.uniformBuffer,
            descriptorCount := (2 * model.m_uboCount * model.m_numSwapChainImages) % 2 ^ 32 },
          { type := VkDescriptorType.combinedImageSampler,
            descriptorCount := (7 * model.m_uboCount * model.m_numSwapChainImages) % 2 ^ 32 } ] ∧
    scene.expandDescriptorPool poolSizes
      = poolSizes
        ++ scene.m_modelMap.flatMap (fun entry =>
            [ { type := VkDescriptorType.uniformBuffer,
                descriptorCount :=
                  (2 * entry.2.m_uboCount * entry.2.m_numSwapChainImages) % 2 ^ 32 },
              { type := VkDescriptorType.combinedImageSampler,
                descriptorCount :=
                  (7 * entry.2.m_uboCount * entry.2.m_numSwapChainImages) % 2 ^ 32 } ])
        ++ [ { type := VkDescriptorType.storageImage,
               descriptorCount := scene.m_numSwapChainImages },
             { type := VkDescriptorType.uniformBuffer,
               descriptorCount := scene.m_numSwapChainImages } ] ∧
    (∀ i, i < poolSizes.length →
      (model.addToDescriptorPoolSize poolSizes)[i]? = poolSizes[i]?
      ∧ (scene.expandDescriptorPool poolSizes)[i]? = poolSizes[i]?) ∧
    (model.addToDescriptorPoolSize poolSizes).length = poolSizes.length + 2 ∧
    (scene.expandDescriptorPool poolSizes).length
      = poolSizes.length + (2 * scene.m_modelMap.length + 2) := by
  have hmodel : ∀ l : List VkDescriptorPoolSize, model.addToDescriptorPoolSize l
      = l ++
        [ { type := VkDescriptorType.uniformBuffer,
            descriptorCount := (2 * model.m_uboCount * model.m_numSwapChainImages) % 2 ^ 32 },
          { type := VkDescriptorType.combinedImageSampler,
            descriptorCount :=
              (7 * model.m_uboCount * model.m_numSwapChainImages) % 2 ^ 32 } ] := by
    intro l
    simp [Model.addToDescriptorPoolSize, toUint32]
  refine ⟨hmodel poolSizes, ?_, ?_, ?_, ?_⟩
  · rw [expandDescriptorPool_eq]
    simp [Model.addToDescriptorPoolSize, toUint32]
  · intro i hi
    constructor
    · rw [hmodel, List.getElem?_append_left hi]
    · rw [expandDescriptorPool_eq, List.getElem?_append_left hi]
  · rw [hmodel]
    simp
  · rw [expandDescriptorPool_eq]
    simp only [List.length_append, length_flatMap_addToDescriptorPoolSize, List.length_cons,
      List.length_nil]

theorem descriptorTotal_one_model {F : Type} (scene : Scene F) (camera : Camera)
    (name : String) (model : Model) (n : Nat)
    (hmodels : scene.m_modelMap = [(name, model)])
    (hubo : model.m_uboCount = 1) (hmodel : model.m_numSwapChainImages = n)
    (hscene : scene.m_numSwapChainImages = n) (hcamera : camera.m_numSwapChainImages = n) :
    descriptorTotal VkDescriptorType.uniformBuffer (ownersPoolSizes scene camera)
      = (2 * n) % 2 ^ 32 + n + n
    ∧ descriptorTotal VkDescriptorType.combinedImageSampler (ownersPoolSizes scene camera)
      = (7 * n) % 2 ^ 32
    ∧ descriptorTotal VkDescriptorType.storageImage (ownersPoolSizes scene camera) = n := by
  simp [descriptorTotal, ownersPoolSizes, Camera.expandDescriptorPool, expandDescriptorPool_eq,
    hmodels, hubo, hmodel, hscene, hcamera, Model.addToDescriptorPoolSize, toUint32,
    List.filter_cons, Nat.add_assoc]

/-! ## The scene after its constructor -/

theorem foldl_range_induction {β : Type} (P : Nat → β → Prop) (f : β → Nat → β) (b : β)
    (n : Nat) (h0 : P 0 b) (hstep : ∀ k s, k < n → P k s → P (k + 1) (f s k)) :
    P n ((List.range n).foldl f b) := by
  induction n with
  | zero => exact h0
  | succ n ih =>
    rw [List.range_succ, List.foldl_append]
    exact hstep n _ (Nat.lt_succ_self n)
      (ih (fun k s hk hP => hstep k s (Nat.lt_succ_of_lt hk) hP))

theorem createUniformBuffers_spec {F : Type} (n : Nat) (scene : Scene F)
    (h : Scene.TimeVectors n scene) :
    Scene.TimeVectors n (Scene.createUniformBuffers n scene)
    ∧ (Scene.createUniformBuffers n scene).m_modelMap = scene.m_modelMap
    ∧ (∀ j, j < n → (Scene.createUniformBuffers n scene).m_timeBuffers[j]? = some (some j)
        ∧ (Scene.createUniformBuffers n scene).m_timeBufferMemories[j]? = some (some j)) := by
  unfold Scene.createUniformBuffers
  have hfinal := foldl_range_induction
    (fun k s => Scene.TimeVectors n s ∧ s.m_modelMap = scene.m_modelMap ∧ ∀ j, j < n → j < k →
      s.m_timeBuffers[j]? = some (some j) ∧ s.m_timeBufferMemories[j]? = some (some j))
    (fun scene i => { scene with
      m_timeBuffers := scene.m_timeBuffers.set i (some i)
      m_timeBufferMemories := scene.m_timeBufferMemories.set i (some i) })
    scene n ⟨h, rfl, fun j _ hj => absurd hj (Nat.not_lt_zero j)⟩ ?_
  · exact ⟨hfinal.1, hfinal.2.1, fun j hj => hfinal.2.2 j hj hj⟩
  · intro k s hk ⟨hs, hm, hbelow⟩
    refine ⟨⟨hs.numSwapChainImages, ?_, ?_, hs.timeUBOs, hs.mappedDataTimeBuffers⟩, hm, ?_⟩
    · simp [hs.timeBuffers]
    · simp [hs.timeBufferMemories]
    · intro j hjn hj
      by_cases hjk : j = k
      · subst hjk
        simp [List.getElem?_set_self, hs.timeBuffers, hs.timeBufferMemories, hjn]
      · have := hbelow j hjn (by omega)
        simp only [List.getElem?_set_ne (Ne.symm hjk)]
        exact this

@[simp] theorem memcpyTimeUBO_numSwapChainImages {F : Type} (dst : Option Nat) (ubo : TimeUBO F)
    (scene : Scene F) :
    (Scene.memcpyTimeUBO dst ubo scene).m_numSwapChainImages = scene.m_numSwapChainImages := by
  cases dst <;> rfl

@[simp] theorem memcpyTimeUBO_timeBuffers {F : Type} (dst : Option Nat) (ubo : TimeUBO F)
    (scene : Scene F) :
    (Scene.memcpyTimeUBO dst ubo scene).m_timeBuffers = scene.m_timeBuffers := by
  cases dst <;> rfl

@[simp] theorem memcpyTimeUBO_timeBufferMemories {F : Type} (dst : Option Nat)
    (ubo : TimeUBO F) (scene : Scene F) :
    (Scene.memcpyTimeUBO dst ubo scene).m_timeBufferMemories = scene.m_timeBufferMemories := by
  cases dst <;> rfl

@[simp] theorem memcpyTimeUBO_timeUBOs {F : Type} (dst : Option Nat) (ubo : TimeUBO F)
    (scene : Scene F) :
    (Scene.memcpyTimeUBO dst ubo scene).m_timeUBOs = scene.m_timeUBOs := by
  cases dst <;> rfl

@[simp] theorem memcpyTimeUBO_mappedDataTimeBuffers {F : Type} (dst : Option Nat)
    (ubo : TimeUBO F) (scene : Scene F) :
    (Scene.memcpyTimeUBO dst ubo scene).m_mappedDataTimeBuffers
      = scene.m_mappedDataTimeBuffers := by
  cases dst <;> rfl

@[simp] theorem memcpyTimeUBO_modelMap {F : Type} (dst : Option Nat) (ubo : TimeUBO F)
    (scene : Scene F) :
    (Scene.memcpyTimeUBO dst ubo scene).m_modelMap = scene.m_modelMap := by
  cases dst <;> rfl

theorem initializeTimeUBO_spec {F : Type} (zero : F) (add : F → F → F)
    (haltonSequenceAt : Nat → Nat → F) (n k : Nat) (scene : Scene F)
    (h : Scene.TimeVectors n scene) (hk : k < n)
    (hmem : scene.m_timeBufferMemories[k]? = some (some k)) :
    Scene.TimeVectors n (Scene.initializeTimeUBO zero add haltonSequenceAt k scene)
    ∧ (Scene.initializeTimeUBO zero add haltonSequenceAt k scene).m_modelMap = scene.m_modelMap
    ∧ (Scene.initializeTimeUBO zero add haltonSequenceAt k scene).m_timeBuffers
        = scene.m_timeBuffers
    ∧ (Scene.initializeTimeUBO zero add haltonSequenceAt k scene).m_timeBufferMemories
        = scene.m_timeBufferMemories
    ∧ (Scene.initializeTimeUBO zero add haltonSequenceAt k scene).m_mappedDataTimeBuffers
        = scene.m_mappedDataTimeBuffers.set k (some k) := by
  have hlt : k < scene.m_timeUBOs.length := by rw [h.timeUBOs]; exact hk
  have hubo : scene.m_timeUBOs[k]? = some scene.m_timeUBOs[k] := List.getElem?_eq_getElem hlt
  simp only [Scene.initializeTimeUBO, hubo, hmem]
  refine ⟨⟨?_, ?_, ?_, ?_, ?_⟩, ?_, ?_, ?_, ?_⟩ <;>
    simp [h.numSwapChainImages, h.timeBuffers, h.timeBufferMemories, h.timeUBOs,
      h.mappedDataTimeBuffers]
theorem createScene_spec {F : Type} (uboCount : Nat) (scene : Scene F) :
    (Scene.createScene uboCount scene).m_modelMap = scene.m_modelMap ++
        [("house", { m_uboCount := uboCount,
                     m_numSwapChainImages := scene.m_numSwapChainImages })]
    ∧ (Scene.createScene uboCount scene).m_numSwapChainImages = scene.m_numSwapChainImages
    ∧ (Scene.createScene uboCount scene).m_timeBuffers = scene.m_timeBuffers
    ∧ (Scene.createScene uboCount scene).m_timeBufferMemories = scene.m_timeBufferMemories
    ∧ (Scene.createScene uboCount scene).m_timeUBOs = scene.m_timeUBOs
    ∧ (Scene.createScene uboCount scene).m_mappedDataTimeBuffers
        = scene.m_mappedDataTimeBuffers := by
  simp only [Scene.createScene]
  exact foldl_range_induction
    (fun _ (s : Scene F) => s.m_modelMap = scene.m_modelMap ++
        [("house", { m_uboCount := uboCount,
                     m_numSwapChainImages := scene.m_numSwapChainImages })]
      ∧ s.m_numSwapChainImages = scene.m_numSwapChainImages
      ∧ s.m_timeBuffers = scene.m_timeBuffers
      ∧ s.m_timeBufferMemories = scene.m_timeBufferMemories
      ∧ s.m_timeUBOs = scene.m_timeUBOs
      ∧ s.m_mappedDataTimeBuffers = scene.m_mappedDataTimeBuffers)
    (fun scene i => { scene with m_textureMap := scene.m_textureMap ++ ["compute" ++ toString i] })
    { scene with
      m_modelMap := scene.m_modelMap ++
        [("house", { m_uboCount := uboCount,
                     m_numSwapChainImages := scene.m_numSwapChainImages })] }
    scene.m_numSwapChainImages ⟨rfl, rfl, rfl, rfl, rfl, rfl⟩ (fun k s _ hs => hs)

theorem construct_spec {F : Type} (zero : F) (add : F → F → F)
    (haltonSequenceAt : Nat → Nat → F) (blank : TimeUBO F) (n uboCount : Nat) :
    Scene.Constructed n (Scene.construct zero add haltonSequenceAt blank n uboCount)
    ∧ (Scene.construct zero add haltonSequenceAt blank n uboCount).m_modelMap
        = [("house", { m_uboCount := uboCount, m_numSwapChainImages := n })] := by
  unfold Scene.construct
  simp only []
  generalize hs0 :
    ({ m_numSwapChainImages := n, m_timeBuffers := resize [] n none,
       m_timeBufferMemories := resize [] n none, m_timeUBOs := resize [] n blank,
       m_mappedDataTimeBuffers := resize [] n none, m_modelMap := [], m_textureMap := [],
       mappedMemory := fun _ => none } : Scene F) = s0
  have h0 : Scene.TimeVectors n s0 ∧ s0.m_modelMap = [] := by
    subst hs0
    exact ⟨⟨rfl, length_resize _ _ _, length_resize _ _ _, length_resize _ _ _,
      length_resize _ _ _⟩, rfl⟩
  obtain ⟨h1, hm1, hh1⟩ := createUniformBuffers_spec n s0 h0.1
  generalize Scene.createUniformBuffers n s0 = s1 at h1 hm1 hh1
  have h2 := foldl_range_induction
    (fun k s => Scene.TimeVectors n s ∧ s.m_modelMap = []
      ∧ s.m_timeBuffers = s1.m_timeBuffers ∧ s.m_timeBufferMemories = s1.m_timeBufferMemories
      ∧ ∀ j, j < n → j < k → s.m_mappedDataTimeBuffers[j]? = some (some j))
    (fun scene i => Scene.initializeTimeUBO zero add haltonSequenceAt i scene) s1 n
    ⟨h1, hm1.trans h0.2, rfl, rfl, fun j _ hj => absurd hj (Nat.not_lt_zero j)⟩
    (by
      intro k s hk ⟨hs, hm, hb, hmem, hbelow⟩
      obtain ⟨g1, g2, g3, g4, g5⟩ := initializeTimeUBO_spec zero add haltonSequenceAt n k s hs hk
        (by rw [hmem]; exact (hh1 k hk).2)
      refine ⟨g1, g2.trans hm, g3.trans hb, g4.trans hmem, ?_⟩
      intro j hjn hj
      rw [g5]
      by_cases hjk : j = k
      · subst hjk
        simp [List.getElem?_set_self, hs.mappedDataTimeBuffers, hjn]
      · rw [List.getElem?_set_ne (Ne.symm hjk)]
        exact hbelow j hjn (by omega))
  generalize (List.range n).foldl
    (fun scene i => Scene.initializeTimeUBO zero add haltonSequenceAt i scene) s1 = s2 at h2
  obtain ⟨hv, hm, hb, hmem, hp⟩ := h2
  obtain ⟨c1, c2, c3, c4, c5, c6⟩ := createScene_spec uboCount s2
  refine ⟨⟨⟨c2.trans hv.numSwapChainImages, ?_, ?_, ?_, ?_⟩, ?_, ?_, ?_⟩, ?_⟩
  · rw [c3]; exact hv.timeBuffers
  · rw [c4]; exact hv.timeBufferMemories
  · rw [c5]; exact hv.timeUBOs
  · rw [c6]; exact hv.mappedDataTimeBuffers
  · intro j hj; rw [c3, hb]; exact (hh1 j hj).1
  · intro j hj; rw [c4, hmem]; exact (hh1 j hj).2
  · intro j hj; rw [c6]; exact hp j hj hj
  · rw [c1, hm, hv.numSwapChainImages]; rfl

theorem updateTimeUBO_spec {F : Type} (add : F → F → F) (deltaTime : F) (n i : Nat)
    (scene : Scene F) (h : Scene.Constructed n scene) :
    Scene.Constructed n (Scene.updateTimeUBO add deltaTime i scene)
    ∧ (Scene.updateTimeUBO add deltaTime i scene).m_timeBuffers = scene.m_timeBuffers
    ∧ (Scene.updateTimeUBO add deltaTime i scene).m_timeBufferMemories
        = scene.m_timeBufferMemories
    ∧ (Scene.updateTimeUBO add deltaTime i scene).m_mappedDataTimeBuffers
        = scene.m_mappedDataTimeBuffers
    ∧ (Scene.updateTimeUBO add deltaTime i scene).m_modelMap = scene.m_modelMap
    ∧ (∀ j, j ≠ i →
        (Scene.updateTimeUBO add deltaTime i scene).m_timeUBOs[j]? = scene.m_timeUBOs[j]?
        ∧ (Scene.updateTimeUBO add deltaTime i scene).mappedTimeBuffer j
            = scene.mappedTimeBuffer j)
    ∧ (i < n → ∃ ubo, scene.m_timeUBOs[i]? = some ubo
        ∧ (Scene.updateTimeUBO add deltaTime i scene).m_timeUBOs[i]?
            = some (ubo.updated add deltaTime)
        ∧ (Scene.updateTimeUBO add deltaTime i scene).mappedTimeBuffer i
            = some (ubo.updated add deltaTime)) := by
  by_cases hi : i < n
  · have hlt : i < scene.m_timeUBOs.length := by rw [h.vectors.timeUBOs]; exact hi
    have hubo : scene.m_timeUBOs[i]? = some scene.m_timeUBOs[i] := List.getElem?_eq_getElem hlt
    have hptr := h.mappedData i hi
    simp only [Scene.updateTimeUBO, hubo, hptr, Option.join, Scene.memcpyTimeUBO]
    refine ⟨⟨⟨h.vectors.numSwapChainImages, h.vectors.timeBuffers,
      h.vectors.timeBufferMemories, ?_, h.vectors.mappedDataTimeBuffers⟩, h.timeBuffer,
      h.timeBufferMemory, h.mappedData⟩, rfl, rfl, rfl, rfl, ?_, ?_⟩
    · simp [h.vectors.timeUBOs]
    · intro j hj
      refine ⟨List.getElem?_set_ne (Ne.symm hj), ?_⟩
      unfold Scene.mappedTimeBuffer
      by_cases hjn : j < n
      · simp [h.mappedData j hjn, hj]
      · have : scene.m_mappedDataTimeBuffers[j]? = none :=
          List.getElem?_eq_none (by rw [h.vectors.mappedDataTimeBuffers]; omega)
        simp [this]
    · intro _
      refine ⟨scene.m_timeUBOs[i], rfl, ?_, ?_⟩
      · simp [List.getElem?_set_self, hlt, TimeUBO.updated]
      · simp [Scene.mappedTimeBuffer, hptr, TimeUBO.updated]
  · have hnone : scene.m_timeUBOs[i]? = none :=
      List.getElem?_eq_none (by rw [h.vectors.timeUBOs]; omega)
    have hsame : Scene.updateTimeUBO add deltaTime i scene = scene := by
      simp only [Scene.updateTimeUBO, hnone]
    rw [hsame]
    exact ⟨h, rfl, rfl, rfl, rfl, fun j _ => ⟨rfl, rfl⟩, fun hin => absurd hin hi⟩

theorem foldl_updateTimeUBO_constructed {F : Type} (add : F → F → F) (n : Nat)
    (updates : List (F × Nat)) :
    ∀ scene : Scene F, Scene.Constructed n scene →
      Scene.Constructed n
        (updates.foldl (fun scene u => Scene.updateTimeUBO add u.1 u.2 scene) scene)
      ∧ (updates.foldl (fun scene u => Scene.updateTimeUBO add u.1 u.2 scene) scene).m_modelMap
          = scene.m_modelMap := by
  induction updates with
  | nil => intro scene h; exact ⟨h, rfl⟩
  | cons u updates ih =>
    intro scene h
    obtain ⟨h1, _, _, _, hm, _⟩ := updateTimeUBO_spec add u.1 n u.2 scene h
    obtain ⟨h2, hm2⟩ := ih _ h1
    exact ⟨h2, hm2.trans hm⟩
/-- C20: the constructor `Scene::Scene` for `n` swapchain images leaves `n` time
uniform blocks, `n` time buffers with `n` memory objects and `n` mapped
pointers, the buffer and the pointer of index `j` naming the buffer and the
mapping of that index.  In every scene reached from there by calls of
`Scene::updateTimeUBO`, a further call `updateTimeUBO(i)` with `i < n` leaves
the uniform block and the contents of the mapped buffer of every index other
than `i` as they are, keeps the vectors of handles and pointers, and replaces
block `i` and the contents of mapped buffer `i` by the updated block. -/
theorem time_uniforms_one_per_image {F : Type} (zero : F) (add : F → F → F)
    (haltonSequenceAt : Nat → Nat → F) (blank : TimeUBO F) (n uboCount : Nat)
    (updates : List (F × Nat)) (deltaTime : F) (i : Nat) (hi : i < n) :
    ((Scene.construct zero add haltonSequenceAt blank n uboCount).m_timeUBOs.length = n
      ∧ (Scene.construct zero add haltonSequenceAt blank n uboCount).m_timeBuffers.length = n
      ∧ (Scene.construct zero add haltonSequenceAt blank n
          uboCount).m_timeBufferMemories.length = n
      ∧ (Scene.construct zero add haltonSequenceAt blank n
          uboCount).m_mappedDataTimeBuffers.length = n
      ∧ ∀ j, j < n →
          (Scene.construct zero add haltonSequenceAt blank n uboCount).m_timeBuffers[j]?
            = some (some j)
          ∧ (Scene.construct zero add haltonSequenceAt blank n
              uboCount).m_mappedDataTimeBuffers[j]? = some (some j)) ∧
    (let scene := updates.foldl (fun scene u => Scene.updateTimeUBO add u.1 u.2 scene)
        (Scene.construct zero add haltonSequenceAt blank n uboCount)
     let scene' := Scene.updateTimeUBO add deltaTime i scene
     (∀ j, j ≠ i →
        scene'.m_timeUBOs[j]? = scene.m_timeUBOs[j]?
        ∧ scene'.mappedTimeBuffer j = scene.mappedTimeBuffer j)
     ∧ scene'.m_timeUBOs.length = n
     ∧ scene'.m_timeBuffers = scene.m_timeBuffers
     ∧ scene'.m_timeBufferMemories = scene.m_timeBufferMemories
     ∧ scene'.m_mappedDataTimeBuffers = scene.m_mappedDataTimeBuffers
     ∧ ∃ ubo, scene.m_timeUBOs[i]? = some ubo
        ∧ scene'.m_timeUBOs[i]? = some (ubo.updated add deltaTime)
        ∧ scene'.mappedTimeBuffer i = some (ubo.updated add deltaTime)) := by
  obtain ⟨hc, _⟩ := construct_spec zero add haltonSequenceAt blank n uboCount
  refine ⟨⟨hc.vectors.timeUBOs, hc.vectors.timeBuffers, hc.vectors.timeBufferMemories,
    hc.vectors.mappedDataTimeBuffers, fun j hj => ⟨hc.timeBuffer j hj, hc.mappedData j hj⟩⟩, ?_⟩
  obtain ⟨hs, _⟩ := foldl_updateTimeUBO_constructed add n updates _ hc
  obtain ⟨h1, h2, h3, h4, _, h6, h7⟩ := updateTimeUBO_spec add deltaTime n i _ hs
  exact ⟨h6, h1.vectors.timeUBOs, h2, h3, h4, h7 hi⟩

/-- C20 for two swapchain images: after an update of index 0, an update of
index 1 leaves block 0 and mapped buffer 0 as they are. -/
theorem time_uniforms_one_per_image_witness :
    (1 : Nat) < 2
    ∧ (Scene.updateTimeUBO (fun a b => a + b) 7 1
          (Scene.updateTimeUBO (fun a b => a + b) 5 0 (sampleScene 2))).m_timeUBOs[0]?
        = (Scene.updateTimeUBO (fun a b => a + b) 5 0 (sampleScene 2)).m_timeUBOs[0]?
    ∧ (Scene.updateTimeUBO (fun a b => a + b) 7 1
          (Scene.updateTimeUBO (fun a b => a + b) 5 0 (sampleScene 2))).mappedTimeBuffer 0
        = (Scene.updateTimeUBO (fun a b => a + b) 5 0 (sampleScene 2)).mappedTimeBuffer 0 :=
  ⟨by decide,
    ((time_uniforms_one_per_image (0 : Int) (fun a b => a + b)
      (fun index base => (index : Int) * base)
      { time_x := 0, time_y := 0, haltonSeq1 := (0, 0, 0, 0), haltonSeq2 := (0, 0, 0, 0),
        haltonSeq3 := (0, 0, 0, 0), haltonSeq4 := (0, 0, 0, 0), frameCount := 0 }
      2 1 [(5, 0)] 7 1 (by decide)).2.1 0 (by decide))⟩

/-- C14 as stated fails for large image counts: with `2 ^ 31` images and one
model of ubo count 1, the uniform-buffer entry of the model is
`2 * 1 * 2 ^ 31` stored in 32 bits, which is 0, so the uniform-buffer total of
the owners is `2 ^ 32` and not `(2 * 1 + 1 + 1) * 2 ^ 31`; the sampler entry is
`7 * 2 ^ 31` stored in 32 bits, which is `2 ^ 31`. -/
theorem ownersPoolSizes_totals_counterexample :
    descriptorTotal VkDescriptorType.uniformBuffer
        (ownersPoolSizes (sampleScene 2147483648) { m_numSwapChainImages := 2147483648 })
      = 4294967296
    ∧ descriptorTotal VkDescriptorType.uniformBuffer
        (ownersPoolSizes (sampleScene 2147483648) { m_numSwapChainImages := 2147483648 })
      ≠ (2 * 1 + 1 + 1) * 2147483648
    ∧ descriptorTotal VkDescriptorType.combinedImageSampler
        (ownersPoolSizes (sampleScene 2147483648) { m_numSwapChainImages := 2147483648 })
      = 2147483648
    ∧ descriptorTotal VkDescriptorType.combinedImageSampler
        (ownersPoolSizes (sampleScene 2147483648) { m_numSwapChainImages := 2147483648 })
      ≠ (7 * 1) * 2147483648 := by
  obtain ⟨hc, hm⟩ := construct_spec (0 : Int) (fun a b => a + b)
    (fun index base => (index : Int) * base)
    { time_x := 0, time_y := 0, haltonSeq1 := (0, 0, 0, 0), haltonSeq2 := (0, 0, 0, 0),
      haltonSeq3 := (0, 0, 0, 0), haltonSeq4 := (0, 0, 0, 0), frameCount := 0 } 2147483648 1
  obtain ⟨h1, h2, _⟩ := descriptorTotal_one_model (sampleScene 2147483648)
    { m_numSwapChainImages := 2147483648 } "house" _ 2147483648 hm rfl rfl
    hc.vectors.numSwapChainImages rfl
  rw [h1, h2]
  decide

/-- C14, amended: for a scene with one model of ubo count 1 and `n` images, and
the camera, with `7 * n < 2 ^ 32` (the counts are 32-bit values), the pool-size
entries the owners produce sum to `(2 * 1 + 1 + 1) * n` uniform-buffer
descriptors and `(7 * 1) * n` combined-image-sampler descriptors. -/
theorem ownersPoolSizes_totals {F : Type} (scene : Scene F) (camera : Camera)
    (name : String) (model : Model) (n : Nat)
    (hmodels : scene.m_modelMap = [(name, model)])
    (hubo : model.m_uboCount = 1) (hmodel : model.m_numSwapChainImages = n)
    (hscene : scene.m_numSwapChainImages = n) (hcamera : camera.m_numSwapChainImages = n)
    (hn : 7 * n < 2 ^ 32) :
    descriptorTotal VkDescriptorType.uniformBuffer (ownersPoolSizes scene camera)
      = (2 * 1 + 1 + 1) * n
    ∧ descriptorTotal VkDescriptorType.combinedImageSampler (ownersPoolSizes scene camera)
      = (7 * 1) * n := by
  obtain ⟨h1, h2, _⟩ :=
    descriptorTotal_one_model scene camera name model n hmodels hubo hmodel hscene hcamera
  rw [h1, h2, Nat.mod_eq_of_lt hn, Nat.mod_eq_of_lt (by omega)]
  constructor <;> omega

/-- The amended C14 at the scene the constructor builds for three images. -/
theorem ownersPoolSizes_totals_witness :
    descriptorTotal VkDescriptorType.uniformBuffer
        (ownersPoolSizes (sampleScene 3) { m_numSwapChainImages := 3 }) = 12
    ∧ descriptorTotal VkDescriptorType.combinedImageSampler
        (ownersPoolSizes (sampleScene 3) { m_numSwapChainImages := 3 }) = 21 :=
  ownersPoolSizes_totals (sampleScene 3) { m_numSwapChainImages := 3 } "house"
    { m_uboCount := 1, m_numSwapChainImages := 3 } 3 rfl rfl rfl rfl rfl (by decide)

/-! ## Buffer creation -/

theorem Result.done_of_andThen {α β : Type} {result : Result α}
    {next : α → Device → Result β} {v : β} {d : Device}
    (h : result.andThen next = Result.done v d) :
    ∃ v1 d1, result = Result.done v1 d1 ∧ next v1 d1 = Result.done v d := by
  cases result with
  | done v1 d1 => exact ⟨v1, d1, rfl, h⟩
  | raised e d1 => simp [Result.andThen] at h

theorem checked_eq_done {driver : DeviceDriver} {c : DeviceCall} {e : VulkanError}
    {device : Device} {v : Nat} {d : Device}
    (h : device.checked driver c e = Result.done v d) :
    driver.succeeds device.calls c = true ∧ v = device.calls.length ∧ d = device.log c := by
  unfold Device.checked at h
  split at h
  · rename_i hs
    injection h with hv hd
    exact ⟨hs, hv.symm, hd.symm⟩
  · simp at h

theorem findMemoryTypeLoop_error_eq (memProperties : VkPhysicalDeviceMemoryProperties)
    (typeFilter properties : Nat) (e : VulkanError) :
    ∀ remaining i,
      findMemoryTypeLoop memProperties typeFilter properties remaining i = Except.error e →
      e = VulkanError.noSuitableMemoryType := by
  intro remaining
  induction remaining with
  | zero =>
    intro i h
    simp only [findMemoryTypeLoop] at h
    injection h with h
    exact h.symm
  | succ remaining ih =>
    intro i h
    simp only [findMemoryTypeLoop] at h
    split at h
    · simp at h
    · exact ih (i + 1) h

theorem findMemoryType_error_eq (memProperties : VkPhysicalDeviceMemoryProperties)
    (typeFilter properties : Nat) (e : VulkanError)
    (h : findMemoryType memProperties typeFilter properties = Except.error e) :
    e = VulkanError.noSuitableMemoryType :=
  findMemoryTypeLoop_error_eq memProperties typeFilter properties e _ _ h

theorem createBuffer_create_failed (driver : DeviceDriver) (bufferSize allowedUsage : Nat)
    (sharingMode : VkSharingMode) (properties : Nat) (device : Device)
    (h1 : driver.succeeds device.calls
      (DeviceCall.vkCreateBuffer (bufferCreateInfo bufferSize allowedUsage sharingMode)) = false) :
    createBuffer driver bufferSize allowedUsage sharingMode properties device
      = Result.raised (VulkanError.runtimeError "failed to create buffer!")
          { device with calls := device.calls ++
              [DeviceCall.vkCreateBuffer (bufferCreateInfo bufferSize allowedUsage sharingMode)] } := by
  simp [createBuffer, Device.checked, Result.andThen, Device.log, h1]

theorem createBuffer_no_type (driver : DeviceDriver) (bufferSize allowedUsage : Nat)
    (sharingMode : VkSharingMode) (properties : Nat) (device : Device) (e : VulkanError)
    (h1 : driver.succeeds device.calls
      (DeviceCall.vkCreateBuffer (bufferCreateInfo bufferSize allowedUsage sharingMode)) = true)
    (h2 : findMemoryType driver.memProperties
      (driver.memoryRequirements
        (bufferCreateInfo bufferSize allowedUsage sharingMode)).memoryTypeBits properties
        = Except.error e) :
    createBuffer driver bufferSize allowedUsage sharingMode properties device
      = Result.raised e
          { device with
            buffers := device.buffers ++ [device.calls.length]
            calls := device.calls ++
              [ DeviceCall.vkCreateBuffer (bufferCreateInfo bufferSize allowedUsage sharingMode),
                DeviceCall.vkGetBufferMemoryRequirements device.calls.length ] } := by
  simp [createBuffer, Device.allocateMemory, Device.checked, Result.andThen, Device.log, h1, h2]

theorem createBuffer_alloc_failed (driver : DeviceDriver) (bufferSize allowedUsage : Nat)
    (sharingMode : VkSharingMode) (properties : Nat) (device : Device) (memoryTypeIndex : Nat)
    (h1 : driver.succeeds device.calls
      (DeviceCall.vkCreateBuffer (bufferCreateInfo bufferSize allowedUsage sharingMode)) = true)
    (h2 : findMemoryType driver.memProperties
      (driver.memoryRequirements
        (bufferCreateInfo bufferSize allowedUsage sharingMode)).memoryTypeBits properties
        = Except.ok memoryTypeIndex)
    (h3 : driver.succeeds
      (device.calls ++
        [ DeviceCall.vkCreateBuffer (bufferCreateInfo bufferSize allowedUsage sharingMode),
          DeviceCall.vkGetBufferMemoryRequirements device.calls.length ])
      (DeviceCall.vkAllocateMemory
        { allocationSize := (driver.memoryRequirements
            (bufferCreateInfo bufferSize allowedUsage sharingMode)).size
          memoryTypeIndex := memoryTypeIndex }) = false) :
    createBuffer driver bufferSize allowedUsage sharingMode properties device
      = Result.raised VulkanError.allocationFailed
          { device with
            buffers := device.buffers ++ [device.calls.length]
            calls := device.calls ++
              [ DeviceCall.vkCreateBuffer (bufferCreateInfo bufferSize allowedUsage sharingMode),
                DeviceCall.vkGetBufferMemoryRequirements device.calls.length,
                DeviceCall.vkAllocateMemory
                  { allocationSize := (driver.memoryRequirements
                      (bufferCreateInfo bufferSize allowedUsage sharingMode)).size
                    memoryTypeIndex := memoryTypeIndex } ] } := by
  simp [createBuffer, Device.allocateMemory, Device.checked, Result.andThen, Device.log, h1, h2,
    h3]

theorem createBuffer_done (driver : DeviceDriver) (bufferSize allowedUsage : Nat)
    (sharingMode : VkSharingMode) (properties : Nat) (device : Device) (memoryTypeIndex : Nat)
    (h1 : driver.succeeds device.calls
      (DeviceCall.vkCreateBuffer (bufferCreateInfo bufferSize allowedUsage sharingMode)) = true)
    (h2 : findMemoryType driver.memProperties
      (driver.memoryRequirements
        (bufferCreateInfo bufferSize allowedUsage sharingMode)).memoryTypeBits properties
        = Except.ok memoryTypeIndex)
    (h3 : driver.succeeds
      (device.calls ++
        [ DeviceCall.vkCreateBuffer (bufferCreateInfo bufferSize allowedUsage sharingMode),
          DeviceCall.vkGetBufferMemoryRequirements device.calls.length ])
      (DeviceCall.vkAllocateMemory
        { allocationSize := (driver.memoryRequirements
            (bufferCreateInfo bufferSize allowedUsage sharingMode)).size
          memoryTypeIndex := memoryTypeIndex }) = true) :
    createBuffer driver bufferSize allowedUsage sharingMode properties device
      = Result.done (device.calls.length, device.calls.length + 2)
          { buffers := device.buffers ++ [device.calls.length]
            memories := device.memories ++
              [(device.calls.length + 2,
                { allocationSize := (driver.memoryRequirements
                    (bufferCreateInfo bufferSize allowedUsage sharingMode)).size
                  memoryTypeIndex := memoryTypeIndex })]
            bindings := device.bindings ++
              (if driver.succeeds
                  (device.calls ++
                    [ DeviceCall.vkCreateBuffer
                        (bufferCreateInfo bufferSize allowedUsage sharingMode),
                      DeviceCall.vkGetBufferMemoryRequirements device.calls.length,
                      DeviceCall.vkAllocateMemory
                        { allocationSize := (driver.memoryRequirements
                            (bufferCreateInfo bufferSize allowedUsage sharingMode)).size
                          memoryTypeIndex := memoryTypeIndex } ])
                  (DeviceCall.vkBindBufferMemory device.calls.length
                    (device.calls.length + 2) 0)
                then [(device.calls.length, device.calls.length + 2, 0)] else [])
            calls := device.calls ++
              [ DeviceCall.vkCreateBuffer (bufferCreateInfo bufferSize allowedUsage sharingMode),
                DeviceCall.vkGetBufferMemoryRequirements device.calls.length,
                DeviceCall.vkAllocateMemory
                  { allocationSize := (driver.memoryRequirements
                      (bufferCreateInfo bufferSize allowedUsage sharingMode)).size
                    memoryTypeIndex := memoryTypeIndex },
                DeviceCall.vkBindBufferMemory device.calls.length
                  (device.calls.length + 2) 0 ] } := by
  simp only [createBuffer, Device.allocateMemory, Device.checked, Result.andThen, Device.log, h1,
    h2, if_true, List.length_append, List.length_cons, List.length_nil, List.append_assoc,
    List.cons_append, List.nil_append, h3]
  split <;> simp
/-- On the sample device, with a driver that creates the buffer but reports a
failure for the memory allocation, `createBuffer` raises the allocation error
and the buffer it has created (object 0) is still live; the only calls made are
the creation, the requirements query and the failed allocation. -/
theorem createBuffer_keeps_buffer_after_failed_allocation :
    createBuffer (sampleDeviceDriver DeviceCall.isAllocateMemory) 64
        VK_BUFFER_USAGE_TRANSFER_SRC_BIT VkSharingMode.exclusive
        VK_MEMORY_PROPERTY_HOST_VISIBLE_BIT sampleDevice
      = Result.raised VulkanError.allocationFailed
          { buffers := [0], memories := [], bindings := []
            calls :=
              [ DeviceCall.vkCreateBuffer
                  { size := 64, usage := VK_BUFFER_USAGE_TRANSFER_SRC_BIT,
                    sharingMode := VkSharingMode.exclusive },
                DeviceCall.vkGetBufferMemoryRequirements 0,
                DeviceCall.vkAllocateMemory { allocationSize := 64, memoryTypeIndex := 0 } ] } :=
  rfl

/-- C11: what `BufferUtil::createBuffer` does.  It raises exactly when the
buffer creation fails, no suitable memory type exists or the memory allocation
fails.  After a failed buffer creation no buffer and no memory of the call is
live; after one of the other two failures no memory of the call is live, but
the buffer the call has created stays live.  When it returns, the buffer is
live, memory of the required size and of the type `findMemoryType` selects is
allocated, and the last call is `vkBindBufferMemory` for this buffer and this
memory at offset 0.  The result of that call is not looked at: the function
returns whenever the creation, the type search and the allocation succeed, and
the memory is bound to the buffer exactly when the driver reports success for
the bind; when the driver reports a failure the function still returns and no
binding has been added. -/
theorem createBuffer_outcomes (driver : DeviceDriver) (bufferSize allowedUsage : Nat)
    (sharingMode : VkSharingMode) (properties : Nat) (device : Device) :
    (∀ e d, createBuffer driver bufferSize allowedUsage sharingMode properties device
        = Result.raised e d →
      (e = VulkanError.runtimeError "failed to create buffer!"
        ∧ driver.succeeds device.calls
            (DeviceCall.vkCreateBuffer (bufferCreateInfo bufferSize allowedUsage sharingMode))
            = false
        ∧ d.buffers = device.buffers ∧ d.memories = device.memories)
      ∨ (e = VulkanError.noSuitableMemoryType
        ∧ findMemoryType driver.memProperties
            (driver.memoryRequirements
              (bufferCreateInfo bufferSize allowedUsage sharingMode)).memoryTypeBits properties
            = Except.error VulkanError.noSuitableMemoryType
        ∧ d.buffers = device.buffers ++ [device.calls.length]
        ∧ d.memories = device.memories)
      ∨ (e = VulkanError.allocationFailed
        ∧ (∃ memoryTypeIndex, findMemoryType driver.memProperties
            (driver.memoryRequirements
              (bufferCreateInfo bufferSize allowedUsage sharingMode)).memoryTypeBits properties
            = Except.ok memoryTypeIndex
          ∧ d.calls.getLast? = some (DeviceCall.vkAllocateMemory
              { allocationSize := (driver.memoryRequirements
                  (bufferCreateInfo bufferSize allowedUsage sharingMode)).size
                memoryTypeIndex := memoryTypeIndex })
          ∧ driver.succeeds d.calls.dropLast (DeviceCall.vkAllocateMemory
              { allocationSize := (driver.memoryRequirements
                  (bufferCreateInfo bufferSize allowedUsage sharingMode)).size
                memoryTypeIndex := memoryTypeIndex }) = false)
        ∧ d.buffers = device.buffers ++ [device.calls.length]
        ∧ d.memories = device.memories))
    ∧ (∀ buffer bufferMemory d,
      createBuffer driver bufferSize allowedUsage sharingMode properties device
        = Result.done (buffer, bufferMemory) d →
      driver.succeeds device.calls
          (DeviceCall.vkCreateBuffer (bufferCreateInfo bufferSize allowedUsage sharingMode))
          = true
      ∧ ∃ memoryTypeIndex, findMemoryType driver.memProperties
          (driver.memoryRequirements
            (bufferCreateInfo bufferSize allowedUsage sharingMode)).memoryTypeBits properties
          = Except.ok memoryTypeIndex
        ∧ d.buffers = device.buffers ++ [buffer]
        ∧ d.memories = device.memories ++
            [(bufferMemory,
              { allocationSize := (driver.memoryRequirements
                  (bufferCreateInfo bufferSize allowedUsage sharingMode)).size
                memoryTypeIndex := memoryTypeIndex })]
        ∧ driver.succeeds d.calls.dropLast.dropLast (DeviceCall.vkAllocateMemory
            { allocationSize := (driver.memoryRequirements
                (bufferCreateInfo bufferSize allowedUsage sharingMode)).size
              memoryTypeIndex := memoryTypeIndex }) = true
        ∧ d.calls.getLast? = some (DeviceCall.vkBindBufferMemory buffer bufferMemory 0)
        ∧ (driver.succeeds d.calls.dropLast (DeviceCall.vkBindBufferMemory buffer bufferMemory 0)
            = true →
          d.bindings = device.bindings ++ [(buffer, bufferMemory, 0)])
        ∧ (driver.succeeds d.calls.dropLast (DeviceCall.vkBindBufferMemory buffer bufferMemory 0)
            = false →
          d.bindings = device.bindings))
    ∧ (driver.succeeds device.calls
          (DeviceCall.vkCreateBuffer (bufferCreateInfo bufferSize allowedUsage sharingMode))
          = true →
      ∀ memoryTypeIndex, findMemoryType driver.memProperties
          (driver.memoryRequirements
            (bufferCreateInfo bufferSize allowedUsage sharingMode)).memoryTypeBits properties
          = Except.ok memoryTypeIndex →
      driver.succeeds
          (device.calls ++
            [ DeviceCall.vkCreateBuffer (bufferCreateInfo bufferSize allowedUsage sharingMode),
              DeviceCall.vkGetBufferMemoryRequirements device.calls.length ])
          (DeviceCall.vkAllocateMemory
            { allocationSize := (driver.memoryRequirements
                (bufferCreateInfo bufferSize allowedUsage sharingMode)).size
              memoryTypeIndex := memoryTypeIndex }) = true →
      ∃ d, createBuffer driver bufferSize allowedUsage sharingMode properties device
        = Result.done (device.calls.length, device.calls.length + 2) d) := by
  have hret : driver.succeeds device.calls
        (DeviceCall.vkCreateBuffer (bufferCreateInfo bufferSize allowedUsage sharingMode))
        = true →
      ∀ memoryTypeIndex, findMemoryType driver.memProperties
          (driver.memoryRequirements
            (bufferCreateInfo bufferSize allowedUsage sharingMode)).memoryTypeBits properties
          = Except.ok memoryTypeIndex →
      driver.succeeds
          (device.calls ++
            [ DeviceCall.vkCreateBuffer (bufferCreateInfo bufferSize allowedUsage sharingMode),
              DeviceCall.vkGetBufferMemoryRequirements device.calls.length ])
          (DeviceCall.vkAllocateMemory
            { allocationSize := (driver.memoryRequirements
                (bufferCreateInfo bufferSize allowedUsage sharingMode)).size
              memoryTypeIndex := memoryTypeIndex }) = true →
      ∃ d, createBuffer driver bufferSize allowedUsage sharingMode properties device
        = Result.done (device.calls.length, device.calls.length + 2) d :=
    fun hc memoryTypeIndex hm ha =>
      ⟨_, createBuffer_done driver bufferSize allowedUsage sharingMode properties device
        memoryTypeIndex hc hm ha⟩
  refine and_assoc.mp ⟨?_, hret⟩
  clear hret
  cases h1 : driver.succeeds device.calls
      (DeviceCall.vkCreateBuffer (bufferCreateInfo bufferSize allowedUsage sharingMode)) with
  | false =>
    rw [createBuffer_create_failed driver bufferSize allowedUsage sharingMode properties device h1]
    refine ⟨?_, ?_⟩
    · intro e d h
      injection h with he hd
      subst he hd
      exact Or.inl ⟨rfl, rfl, rfl, rfl⟩
    · intro buffer bufferMemory d h
      simp at h
  | true =>
    cases h2 : findMemoryType driver.memProperties
        (driver.memoryRequirements
          (bufferCreateInfo bufferSize allowedUsage sharingMode)).memoryTypeBits properties with
    | error e0 =>
      have he0 := findMemoryType_error_eq _ _ _ _ h2
      subst he0
      rw [createBuffer_no_type driver bufferSize allowedUsage sharingMode properties device _
        h1 h2]
      refine ⟨?_, ?_⟩
      · intro e d h
        injection h with he hd
        subst he hd
        exact Or.inr (Or.inl ⟨rfl, rfl, rfl, rfl⟩)
      · intro buffer bufferMemory d h
        simp at h
    | ok memoryTypeIndex =>
      cases h3 : driver.succeeds
          (device.calls ++
            [ DeviceCall.vkCreateBuffer (bufferCreateInfo bufferSize allowedUsage sharingMode),
              DeviceCall.vkGetBufferMemoryRequirements device.calls.length ])
          (DeviceCall.vkAllocateMemory
            { allocationSize := (driver.memoryRequirements
                (bufferCreateInfo bufferSize allowedUsage sharingMode)).size
              memoryTypeIndex := memoryTypeIndex }) with
      | false =>
        rw [createBuffer_alloc_failed driver bufferSize allowedUsage sharingMode properties
          device memoryTypeIndex h1 h2 h3]
        refine ⟨?_, ?_⟩
        · intro e d h
          injection h with he hd
          subst he hd
          refine Or.inr (Or.inr ⟨rfl, ⟨memoryTypeIndex, rfl, by simp, ?_⟩, rfl, rfl⟩)
          simp only [List.dropLast_append_cons, List.dropLast_cons₂, List.dropLast_single]
          exact h3
        · intro buffer bufferMemory d h
          simp at h
      | true =>
        rw [createBuffer_done driver bufferSize allowedUsage sharingMode properties
          device memoryTypeIndex h1 h2 h3]
        refine ⟨?_, ?_⟩
        · intro e d h
          simp at h
        · intro buffer bufferMemory d h
          injection h with hv hd
          injection hv with hb hm
          subst hb hm hd
          refine ⟨rfl, memoryTypeIndex, rfl, rfl, rfl, ?_, by simp, ?_, ?_⟩
          · simp only [List.dropLast_append_cons, List.dropLast_cons₂, List.dropLast_single]
            exact h3
          · intro hbound
            simp only [List.dropLast_append_cons, List.dropLast_cons₂, List.dropLast_single,
              List.dropLast_concat] at hbound
            simp [hbound]
          · intro hbound
            simp only [List.dropLast_append_cons, List.dropLast_cons₂, List.dropLast_single,
              List.dropLast_concat] at hbound
            simp [hbound]

/-- C11 on the sample device with a driver that accepts every call but the
bind: `createBuffer` returns the buffer (object 0) and its memory (object 2),
the last call is the bind of the memory to the buffer at offset 0, and the
memory is not bound to the buffer. -/
theorem createBuffer_outcomes_witness :
    ∃ d, createBuffer (sampleDeviceDriver DeviceCall.isBindBufferMemory) 64
        VK_BUFFER_USAGE_TRANSFER_SRC_BIT VkSharingMode.exclusive
        VK_MEMORY_PROPERTY_HOST_VISIBLE_BIT sampleDevice
        = Result.done (0, 2) d
      ∧ d.buffers = [0]
      ∧ d.calls.getLast? = some (DeviceCall.vkBindBufferMemory 0 2 0)
      ∧ d.bindings = [] := by
  obtain ⟨d, hd⟩ :=
    (createBuffer_outcomes (sampleDeviceDriver DeviceCall.isBindBufferMemory) 64
      VK_BUFFER_USAGE_TRANSFER_SRC_BIT VkSharingMode.exclusive
      VK_MEMORY_PROPERTY_HOST_VISIBLE_BIT sampleDevice).2.2 rfl 0 rfl rfl
  obtain ⟨_, _, _, hb, _, _, hl, _, hunbound⟩ :=
    (createBuffer_outcomes (sampleDeviceDriver DeviceCall.isBindBufferMemory) 64
      VK_BUFFER_USAGE_TRANSFER_SRC_BIT VkSharingMode.exclusive
      VK_MEMORY_PROPERTY_HOST_VISIBLE_BIT sampleDevice).2.1 0 2 d hd
  exact ⟨d, hd, hb, hl, hunbound rfl⟩

/-! ## The staging upload -/

theorem createBuffer_eq_done {driver : DeviceDriver} {bufferSize allowedUsage : Nat}
    {sharingMode : VkSharingMode} {properties : Nat} {device : Device} {v : Nat × Nat}
    {d : Device}
    (h : createBuffer driver bufferSize allowedUsage sharingMode properties device
      = Result.done v d) :
    ∃ memoryTypeIndex,
      findMemoryType driver.memProperties
          (driver.memoryRequirements
            (bufferCreateInfo bufferSize allowedUsage sharingMode)).memoryTypeBits properties
        = Except.ok memoryTypeIndex
      ∧ v = (device.calls.length, device.calls.length + 2)
      ∧ d.buffers = device.buffers ++ [device.calls.length]
      ∧ d.memories = device.memories ++
          [(device.calls.length + 2,
            { allocationSize := (driver.memoryRequirements
                (bufferCreateInfo bufferSize allowedUsage sharingMode)).size
              memoryTypeIndex := memoryTypeIndex })]
      ∧ d.calls = device.calls ++
          [ DeviceCall.vkCreateBuffer (bufferCreateInfo bufferSize allowedUsage sharingMode),
            DeviceCall.vkGetBufferMemoryRequirements device.calls.length,
            DeviceCall.vkAllocateMemory
              { allocationSize := (driver.memoryRequirements
                  (bufferCreateInfo bufferSize allowedUsage sharingMode)).size
                memoryTypeIndex := memoryTypeIndex },
            DeviceCall.vkBindBufferMemory device.calls.length (device.calls.length + 2) 0 ] := by
  cases h1 : driver.succeeds device.calls
      (DeviceCall.vkCreateBuffer (bufferCreateInfo bufferSize allowedUsage sharingMode)) with
  | false =>
    rw [createBuffer_create_failed driver bufferSize allowedUsage sharingMode properties device
      h1] at h
    simp at h
  | true =>
    cases h2 : findMemoryType driver.memProperties
        (driver.memoryRequirements
          (bufferCreateInfo bufferSize allowedUsage sharingMode)).memoryTypeBits properties with
    | error e0 =>
      rw [createBuffer_no_type driver bufferSize allowedUsage sharingMode properties device _
        h1 h2] at h
      simp at h
    | ok memoryTypeIndex =>
      cases h3 : driver.succeeds
          (device.calls ++
            [ DeviceCall.vkCreateBuffer (bufferCreateInfo bufferSize allowedUsage sharingMode),
              DeviceCall.vkGetBufferMemoryRequirements device.calls.length ])
          (DeviceCall.vkAllocateMemory
            { allocationSize := (driver.memoryRequirements
                (bufferCreateInfo bufferSize allowedUsage sharingMode)).size
              memoryTypeIndex := memoryTypeIndex }) with
      | false =>
        rw [createBuffer_alloc_failed driver bufferSize allowedUsage sharingMode properties
          device memoryTypeIndex h1 h2 h3] at h
        simp at h
      | true =>
        rw [createBuffer_done driver bufferSize allowedUsage sharingMode properties
          device memoryTypeIndex h1 h2 h3] at h
        injection h with hv hd
        subst hv hd
        exact ⟨memoryTypeIndex, rfl, rfl, rfl, rfl, rfl⟩

theorem copyBuffer_eq_done {driver : DeviceDriver}
    {srcBuffer dstBuffer srcOffset dstOffset size : Nat} {device : Device} {u : Unit}
    {d : Device}
    (h : copyBuffer driver srcBuffer dstBuffer srcOffset dstOffset size device
      = Result.done u d) :
    d = { device with
      calls := device.calls ++
        [ DeviceCall.vkAllocateCommandBuffers VkCommandBufferLevel.primary 1,
          DeviceCall.vkBeginCommandBuffer device.calls.length
            VK_COMMAND_BUFFER_USAGE_ONE_TIME_SUBMIT_BIT,
          DeviceCall.vkCmdCopyBuffer device.calls.length srcBuffer dstBuffer srcOffset
            dstOffset size,
          DeviceCall.vkEndCommandBuffer device.calls.length,
          DeviceCall.vkCreateFence,
          DeviceCall.vkQueueSubmit QueueFlags.Graphics 1 device.calls.length
            (device.calls.length + 4),
          DeviceCall.vkWaitForFences (device.calls.length + 4),
          DeviceCall.vkDestroyFence (device.calls.length + 4),
          DeviceCall.vkQueueWaitIdle QueueFlags.Graphics,
          DeviceCall.vkFreeCommandBuffers device.calls.length ] } := by
  unfold copyBuffer at h
  obtain ⟨cmd, d1, h1, h⟩ := Result.done_of_andThen h
  obtain ⟨_, hcmd, hd1⟩ := checked_eq_done h1
  subst hcmd hd1
  obtain ⟨v2, d2, h2, h⟩ := Result.done_of_andThen h
  obtain ⟨_, _, hd2⟩ := checked_eq_done h2
  subst hd2
  obtain ⟨v3, d3, h3, h⟩ := Result.done_of_andThen h
  obtain ⟨_, _, hd3⟩ := checked_eq_done h3
  subst hd3
  obtain ⟨v4, d4, h4, h⟩ := Result.done_of_andThen h
  unfold Device.submitToGraphicsQueue Device.submitToQueue at h4
  obtain ⟨v5, d5, h5, h4⟩ := Result.done_of_andThen h4
  obtain ⟨_, _, hd5⟩ := checked_eq_done h5
  subst hd5
  injection h4 with _ hd4
  subst hd4
  injection h with _ hd
  subst hd
  simp [Device.log, Device.copyCommandBuffer, Nat.add_assoc]
theorem findMemoryType_ok_flags (memProperties : VkPhysicalDeviceMemoryProperties)
    (typeFilter properties i : Nat)
    (h : findMemoryType memProperties typeFilter properties = Except.ok i) :
    flagsSuperset (memProperties.memoryTypes i) properties := by
  unfold findMemoryType at h
  rw [findMemoryTypeLoop_ok] at h
  exact ((memoryTypeMatches_iff memProperties typeFilter properties i).mp h.2.2.1).2

/-- C12: `BufferUtil::createVertexBuffer` returns when the driver accepts every
call and both memory type searches succeed.  Whenever it returns, the calls it
has made are, in this order: creation of the staging buffer with
transfer-source usage, its requirements query, the allocation of its memory in
a type that has the host-visible and host-coherent flags, the binding; map of
`vertexBufferSize` bytes, copy of `vertexBufferSize` bytes into the mapping,
unmap; creation of the vertex buffer with transfer-destination and
vertex-buffer usage, its requirements query, the allocation of its memory in a
device-local type, the binding; allocation of one command buffer, begin with
the one-time-submit flag, copy of `vertexBufferSize` bytes from offset 0 of the
staging buffer to offset 0 of the vertex buffer, end, fence creation,
submission of the command buffer with the fence, wait for the fence, fence
destruction, wait for the queue to be idle, release of the command buffer;
destruction of the staging buffer, release of its memory.  On return the
staging buffer and its memory are not live, the vertex buffer and its memory
are. -/
theorem createVertexBuffer_staging_upload (driver : DeviceDriver) (vertexBufferSize : Nat)
    (device : Device) :
    ((∀ calls c, driver.succeeds calls c = true) →
      (∃ t, findMemoryType driver.memProperties
        (driver.memoryRequirements (bufferCreateInfo vertexBufferSize
          VK_BUFFER_USAGE_TRANSFER_SRC_BIT VkSharingMode.exclusive)).memoryTypeBits
        (VK_MEMORY_PROPERTY_HOST_VISIBLE_BIT ||| VK_MEMORY_PROPERTY_HOST_COHERENT_BIT)
        = Except.ok t) →
      (∃ t, findMemoryType driver.memProperties
        (driver.memoryRequirements (bufferCreateInfo vertexBufferSize
          (VK_BUFFER_USAGE_TRANSFER_DST_BIT ||| VK_BUFFER_USAGE_VERTEX_BUFFER_BIT)
          VkSharingMode.exclusive)).memoryTypeBits
        VK_MEMORY_PROPERTY_DEVICE_LOCAL_BIT = Except.ok t) →
      ∃ v d, createVertexBuffer driver vertexBufferSize device = Result.done v d) ∧
    ∀ vertexBuffer vertexBufferMemory d,
      createVertexBuffer driver vertexBufferSize device
        = Result.done (vertexBuffer, vertexBufferMemory) d →
      ∃ stagingBuffer stagingBufferMemory commandBuffer fence stagingType vertexType,
        flagsSuperset (driver.memProperties.memoryTypes stagingType)
          (VK_MEMORY_PROPERTY_HOST_VISIBLE_BIT ||| VK_MEMORY_PROPERTY_HOST_COHERENT_BIT)
        ∧ flagsSuperset (driver.memProperties.memoryTypes vertexType)
          VK_MEMORY_PROPERTY_DEVICE_LOCAL_BIT
        ∧ d.calls = device.calls ++
          [ DeviceCall.vkCreateBuffer
              { size := vertexBufferSize, usage := VK_BUFFER_USAGE_TRANSFER_SRC_BIT,
                sharingMode := VkSharingMode.exclusive },
            DeviceCall.vkGetBufferMemoryRequirements stagingBuffer,
            DeviceCall.vkAllocateMemory
              { allocationSize := (driver.memoryRequirements
                  (bufferCreateInfo vertexBufferSize VK_BUFFER_USAGE_TRANSFER_SRC_BIT
                    VkSharingMode.exclusive)).size
                memoryTypeIndex := stagingType },
            DeviceCall.vkBindBufferMemory stagingBuffer stagingBufferMemory 0,
            DeviceCall.vkMapMemory stagingBufferMemory 0 vertexBufferSize,
            DeviceCall.memcpy stagingBufferMemory vertexBufferSize,
            DeviceCall.vkUnmapMemory stagingBufferMemory,
            DeviceCall.vkCreateBuffer
              { size := vertexBufferSize,
                usage := VK_BUFFER_USAGE_TRANSFER_DST_BIT ||| VK_BUFFER_USAGE_VERTEX_BUFFER_BIT,
                sharingMode := VkSharingMode.exclusive },
            DeviceCall.vkGetBufferMemoryRequirements vertexBuffer,
            DeviceCall.vkAllocateMemory
              { allocationSize := (driver.memoryRequirements
                  (bufferCreateInfo vertexBufferSize
                    (VK_BUFFER_USAGE_TRANSFER_DST_BIT ||| VK_BUFFER_USAGE_VERTEX_BUFFER_BIT)
                    VkSharingMode.exclusive)).size
                memoryTypeIndex := vertexType },
            DeviceCall.vkBindBufferMemory vertexBuffer vertexBufferMemory 0,
            DeviceCall.vkAllocateCommandBuffers VkCommandBufferLevel.primary 1,
            DeviceCall.vkBeginCommandBuffer commandBuffer
              VK_COMMAND_BUFFER_USAGE_ONE_TIME_SUBMIT_BIT,
            DeviceCall.vkCmdCopyBuffer commandBuffer stagingBuffer vertexBuffer 0 0
              vertexBufferSize,
            DeviceCall.vkEndCommandBuffer commandBuffer,
            DeviceCall.vkCreateFence,
            DeviceCall.vkQueueSubmit QueueFlags.Graphics 1 commandBuffer fence,
            DeviceCall.vkWaitForFences fence,
            DeviceCall.vkDestroyFence fence,
            DeviceCall.vkQueueWaitIdle QueueFlags.Graphics,
            DeviceCall.vkFreeCommandBuffers commandBuffer,
            DeviceCall.vkDestroyBuffer stagingBuffer,
            DeviceCall.vkFreeMemory stagingBufferMemory ]
        ∧ stagingBuffer ≠ vertexBuffer
        ∧ stagingBufferMemory ≠ vertexBufferMemory
        ∧ stagingBuffer ∉ d.buffers
        ∧ (∀ m ∈ d.memories, m.1 ≠ stagingBufferMemory)
        ∧ vertexBuffer ∈ d.buffers
        ∧ (vertexBufferMemory,
            ({ allocationSize := (driver.memoryRequirements
                (bufferCreateInfo vertexBufferSize
                  (VK_BUFFER_USAGE_TRANSFER_DST_BIT ||| VK_BUFFER_USAGE_VERTEX_BUFFER_BIT)
                  VkSharingMode.exclusive)).size
               memoryTypeIndex := vertexType } : VkMemoryAllocateInfo)) ∈ d.memories := by
  constructor
  · rintro hacc ⟨t1, ht1⟩ ⟨t2, ht2⟩
    unfold createVertexBuffer
    rw [createBuffer_done driver _ _ _ _ device t1 (hacc _ _) ht1 (hacc _ _)]
    simp only [Result.andThen]
    rw [createBuffer_done driver _ _ _ _ _ t2 (hacc _ _) ht2 (hacc _ _)]
    simp [Result.andThen, copyBuffer, Device.allocateCommandBuffers,
      Device.beginCommandBufferSubmmitOnce, Device.endCommandBuffer,
      Device.submitToGraphicsQueue, Device.submitToQueue, Device.checked, hacc]
  · intro vertexBuffer vertexBufferMemory d h
    unfold createVertexBuffer at h
    obtain ⟨staging, d1, h1, h⟩ := Result.done_of_andThen h
    obtain ⟨t1, ht1, hs, hb1, hm1, hc1⟩ := createBuffer_eq_done h1
    obtain ⟨vertex, d2, h2, h⟩ := Result.done_of_andThen h
    obtain ⟨t2, ht2, hv, hb2, hm2, hc2⟩ := createBuffer_eq_done h2
    obtain ⟨u, d3, h3, h⟩ := Result.done_of_andThen h
    have hd3 := copyBuffer_eq_done h3
    injection h with hvv hd
    subst hs hv hd3 hd
    injection hvv with hvb hvm
    subst hvb hvm
    refine ⟨device.calls.length, device.calls.length + 2, device.calls.length + 11,
      device.calls.length + 15, t1, t2, findMemoryType_ok_flags _ _ _ _ ht1,
      findMemoryType_ok_flags _ _ _ _ ht2, ?_, ?_, ?_, ?_, ?_, ?_, ?_⟩
    · simp [Device.freeMemory, Device.destroyBuffer, Device.log, hc2, hc1, bufferCreateInfo,
        Nat.add_assoc]
    · simp [Device.log, hc1]
    · simp [Device.log, hc1]
    · simp [Device.freeMemory, Device.destroyBuffer, Device.log, hb2, hb1]
    · intro m hm
      simp only [Device.freeMemory, Device.destroyBuffer, Device.log, List.mem_filter] at hm
      simpa using hm.2
    · simp [Device.freeMemory, Device.destroyBuffer, Device.log, hb2, hb1, hc1]
    · simp [Device.freeMemory, Device.destroyBuffer, Device.log, hm2, hm1, hc1]

/-- C12 on the sample device with a driver that accepts every call: the upload
of 64 bytes returns; the staging buffer is gone and the vertex buffer is live. -/
theorem createVertexBuffer_staging_upload_witness :
    ∃ v d, createVertexBuffer (sampleDeviceDriver fun _ => false) 64 sampleDevice
        = Result.done v d
      ∧ ∃ stagingBuffer, stagingBuffer ≠ v.1 ∧ stagingBuffer ∉ d.buffers ∧ v.1 ∈ d.buffers := by
  obtain ⟨v, d, h⟩ :=
    (createVertexBuffer_staging_upload (sampleDeviceDriver fun _ => false) 64 sampleDevice).1
      (fun _ _ => rfl) ⟨0, rfl⟩ ⟨2, rfl⟩
  obtain ⟨stagingBuffer, _, _, _, _, _, _, _, _, h1, _, h2, _, h3, _⟩ :=
    (createVertexBuffer_staging_upload (sampleDeviceDriver fun _ => false) 64 sampleDevice).2
      v.1 v.2 d h
  exact ⟨v, d, h, stagingBuffer, h1, h2, h3⟩
/-! ## Resource creation helpers and failure -/

/-- C13: for a driver answer other than success, `createSwapChain`,
`createImageView`, `CreateDescriptorPool`, `CreateDescriptorSetLayout` and
`createCommandPool` raise an error, and `createBuffer` raises when the buffer
creation is refused; `CreateDescriptorSet` does not: it returns the handle its
local variable holds, as it does after a success. -/
theorem CreateDescriptorSet_returns_after_failure (created : Created)
    (h : created.result ≠ VK_SUCCESS) :
    createSwapChain created
        = Except.error (VulkanError.runtimeError "Failed to create swap chain")
    ∧ createImageView created
        = Except.error (VulkanError.runtimeError "Failed to create image views!")
    ∧ CreateDescriptorPool created
        = Except.error (VulkanError.runtimeError "Failed to create descriptor pool")
    ∧ CreateDescriptorSetLayout created
        = Except.error (VulkanError.runtimeError "failed to create descriptor set layout!")
    ∧ createCommandPool created
        = Except.error (VulkanError.runtimeError "Failed to create command pool")
    ∧ (∀ (driver : DeviceDriver) (bufferSize allowedUsage : Nat) (sharingMode : VkSharingMode)
        (properties : Nat) (device : Device),
        driver.succeeds device.calls
            (DeviceCall.vkCreateBuffer (bufferCreateInfo bufferSize allowedUsage sharingMode))
          = false →
        ∃ d, createBuffer driver bufferSize allowedUsage sharingMode properties device
          = Result.raised (VulkanError.runtimeError "failed to create buffer!") d)
    ∧ CreateDescriptorSet created = Except.ok created.handle := by
  refine ⟨?_, ?_, ?_, ?_, ?_, ?_, rfl⟩
  · simp [createSwapChain, h]
  · simp [createImageView, h]
  · simp [CreateDescriptorPool, h]
  · simp [CreateDescriptorSetLayout, h]
  · simp [createCommandPool, h]
  · intro driver bufferSize allowedUsage sharingMode properties device h1
    exact ⟨_, createBuffer_create_failed driver bufferSize allowedUsage sharingMode properties
      device h1⟩

/-- C13 at a failed allocation: the driver answers
`VK_ERROR_OUT_OF_POOL_MEMORY` and leaves the null handle; the pool helper
raises on this answer, `CreateDescriptorSet` returns the null handle. -/
theorem CreateDescriptorSet_returns_after_failure_witness :
    CreateDescriptorPool { result := -1000069000, handle := 0 }
        = Except.error (VulkanError.runtimeError "Failed to create descriptor pool")
    ∧ CreateDescriptorSet { result := -1000069000, handle := 0 } = Except.ok 0 :=
  ⟨(CreateDescriptorSet_returns_after_failure { result := -1000069000, handle := 0 }
      (by decide)).2.2.1,
    (CreateDescriptorSet_returns_after_failure { result := -1000069000, handle := 0 }
      (by decide)).2.2.2.2.2.2⟩

/-! ## Swapchain choices -/

theorem chooseSwapPresentModeLoop_spec (modes : List VkPresentModeKHR) :
    ∀ bestMode : VkPresentModeKHR, bestMode ≠ VkPresentModeKHR.mailbox →
      (VkPresentModeKHR.mailbox ∈ modes →
        chooseSwapPresentModeLoop modes bestMode = VkPresentModeKHR.mailbox)
      ∧ (VkPresentModeKHR.mailbox ∉ modes → VkPresentModeKHR.immediate ∈ modes →
        chooseSwapPresentModeLoop modes bestMode = VkPresentModeKHR.immediate)
      ∧ (VkPresentModeKHR.mailbox ∉ modes → VkPresentModeKHR.immediate ∉ modes →
        chooseSwapPresentModeLoop modes bestMode = bestMode) := by
  induction modes with
  | nil => intro bestMode _; simp [chooseSwapPresentModeLoop]
  | cons mode later ih =>
    intro bestMode hbest
    by_cases hm : mode = VkPresentModeKHR.mailbox
    · subst hm
      simp [chooseSwapPresentModeLoop]
    · by_cases hi : mode = VkPresentModeKHR.immediate
      · subst hi
        obtain ⟨h1, h2, h3⟩ := ih VkPresentModeKHR.immediate (by decide)
        simp only [chooseSwapPresentModeLoop, if_true, List.mem_cons]
        refine ⟨fun h => h1 (by simpa using h), fun hn _ => ?_, fun _ hn => ?_⟩
        · have hn' : VkPresentModeKHR.mailbox ∉ later := fun h => hn (Or.inr h)
          by_cases hl : VkPresentModeKHR.immediate ∈ later
          · simpa using h2 hn' hl
          · simpa using h3 hn' hl
        · exact absurd (Or.inl trivial) hn
      · obtain ⟨h1, h2, h3⟩ := ih bestMode hbest
        simp only [chooseSwapPresentModeLoop, hm, hi, if_false, List.mem_cons]
        refine ⟨fun h => h1 ?_, fun hn h => h2 (fun h' => hn (Or.inr h')) ?_,
          fun hn hn2 => h3 (fun h' => hn (Or.inr h')) (fun h' => hn2 (Or.inr h'))⟩
        · rcases h with h | h
          · exact absurd h.symm hm
          · exact h
        · rcases h with h | h
          · exact absurd h.symm hi
          · exact h

/-- C22: what `SwapChainUtils::chooseSwapPresentMode` does.  It returns mailbox
whenever mailbox is in the list; without mailbox it returns immediate whenever
immediate is in the list, also when FIFO is in the list; it returns FIFO only
when neither mailbox nor immediate is in the list.  So immediate ranks before
FIFO, against the order the comments of the source give. -/
theorem chooseSwapPresentMode_prefers_immediate (availablePresentModes : List VkPresentModeKHR) :
    (VkPresentModeKHR.mailbox ∈ availablePresentModes →
      chooseSwapPresentMode availablePresentModes = VkPresentModeKHR.mailbox)
    ∧ (VkPresentModeKHR.mailbox ∉ availablePresentModes →
        VkPresentModeKHR.immediate ∈ availablePresentModes →
      chooseSwapPresentMode availablePresentModes = VkPresentModeKHR.immediate)
    ∧ (VkPresentModeKHR.mailbox ∉ availablePresentModes →
        VkPresentModeKHR.immediate ∉ availablePresentModes →
      chooseSwapPresentMode availablePresentModes = VkPresentModeKHR.fifo) :=
  chooseSwapPresentModeLoop_spec availablePresentModes VkPresentModeKHR.fifo (by decide)

/-- C22 at the list of the claim: FIFO and immediate are available, mailbox is
not, and the result is immediate, not FIFO. -/
theorem chooseSwapPresentMode_prefers_immediate_witness :
    chooseSwapPresentMode [VkPresentModeKHR.fifo, VkPresentModeKHR.immediate]
        = VkPresentModeKHR.immediate
    ∧ chooseSwapPresentMode [VkPresentModeKHR.fifo, VkPresentModeKHR.immediate]
        ≠ VkPresentModeKHR.fifo :=
  ⟨(chooseSwapPresentMode_prefers_immediate
      [VkPresentModeKHR.fifo, VkPresentModeKHR.immediate]).2.1 (by decide) (by decide),
    by decide⟩

/-- C23: for every non-empty list, `SwapChainUtils::chooseSwapSurfaceFormat`
returns a format: the pair (B8G8R8A8_UNORM, SRGB_NONLINEAR) if the list is a
single entry whose format is UNDEFINED; otherwise the first entry equal to that
pair if the list has one; otherwise the first entry of the list.  The result is
the preferred pair or a member of the list. -/
theorem chooseSwapSurfaceFormat_spec (availableFormats : List VkSurfaceFormatKHR)
    (hne : availableFormats ≠ []) :
    ∃ result, chooseSwapSurfaceFormat availableFormats = some result
      ∧ (∀ only, availableFormats = [only] → only.format = VK_FORMAT_UNDEFINED →
          result = preferredSurfaceFormat)
      ∧ (¬ (∃ only, availableFormats = [only] ∧ only.format = VK_FORMAT_UNDEFINED) →
          ∀ front entry back, availableFormats = front ++ entry :: back →
            entry = preferredSurfaceFormat →
            (∀ earlier ∈ front, earlier ≠ entry) →
            result = entry)
      ∧ (¬ (∃ only, availableFormats = [only] ∧ only.format = VK_FORMAT_UNDEFINED) →
          preferredSurfaceFormat
            ∉ availableFormats →
          availableFormats.head? = some result)
      ∧ (result = preferredSurfaceFormat
          ∨ result ∈ availableFormats) := by
  have hpref : ∀ f : VkSurfaceFormatKHR,
      (f.format == VK_FORMAT_B8G8R8A8_UNORM
        && f.colorSpace == VK_COLOR_SPACE_SRGB_NONLINEAR_KHR) = true
      ↔ f = preferredSurfaceFormat := by
    intro f
    cases f
    simp [preferredSurfaceFormat]
  by_cases hsingle : ∃ only, availableFormats = [only] ∧ only.format = VK_FORMAT_UNDEFINED
  · obtain ⟨only, hl, hf⟩ := hsingle
    subst hl
    refine ⟨preferredSurfaceFormat, by simp [chooseSwapSurfaceFormat, hf, preferredSurfaceFormat],
      fun _ _ _ => rfl, ?_, ?_, Or.inl rfl⟩
    · intro hn; exact absurd ⟨only, rfl, hf⟩ hn
    · intro hn; exact absurd ⟨only, rfl, hf⟩ hn
  · have hcond : ¬ (availableFormats.length = 1
        ∧ availableFormats.head?.map (fun f => f.format) = some VK_FORMAT_UNDEFINED) := by
      rintro ⟨hlen, hhead⟩
      match availableFormats, hlen, hhead with
      | [only], _, hhead =>
        exact hsingle ⟨only, rfl, by simpa using hhead⟩
    cases hfind : availableFormats.find? (fun availableFormat =>
        availableFormat.format == VK_FORMAT_B8G8R8A8_UNORM
          && availableFormat.colorSpace == VK_COLOR_SPACE_SRGB_NONLINEAR_KHR) with
    | some found =>
      have hp := List.find?_some hfind
      have hfound := (hpref found).mp hp
      have hmem := List.mem_of_find?_eq_some hfind
      have hres : chooseSwapSurfaceFormat availableFormats = some found := by
        unfold chooseSwapSurfaceFormat
        rw [if_neg hcond]
        simp only [hfind]
      refine ⟨found, hres, ?_, ?_, ?_, Or.inl hfound⟩
      · intro only hl hf
        exact absurd ⟨only, hl, hf⟩ hsingle
      · intro _ front entry back _ hentry _
        rw [hfound, hentry]
      · intro _ hnot
        rw [hfound] at hmem
        exact absurd hmem hnot
    | none =>
      obtain ⟨first, rest, hl⟩ := List.exists_cons_of_ne_nil hne
      subst hl
      have hnone : ∀ f ∈ first :: rest, f ≠ preferredSurfaceFormat := by
        intro f hf heq
        have := List.find?_eq_none.mp hfind f hf
        exact this ((hpref f).mpr heq)
      have hres : chooseSwapSurfaceFormat (first :: rest) = some first := by
        unfold chooseSwapSurfaceFormat
        rw [if_neg hcond]
        simp only [hfind, List.getElem?_cons_zero]
      refine ⟨first, hres, ?_, ?_, ?_, Or.inr (List.mem_cons_self _ _)⟩
      · intro only hl hf
        exact absurd ⟨only, hl, hf⟩ hsingle
      · intro _ front entry back hsplit hentry _
        have hmem : entry ∈ first :: rest := by rw [hsplit]; simp
        exact absurd hentry (hnone entry hmem)
      · intro _ _
        rfl

/-- C23 at a list without the preferred pair: the first entry is returned. -/
theorem chooseSwapSurfaceFormat_spec_witness :
    ∃ result, chooseSwapSurfaceFormat
        [{ format := 37, colorSpace := 0 }, { format := 50, colorSpace := 0 }] = some result
      ∧ (result = preferredSurfaceFormat
          ∨ result ∈ [({ format := 37, colorSpace := 0 } : VkSurfaceFormatKHR),
                      { format := 50, colorSpace := 0 }]) := by
  obtain ⟨result, h, _, _, _, hmem⟩ := chooseSwapSurfaceFormat_spec
    [{ format := 37, colorSpace := 0 }, { format := 50, colorSpace := 0 }] (by simp)
  exact ⟨result, h, hmem⟩

/-- C24: `SwapChainUtils::chooseSwapExtent` returns `currentExtent` unchanged
when its width is not the maximum 32-bit value; otherwise it returns the window
size, converted to 32 bits without sign, with each component clamped as
`max(minImageExtent, min(maxImageExtent, size))`, and then, whenever
`minImageExtent` is at most `maxImageExtent` in both components, the width and
the height returned lie between them, for every window size, negative ones
included. -/
theorem chooseSwapExtent_clamped (capabilities : VkSurfaceCapabilitiesKHR)
    (windowSize : Int × Int) :
    (capabilities.currentExtent.width ≠ UINT32_MAX →
      chooseSwapExtent capabilities windowSize = capabilities.currentExtent)
    ∧ (capabilities.currentExtent.width = UINT32_MAX →
      chooseSwapExtent capabilities windowSize
          = { width := max capabilities.minImageExtent.width
                (min capabilities.maxImageExtent.width (castToUint32 windowSize.1))
              height := max capabilities.minImageExtent.height
                (min capabilities.maxImageExtent.height (castToUint32 windowSize.2)) }
      ∧ (capabilities.minImageExtent.width ≤ capabilities.maxImageExtent.width →
          capabilities.minImageExtent.height ≤ capabilities.maxImageExtent.height →
          capabilities.minImageExtent.width ≤ (chooseSwapExtent capabilities windowSize).width
          ∧ (chooseSwapExtent capabilities windowSize).width
              ≤ capabilities.maxImageExtent.width
          ∧ capabilities.minImageExtent.height
              ≤ (chooseSwapExtent capabilities windowSize).height
          ∧ (chooseSwapExtent capabilities windowSize).height
              ≤ capabilities.maxImageExtent.height))
    ∧ castToUint32 windowSize.1 < 2 ^ 32 ∧ castToUint32 windowSize.2 < 2 ^ 32 := by
  have hcast : ∀ x : Int, castToUint32 x < 2 ^ 32 := by
    intro x
    unfold castToUint32
    have h1 : 0 ≤ x % 2 ^ 32 := Int.emod_nonneg x (by norm_num)
    have h2 : x % 2 ^ 32 < 2 ^ 32 := Int.emod_lt_of_pos x (by norm_num)
    omega
  refine ⟨?_, ?_, hcast _, hcast _⟩
  · intro h
    simp [chooseSwapExtent, h]
  · intro h
    have heq : chooseSwapExtent capabilities windowSize
        = { width := max capabilities.minImageExtent.width
              (min capabilities.maxImageExtent.width (castToUint32 windowSize.1))
            height := max capabilities.minImageExtent.height
              (min capabilities.maxImageExtent.height (castToUint32 windowSize.2)) } := by
      simp [chooseSwapExtent, h]
    refine ⟨heq, ?_⟩
    intro hw hh
    rw [heq]
    simp only
    omega

/-- C24 for a surface that leaves the extent open and a window size reported
as negative: the result is clamped to the largest extent. -/
theorem chooseSwapExtent_clamped_witness :
    chooseSwapExtent
        { currentExtent := { width := UINT32_MAX, height := UINT32_MAX }
          minImageExtent := { width := 1, height := 1 }
          maxImageExtent := { width := 4096, height := 2160 } } (-1, 600)
      = { width := 4096, height := 600 } := by
  have h := (chooseSwapExtent_clamped
    { currentExtent := { width := UINT32_MAX, height := UINT32_MAX }
      minImageExtent := { width := 1, height := 1 }
      maxImageExtent := { width := 4096, height := 2160 } } (-1, 600)).2.1 rfl
  rw [h.1]
  decide

/-! ## Format selection -/

theorem formatQualifies_iff (formatProperties : VkFormatProperties) (tiling features : Nat) :
    formatQualifies formatProperties tiling features = true
      ↔ SupportsFeatures formatProperties tiling features := by
  unfold formatQualifies SupportsFeatures
  rw [Bool.or_eq_true, Bool.and_eq_true, Bool.and_eq_true, beq_iff_eq, beq_iff_eq, beq_iff_eq,
    beq_iff_eq, and_eq_right_iff_flagsSuperset, and_eq_right_iff_flagsSuperset]

theorem findSupportedFormat_ok (properties : Nat → VkFormatProperties)
    (tiling features : Nat) (candidates : List Nat) (format : Nat) :
    findSupportedFormat properties candidates tiling features = Except.ok format
      ↔ ∃ front back, candidates = front ++ format :: back
          ∧ SupportsFeatures (properties format) tiling features
          ∧ ∀ earlier ∈ front, ¬ SupportsFeatures (properties earlier) tiling features := by
  induction candidates with
  | nil =>
    simp only [findSupportedFormat]
    constructor
    · intro h; cases h
    · rintro ⟨front, back, h, _⟩
      exact absurd h (by simp)
  | cons candidate later ih =>
    simp only [findSupportedFormat]
    by_cases hq : formatQualifies (properties candidate) tiling features = true
    · rw [if_pos hq]
      constructor
      · intro h
        injection h with h
        subst h
        exact ⟨[], later, rfl, (formatQualifies_iff _ _ _).mp hq, fun _ h => absurd h (by simp)⟩
      · rintro ⟨front, back, hsplit, hs, hfirst⟩
        cases front with
        | nil =>
          simp only [List.nil_append, List.cons.injEq] at hsplit
          rw [hsplit.1]
        | cons first front =>
          simp only [List.cons_append, List.cons.injEq] at hsplit
          have := hfirst first (List.mem_cons_self _ _)
          rw [← hsplit.1] at this
          exact absurd ((formatQualifies_iff _ _ _).mp hq) this
    · rw [if_neg hq, ih]
      constructor
      · rintro ⟨front, back, hsplit, hs, hfirst⟩
        refine ⟨candidate :: front, back, by rw [hsplit]; rfl, hs, ?_⟩
        intro earlier hmem
        rcases List.mem_cons.mp hmem with h | h
        · rw [h]
          exact fun hsup => hq ((formatQualifies_iff _ _ _).mpr hsup)
        · exact hfirst earlier h
      · rintro ⟨front, back, hsplit, hs, hfirst⟩
        cases front with
        | nil =>
          simp only [List.nil_append, List.cons.injEq] at hsplit
          rw [← hsplit.1] at hs
          exact absurd ((formatQualifies_iff _ _ _).mpr hs) hq
        | cons first front =>
          simp only [List.cons_append, List.cons.injEq] at hsplit
          exact ⟨front, back, hsplit.2, hs,
            fun earlier hmem => hfirst earlier (List.mem_cons_of_mem _ hmem)⟩

theorem findSupportedFormat_error (properties : Nat → VkFormatProperties)
    (tiling features : Nat) (candidates : List Nat) (e : VulkanError) :
    findSupportedFormat properties candidates tiling features = Except.error e
      ↔ e = VulkanError.runtimeError "failed to find supported format!"
          ∧ ∀ candidate ∈ candidates,
              ¬ SupportsFeatures (properties candidate) tiling features := by
  induction candidates with
  | nil =>
    simp only [findSupportedFormat]
    constructor
    · intro h
      injection h with h
      exact ⟨h.symm, fun _ hmem => absurd hmem (by simp)⟩
    · rintro ⟨h, _⟩
      rw [h]
  | cons candidate later ih =>
    simp only [findSupportedFormat]
    by_cases hq : formatQualifies (properties candidate) tiling features = true
    · rw [if_pos hq]
      constructor
      · intro h; cases h
      · rintro ⟨_, h⟩
        exact absurd ((formatQualifies_iff _ _ _).mp hq) (h candidate (List.mem_cons_self _ _))
    · rw [if_neg hq, ih]
      constructor
      · rintro ⟨he, h⟩
        refine ⟨he, fun c hmem => ?_⟩
        rcases List.mem_cons.mp hmem with hc | hc
        · rw [hc]
          exact fun hsup => hq ((formatQualifies_iff _ _ _).mpr hsup)
        · exact h c hc
      · rintro ⟨he, h⟩
        exact ⟨he, fun c hmem => h c (List.mem_cons_of_mem _ hmem)⟩

/-- C25: `FormatUtil::findSupportedFormat` returns a format exactly when it is
the first candidate, in list order, whose features for the requested tiling
contain all requested features; it raises the unsupported-format error exactly
when no candidate qualifies, in particular for an empty list and for a tiling
that is neither linear nor optimal.  `findDepthFormat` returns D32_SFLOAT when
that qualifies, else D32_SFLOAT_S8_UINT when that qualifies, else
D24_UNORM_S8_UINT when that qualifies, and `hasStencilComponent` of its result
is true exactly when the result is not D32_SFLOAT. -/
theorem findSupportedFormat_first_qualifying (properties : Nat → VkFormatProperties)
    (candidates : List Nat) (tiling features : Nat) :
    (∀ format, findSupportedFormat properties candidates tiling features = Except.ok format
      ↔ ∃ front back, candidates = front ++ format :: back
          ∧ SupportsFeatures (properties format) tiling features
          ∧ ∀ earlier ∈ front, ¬ SupportsFeatures (properties earlier) tiling features)
    ∧ (findSupportedFormat properties candidates tiling features
          = Except.error (VulkanError.runtimeError "failed to find supported format!")
        ↔ ∀ candidate ∈ candidates,
            ¬ SupportsFeatures (properties candidate) tiling features)
    ∧ (∀ e, findSupportedFormat properties candidates tiling features = Except.error e →
        e = VulkanError.runtimeError "failed to find supported format!")
    ∧ findSupportedFormat properties [] tiling features
        = Except.error (VulkanError.runtimeError "failed to find supported format!")
    ∧ (tiling ≠ VK_IMAGE_TILING_LINEAR → tiling ≠ VK_IMAGE_TILING_OPTIMAL →
        findSupportedFormat properties candidates tiling features
          = Except.error (VulkanError.runtimeError "failed to find supported format!"))
    ∧ (SupportsFeatures (properties VK_FORMAT_D32_SFLOAT) VK_IMAGE_TILING_OPTIMAL
          VK_FORMAT_FEATURE_DEPTH_STENCIL_ATTACHMENT_BIT →
        findDepthFormat properties = Except.ok VK_FORMAT_D32_SFLOAT)
    ∧ (¬ SupportsFeatures (properties VK_FORMAT_D32_SFLOAT) VK_IMAGE_TILING_OPTIMAL
          VK_FORMAT_FEATURE_DEPTH_STENCIL_ATTACHMENT_BIT →
        SupportsFeatures (properties VK_FORMAT_D32_SFLOAT_S8_UINT) VK_IMAGE_TILING_OPTIMAL
          VK_FORMAT_FEATURE_DEPTH_STENCIL_ATTACHMENT_BIT →
        findDepthFormat properties = Except.ok VK_FORMAT_D32_SFLOAT_S8_UINT)
    ∧ (¬ SupportsFeatures (properties VK_FORMAT_D32_SFLOAT) VK_IMAGE_TILING_OPTIMAL
          VK_FORMAT_FEATURE_DEPTH_STENCIL_ATTACHMENT_BIT →
        ¬ SupportsFeatures (properties VK_FORMAT_D32_SFLOAT_S8_UINT) VK_IMAGE_TILING_OPTIMAL
          VK_FORMAT_FEATURE_DEPTH_STENCIL_ATTACHMENT_BIT →
        SupportsFeatures (properties VK_FORMAT_D24_UNORM_S8_UINT) VK_IMAGE_TILING_OPTIMAL
          VK_FORMAT_FEATURE_DEPTH_STENCIL_ATTACHMENT_BIT →
        findDepthFormat properties = Except.ok VK_FORMAT_D24_UNORM_S8_UINT)
    ∧ (∀ format, findDepthFormat properties = Except.ok format →
        (hasStencilComponent format = true ↔ format ≠ VK_FORMAT_D32_SFLOAT)) := by
  refine ⟨fun format => findSupportedFormat_ok properties tiling features candidates format,
    ?_, ?_, rfl, ?_, ?_, ?_, ?_, ?_⟩
  · rw [findSupportedFormat_error]
    simp
  · intro e h
    exact ((findSupportedFormat_error properties tiling features candidates e).mp h).1
  · intro hl ho
    rw [findSupportedFormat_error]
    refine ⟨rfl, fun c _ hs => ?_⟩
    rcases hs with ⟨h, _⟩ | ⟨h, _⟩
    · exact hl h
    · exact ho h
  · intro h1
    simp [findDepthFormat, findSupportedFormat, (formatQualifies_iff _ _ _).mpr h1]
  · intro h1 h2
    have n1 : ¬ formatQualifies (properties VK_FORMAT_D32_SFLOAT) VK_IMAGE_TILING_OPTIMAL
        VK_FORMAT_FEATURE_DEPTH_STENCIL_ATTACHMENT_BIT = true :=
      fun h => h1 ((formatQualifies_iff _ _ _).mp h)
    simp [findDepthFormat, findSupportedFormat, n1, (formatQualifies_iff _ _ _).mpr h2]
  · intro h1 h2 h3
    have n1 : ¬ formatQualifies (properties VK_FORMAT_D32_SFLOAT) VK_IMAGE_TILING_OPTIMAL
        VK_FORMAT_FEATURE_DEPTH_STENCIL_ATTACHMENT_BIT = true :=
      fun h => h1 ((formatQualifies_iff _ _ _).mp h)
    have n2 : ¬ formatQualifies (properties VK_FORMAT_D32_SFLOAT_S8_UINT)
        VK_IMAGE_TILING_OPTIMAL VK_FORMAT_FEATURE_DEPTH_STENCIL_ATTACHMENT_BIT = true :=
      fun h => h2 ((formatQualifies_iff _ _ _).mp h)
    simp [findDepthFormat, findSupportedFormat, n1, n2, (formatQualifies_iff _ _ _).mpr h3]
  · intro format h
    unfold findDepthFormat at h
    obtain ⟨front, back, hsplit, _, _⟩ :=
      (findSupportedFormat_ok properties _ _ _ format).mp h
    have hmem : format ∈ [VK_FORMAT_D32_SFLOAT, VK_FORMAT_D32_SFLOAT_S8_UINT,
        VK_FORMAT_D24_UNORM_S8_UINT] := by
      rw [hsplit]; simp
    simp only [List.mem_cons, List.mem_singleton, List.not_mem_nil, or_false] at hmem
    rcases hmem with h | h | h <;> subst h <;> decide

/-- C25 on a device that supports the depth-stencil feature for
D24_UNORM_S8_UINT only: that format is found and it has a stencil component. -/
theorem findSupportedFormat_first_qualifying_witness :
    findDepthFormat (fun format =>
        if format = VK_FORMAT_D24_UNORM_S8_UINT then
          { linearTilingFeatures := 0, optimalTilingFeatures := 0x200, bufferFeatures := 0 }
        else { linearTilingFeatures := 0, optimalTilingFeatures := 0, bufferFeatures := 0 })
      = Except.ok VK_FORMAT_D24_UNORM_S8_UINT
    ∧ hasStencilComponent VK_FORMAT_D24_UNORM_S8_UINT = true := by
  have h : findDepthFormat (fun format =>
        if format = VK_FORMAT_D24_UNORM_S8_UINT then
          { linearTilingFeatures := 0, optimalTilingFeatures := 0x200, bufferFeatures := 0 }
        else { linearTilingFeatures := 0, optimalTilingFeatures := 0, bufferFeatures := 0 })
      = Except.ok VK_FORMAT_D24_UNORM_S8_UINT := rfl
  exact ⟨h, ((findSupportedFormat_first_qualifying _ [] 0 0).2.2.2.2.2.2.2.2
    VK_FORMAT_D24_UNORM_S8_UINT h).mpr (by decide)⟩

/-! ## Pipeline barriers -/

/-- C26: what `VulkanCommandUtil::pipelineBarrier` records.  The masks, the
flags, the three arrays, the buffer-memory-barrier count and the
image-memory-barrier count are the arguments of the same name; the
memory-barrier count recorded is the argument `bufferMemoryBarrierCount`, so it
equals the argument `memoryBarrierCount` only when the two counts agree. -/
theorem pipelineBarrier_memory_count (srcStageMask dstStageMask dependencyFlags : Nat)
    (memoryBarrierCount : Nat) (pMemoryBarriers : List Nat)
    (bufferMemoryBarrierCount : Nat) (pBufferMemoryBarriers : List Nat)
    (imageMemoryBarrierCount : Nat) (pImageMemoryBarriers : List Nat) :
    (pipelineBarrier srcStageMask dstStageMask dependencyFlags memoryBarrierCount
        pMemoryBarriers bufferMemoryBarrierCount pBufferMemoryBarriers imageMemoryBarrierCount
        pImageMemoryBarriers)
      = { srcStageMask := srcStageMask
          dstStageMask := dstStageMask
          dependencyFlags := dependencyFlags
          memoryBarrierCount := bufferMemoryBarrierCount
          pMemoryBarriers := pMemoryBarriers
          bufferMemoryBarrierCount := bufferMemoryBarrierCount
          pBufferMemoryBarriers := pBufferMemoryBarriers
          imageMemoryBarrierCount := imageMemoryBarrierCount
          pImageMemoryBarriers := pImageMemoryBarriers }
    ∧ ((pipelineBarrier srcStageMask dstStageMask dependencyFlags memoryBarrierCount
          pMemoryBarriers bufferMemoryBarrierCount pBufferMemoryBarriers
          imageMemoryBarrierCount pImageMemoryBarriers).memoryBarrierCount
        = memoryBarrierCount ↔ bufferMemoryBarrierCount = memoryBarrierCount) :=
  ⟨rfl, Iff.rfl⟩

/-- C26 at one memory barrier and no buffer memory barrier: the command
recorded announces no memory barrier. -/
theorem pipelineBarrier_memory_count_witness :
    (pipelineBarrier 0x1 0x80 0 1 [7] 0 [] 0 []).memoryBarrierCount = 0
    ∧ (pipelineBarrier 0x1 0x80 0 1 [7] 0 [] 0 []).memoryBarrierCount ≠ 1 :=
  ⟨congrArg VkCmdPipelineBarrier.memoryBarrierCount
      (pipelineBarrier_memory_count 0x1 0x80 0 1 [7] 0 [] 0 []).1,
    by decide⟩

/-! ## Queue tables -/

/-- C30: with `sizeof(QueueFlags)` being 4, each of the tables `Queues` and
`QueueFamilyIndices` and the bitset `QueueFlagBits` has at least as many slots
as `QueueFlags` has enumerators, so `getQueue` and `getQueueIndex` read inside
their array for every flag, and every bit position given by a flag is inside
the bitset; a table of `size` slots is indexed in bounds by every flag exactly
when `size` is at least 4; and every `QueueFlagBit` is 1 shifted left by the
value of its `QueueFlags` enumerator. -/
theorem queue_tables_in_bounds (m_queues : List Nat) (m_queueFamilyIndices : List Int)
    (hq : m_queues.length = sizeofQueueFlags)
    (hi : m_queueFamilyIndices.length = sizeofQueueFlags) :
    (∀ flag : QueueFlags, flag.toNat < sizeofQueueFlags)
    ∧ (∀ flag : QueueFlags, ∃ queue, getQueue m_queues flag = some queue)
    ∧ (∀ flag : QueueFlags, ∃ index, getQueueIndex m_queueFamilyIndices flag = some index)
    ∧ (∀ size : Nat, (∀ flag : QueueFlags, flag.toNat < size) ↔ 4 ≤ size)
    ∧ (∀ flag : QueueFlags, flag.bit.toNat = 1 <<< flag.toNat)
    ∧ (∀ bit : QueueFlagBit, ∃ flag : QueueFlags, flag.bit = bit) := by
  have hlt : ∀ flag : QueueFlags, flag.toNat < 4 := by
    intro flag; cases flag <;> decide
  refine ⟨hlt, ?_, ?_, ?_, ?_, ?_⟩
  · intro flag
    have : flag.toNat < m_queues.length := by rw [hq]; exact hlt flag
    exact ⟨m_queues[flag.toNat], by simp [getQueue, this]⟩
  · intro flag
    have : flag.toNat < m_queueFamilyIndices.length := by rw [hi]; exact hlt flag
    exact ⟨castToUint32 m_queueFamilyIndices[flag.toNat], by simp [getQueueIndex, this]⟩
  · intro size
    constructor
    · intro h
      have := h QueueFlags.Present
      simp only [QueueFlags.toNat] at this
      omega
    · intro h flag
      have := hlt flag
      omega
  · intro flag; cases flag <;> rfl
  · intro bit
    cases bit
    · exact ⟨QueueFlags.Graphics, rfl⟩
    · exact ⟨QueueFlags.Compute, rfl⟩
    · exact ⟨QueueFlags.Transfer, rfl⟩
    · exact ⟨QueueFlags.Present, rfl⟩

/-- C30 at concrete tables: the present queue is read from slot 3. -/
theorem queue_tables_in_bounds_witness :
    getQueue [10, 11, 12, 13] QueueFlags.Present = some 13
    ∧ ∃ index, getQueueIndex [0, 0, 1, 2] QueueFlags.Present = some index :=
  ⟨rfl, (queue_tables_in_bounds [10, 11, 12, 13] [0, 0, 1, 2] rfl rfl).2.2.1
    QueueFlags.Present⟩

/-! ### Descriptor routing of the scene -/

theorem vectorAt_of_lt {α : Type} (v : List α) (index : Nat) (h : index < v.length) :
    vectorAt v (index : Int) = some (v.get ⟨index, h⟩) := by
  simp [vectorAt, List.getElem?_eq_getElem h]

theorem Scene.getModel_error_iff {F : Type} (scene : Scene F) (key : String) :
    scene.getModel key
        = Except.error (VulkanError.runtimeError "failed to find the model specified")
      ↔ ∀ entry ∈ scene.m_modelMap, entry.1 ≠ key := by
  unfold Scene.getModel
  cases hfind : scene.m_modelMap.find? (fun entry => entry.1 == key) with
  | none =>
    simp only [true_iff]
    intro entry hmem
    have := List.find?_eq_none.mp hfind entry hmem
    simpa using this
  | some found =>
    have hp := List.find?_some hfind
    have hmem := List.mem_of_find?_eq_some hfind
    constructor
    · intro h
      cases h
    · intro h
      exact absurd (by simpa using hp) (h found hmem)

/-- Claim C21.  `Scene::getDescriptorSetLayout` returns the layout of the model
owner, of the compute owner and of the time owner for the tags MODEL, COMPUTE
and TIME, and `Scene::getDescriptorSet` returns the descriptor set at the
requested index of the owner's per-frame list (of the model stored under the
key, for MODEL): for an index below the length of that list the result is the
element at that index.  For each of the tags CAMERA, RAYTRACE,
POST_PROCESS_COMMON and POST_PROCESS_SPECIFIC both operations raise the error
of the `default` label, and `getDescriptorSet` with tag MODEL raises the error
of `getModel` exactly when no model is stored under the key. -/
theorem scene_descriptor_routing {F : Type} (scene : Scene F) (index : Int) (key : String) :
    scene.getDescriptorSetLayout DSL_TYPE.MODEL = Except.ok scene.m_DSL_model
    ∧ scene.getDescriptorSetLayout DSL_TYPE.COMPUTE = Except.ok scene.m_DSL_compute
    ∧ scene.getDescriptorSetLayout DSL_TYPE.TIME = Except.ok scene.m_DSL_time
    ∧ scene.getDescriptorSet DSL_TYPE.COMPUTE index key
        = Except.ok (vectorAt scene.m_DS_compute index)
    ∧ scene.getDescriptorSet DSL_TYPE.TIME index key
        = Except.ok (vectorAt scene.m_DS_time index)
    ∧ (∀ model, scene.getModel key = Except.ok model →
        scene.getDescriptorSet DSL_TYPE.MODEL index key
          = Except.ok (vectorAt model.m_DS_model index))
    ∧ (∀ (frame : Nat) (h : frame < scene.m_DS_compute.length),
        scene.getDescriptorSet DSL_TYPE.COMPUTE (frame : Int) key
          = Except.ok (some (scene.m_DS_compute.get ⟨frame, h⟩)))
    ∧ (∀ (frame : Nat) (h : frame < scene.m_DS_time.length),
        scene.getDescriptorSet DSL_TYPE.TIME (frame : Int) key
          = Except.ok (some (scene.m_DS_time.get ⟨frame, h⟩)))
    ∧ (∀ model (frame : Nat) (h : frame < model.m_DS_model.length),
        (key, model) ∈ scene.m_modelMap →
        (∀ other, (key, other) ∈ scene.m_modelMap → other = model) →
        scene.getDescriptorSet DSL_TYPE.MODEL (frame : Int) key
          = Except.ok (some (model.m_DS_model.get ⟨frame, h⟩)))
    ∧ (∀ tag, tag ≠ DSL_TYPE.MODEL → tag ≠ DSL_TYPE.COMPUTE → tag ≠ DSL_TYPE.TIME →
        scene.getDescriptorSetLayout tag
            = Except.error (VulkanError.runtimeError
                "no such Descriptor Set Layout Type (DSL_TYPE) exists")
          ∧ scene.getDescriptorSet tag index key
            = Except.error (VulkanError.runtimeError
                "no such Descriptor Set Layout Type (DSL_TYPE) exists"))
    ∧ (∀ tag, tag = DSL_TYPE.CAMERA ∨ tag = DSL_TYPE.RAYTRACE
          ∨ tag = DSL_TYPE.POST_PROCESS_COMMON ∨ tag = DSL_TYPE.POST_PROCESS_SPECIFIC ↔
        tag ≠ DSL_TYPE.MODEL ∧ tag ≠ DSL_TYPE.COMPUTE ∧ tag ≠ DSL_TYPE.TIME)
    ∧ ((∀ entry ∈ scene.m_modelMap, entry.1 ≠ key) ↔
        scene.getDescriptorSet DSL_TYPE.MODEL index key
          = Except.error (VulkanError.runtimeError "failed to find the model specified")) := by
  refine ⟨rfl, rfl, rfl, rfl, rfl, ?_, ?_, ?_, ?_, ?_, ?_, ?_⟩
  · intro model hmodel
    simp only [Scene.getDescriptorSet, hmodel]
  · intro frame h
    simp only [Scene.getDescriptorSet, vectorAt_of_lt _ _ h]
  · intro frame h
    simp only [Scene.getDescriptorSet, vectorAt_of_lt _ _ h]
  · intro model frame h hmem huniq
    have hget : scene.getModel key = Except.ok model := by
      unfold Scene.getModel
      cases hfind : scene.m_modelMap.find? (fun entry => entry.1 == key) with
      | none =>
        have := List.find?_eq_none.mp hfind (key, model) hmem
        simp at this
      | some found =>
        have hp := List.find?_some hfind
        have hm := List.mem_of_find?_eq_some hfind
        have hk : found.1 = key := by simpa using hp
        have : found.2 = model := huniq found.2 (by rw [← hk]; exact hm)
        simp only [this]
    simp only [Scene.getDescriptorSet, hget, vectorAt_of_lt _ _ h]
  · intro tag h1 h2 h3
    cases tag with
    | MODEL => exact absurd rfl h1
    | COMPUTE => exact absurd rfl h2
    | TIME => exact absurd rfl h3
    | CAMERA => exact ⟨rfl, rfl⟩
    | RAYTRACE => exact ⟨rfl, rfl⟩
    | POST_PROCESS_COMMON => exact ⟨rfl, rfl⟩
    | POST_PROCESS_SPECIFIC => exact ⟨rfl, rfl⟩
  · intro tag
    cases tag <;> simp
  · rw [← Scene.getModel_error_iff]
    constructor
    · intro h
      simp only [Scene.getDescriptorSet, h]
    · intro h
      simp only [Scene.getDescriptorSet] at h
      cases hget : scene.getModel key with
      | ok model => simp only [hget] at h; cases h
      | error e =>
        simp only [hget] at h
        rw [Except.error.inj h]

/-! ### Creation of a command buffer -/

/-- Claim C28.  `VulkanCommandUtil::createCommandBuffer` makes one allocation
call, for exactly one command buffer, and that call always asks for the level
`VK_COMMAND_BUFFER_LEVEL_PRIMARY`: the `level` argument has no effect on the
result, and with `level` secondary no secondary command buffer is allocated.
After a successful allocation the buffer is begun with the given usage flags
if and only if `begin` is set; a failed allocation raises before any begin. -/
theorem createCommandBuffer_ignores_level (driver : DeviceDriver)
    (level : VkCommandBufferLevel) (begin : Bool) (flags : Nat) (device : Device) :
    (device.createCommandBuffer driver level begin flags).device.calls
        = device.calls
          ++ DeviceCall.vkAllocateCommandBuffers VkCommandBufferLevel.primary 1
          :: (if driver.succeeds device.calls
                  (DeviceCall.vkAllocateCommandBuffers VkCommandBufferLevel.primary 1) = true
                ∧ begin = true
              then [DeviceCall.vkBeginCommandBuffer device.calls.length flags] else [])
    ∧ device.createCommandBuffer driver level begin flags
        = device.createCommandBuffer driver VkCommandBufferLevel.primary begin flags
    ∧ DeviceCall.vkAllocateCommandBuffers VkCommandBufferLevel.secondary 1
        ∉ ((device.createCommandBuffer driver VkCommandBufferLevel.secondary begin
            flags).device.calls.drop device.calls.length) := by
  have hcalls : ∀ level : VkCommandBufferLevel,
      (device.createCommandBuffer driver level begin flags).device.calls
        = device.calls
          ++ DeviceCall.vkAllocateCommandBuffers VkCommandBufferLevel.primary 1
          :: (if driver.succeeds device.calls
                  (DeviceCall.vkAllocateCommandBuffers VkCommandBufferLevel.primary 1) = true
                ∧ begin = true
              then [DeviceCall.vkBeginCommandBuffer device.calls.length flags] else []) := by
    intro level
    unfold Device.createCommandBuffer Device.allocateCommandBuffers Device.checked
    by_cases hs : driver.succeeds device.calls
        (DeviceCall.vkAllocateCommandBuffers VkCommandBufferLevel.primary 1) = true
    · cases begin
      · simp [hs, Result.andThen, Result.device, Device.log]
      · simp only [hs, if_true, Result.andThen, Device.log]
        split_ifs <;> simp_all [Result.andThen, Result.device, Device.log]
    · simp [hs, Result.andThen, Result.device, Device.log]
  refine ⟨hcalls level, rfl, ?_⟩
  rw [hcalls, List.drop_left]
  split_ifs <;> simp

/-- The claim C28 theorem at a driver that accepts every call, for a secondary
command buffer that is begun with the flags 1: the calls are the allocation of
a primary command buffer and its begin. -/
theorem createCommandBuffer_ignores_level_witness :
    (sampleDevice.createCommandBuffer (sampleDeviceDriver fun _ => false)
        VkCommandBufferLevel.secondary true 1).device.calls
      = [DeviceCall.vkAllocateCommandBuffers VkCommandBufferLevel.primary 1,
         DeviceCall.vkBeginCommandBuffer 0 1] :=
  (createCommandBuffer_ignores_level (sampleDeviceDriver fun _ => false)
    VkCommandBufferLevel.secondary true 1 sampleDevice).1

/-- The claim C21 theorem on the sample scene: frame 1 of the model `house` is
its descriptor set 8. -/
theorem scene_descriptor_routing_witness :
    sampleRoutedScene.getDescriptorSet DSL_TYPE.MODEL 1 "house" = Except.ok (some 8) :=
  (scene_descriptor_routing sampleRoutedScene 1 "house").2.2.2.2.2.2.2.2.1
    { m_uboCount := 1, m_numSwapChainImages := 2, m_DS_model := [7, 8] } 1 (by decide)
    (by simp [sampleRoutedScene]) (by simp [sampleRoutedScene])

/-! ### The time block under initialisation and updates -/

theorem Scene.initializeTimeUBO_block {F : Type} (zero : F) (add : F → F → F)
    (haltonSequenceAt : Nat → Nat → F) (i : Nat) (scene : Scene F) (before : TimeUBO F)
    (memory : Option Nat) (hubo : scene.m_timeUBOs[i]? = some before)
    (hmem : scene.m_timeBufferMemories[i]? = some memory) :
    ∃ block, (Scene.initializeTimeUBO zero add haltonSequenceAt i scene).m_timeUBOs[i]?
        = some block
      ∧ block.frameCount = 0 ∧ block.time_x = zero ∧ block.time_y = add before.time_y zero := by
  have hlt : i < scene.m_timeUBOs.length := by
    by_contra hge
    rw [List.getElem?_eq_none (by omega)] at hubo
    cases hubo
  simp only [Scene.initializeTimeUBO, hubo, hmem, memcpyTimeUBO_timeUBOs]
  exact ⟨_, List.getElem?_set_self hlt, rfl, rfl, rfl⟩

theorem Scene.updateTimeUBO_block {F : Type} (add : F → F → F) (deltaTime : F) (i : Nat)
    (scene : Scene F) (ubo : TimeUBO F) (hubo : scene.m_timeUBOs[i]? = some ubo) :
    (Scene.updateTimeUBO add deltaTime i scene).m_timeUBOs[i]?
      = some (ubo.updated add deltaTime) := by
  have hlt : i < scene.m_timeUBOs.length := by
    by_contra hge
    rw [List.getElem?_eq_none (by omega)] at hubo
    cases hubo
  simp only [Scene.updateTimeUBO, hubo, memcpyTimeUBO_timeUBOs]
  rw [List.getElem?_set_self hlt]
  rfl

theorem TimeUBO.foldl_updated {F : Type} (add : F → F → F) (deltas : List F) :
    ∀ ubo : TimeUBO F,
      (deltas.foldl (fun ubo deltaTime => ubo.updated add deltaTime) ubo).time_y
          = deltas.foldl add ubo.time_y
        ∧ (deltas.foldl (fun ubo deltaTime => ubo.updated add deltaTime) ubo).time_x
          = deltas.getLast?.getD ubo.time_x
        ∧ (deltas.foldl (fun ubo deltaTime => ubo.updated add deltaTime) ubo).frameCount % 16
          = (ubo.frameCount + deltas.length) % 16
        ∧ (ubo.frameCount < 16 →
          (deltas.foldl (fun ubo deltaTime => ubo.updated add deltaTime) ubo).frameCount < 16) := by
  induction deltas with
  | nil => intro ubo; exact ⟨rfl, rfl, rfl, fun h => h⟩
  | cons d rest ih =>
    intro ubo
    obtain ⟨hy, hx, hc, hlt⟩ := ih (ubo.updated add d)
    simp only [List.foldl_cons]
    refine ⟨hy, ?_, ?_, fun _ => hlt (Nat.mod_lt _ (by decide))⟩
    · rw [hx]
      cases rest with
      | nil => rfl
      | cons e later =>
        rw [List.getLast?_cons_cons, List.getLast?_eq_getLast _ (List.cons_ne_nil e later)]
        rfl
    · rw [hc]
      simp only [TimeUBO.updated, List.length_cons]
      omega

theorem Scene.initializeTimeUBO_other {F : Type} (zero : F) (add : F → F → F)
    (haltonSequenceAt : Nat → Nat → F) (i j : Nat) (scene : Scene F) (hj : j ≠ i) :
    (Scene.initializeTimeUBO zero add haltonSequenceAt i scene).m_timeUBOs[j]?
      = scene.m_timeUBOs[j]? := by
  unfold Scene.initializeTimeUBO
  split
  · simp only [memcpyTimeUBO_timeUBOs]
    exact List.getElem?_set_ne (Ne.symm hj)
  · rfl

theorem Scene.initializeTimeUBO_lengths {F : Type} (zero : F) (add : F → F → F)
    (haltonSequenceAt : Nat → Nat → F) (i : Nat) (scene : Scene F) :
    (Scene.initializeTimeUBO zero add haltonSequenceAt i scene).m_timeUBOs.length
        = scene.m_timeUBOs.length
      ∧ (Scene.initializeTimeUBO zero add haltonSequenceAt i scene).m_timeBufferMemories
        = scene.m_timeBufferMemories := by
  unfold Scene.initializeTimeUBO
  split
  · simp
  · exact ⟨rfl, rfl⟩

theorem Scene.updateTimeUBO_other {F : Type} (add : F → F → F) (deltaTime : F) (i j : Nat)
    (scene : Scene F) (hj : j ≠ i) :
    (Scene.updateTimeUBO add deltaTime i scene).m_timeUBOs[j]? = scene.m_timeUBOs[j]? := by
  unfold Scene.updateTimeUBO
  split
  · simp only [memcpyTimeUBO_timeUBOs]
    exact List.getElem?_set_ne (Ne.symm hj)
  · rfl

theorem Scene.createUniformBuffers_timeUBOs {F : Type} (n : Nat) (scene : Scene F) :
    (Scene.createUniformBuffers n scene).m_timeUBOs = scene.m_timeUBOs
      ∧ (Scene.createUniformBuffers n scene).m_timeBufferMemories.length
        = scene.m_timeBufferMemories.length := by
  unfold Scene.createUniformBuffers
  exact foldl_range_induction
    (fun _ (s : Scene F) => s.m_timeUBOs = scene.m_timeUBOs
      ∧ s.m_timeBufferMemories.length = scene.m_timeBufferMemories.length)
    (fun scene i => { scene with
      m_timeBuffers := scene.m_timeBuffers.set i (some i)
      m_timeBufferMemories := scene.m_timeBufferMemories.set i (some i) })
    scene n ⟨rfl, rfl⟩ (fun k s _ hs => ⟨hs.1, by simp [hs.2]⟩)

theorem Scene.construct_block {F : Type} (zero : F) (add : F → F → F)
    (haltonSequenceAt : Nat → Nat → F) (blank : TimeUBO F) (n uboCount i : Nat) (hi : i < n) :
    ∃ block, (Scene.construct zero add haltonSequenceAt blank n uboCount).m_timeUBOs[i]?
        = some block
      ∧ block.frameCount = 0 ∧ block.time_x = zero ∧ block.time_y = add blank.time_y zero := by
  unfold Scene.construct
  simp only []
  generalize hs0 :
    ({ m_numSwapChainImages := n, m_timeBuffers := resize [] n none,
       m_timeBufferMemories := resize [] n none, m_timeUBOs := resize [] n blank,
       m_mappedDataTimeBuffers := resize [] n none, m_modelMap := [], m_textureMap := [],
       mappedMemory := fun _ => none } : Scene F) = s0
  have hubos0 : s0.m_timeUBOs = List.replicate n blank := by
    subst hs0
    simp [resize]
  have hmem0 : s0.m_timeBufferMemories.length = n := by
    subst hs0
    exact length_resize _ _ _
  obtain ⟨hu1, hm1⟩ := Scene.createUniformBuffers_timeUBOs n s0
  generalize Scene.createUniformBuffers n s0 = s1 at hu1 hm1
  have h2 := foldl_range_induction
    (fun k (s : Scene F) => s.m_timeUBOs.length = n ∧ s.m_timeBufferMemories.length = n
      ∧ ∀ j, j < n →
        (j < k → ∃ block, s.m_timeUBOs[j]? = some block
          ∧ block.frameCount = 0 ∧ block.time_x = zero
          ∧ block.time_y = add blank.time_y zero)
        ∧ (k ≤ j → s.m_timeUBOs[j]? = some blank))
    (fun scene i => Scene.initializeTimeUBO zero add haltonSequenceAt i scene) s1 n
    ⟨by rw [hu1, hubos0]; simp, by rw [hm1, hmem0],
      fun j hj => ⟨fun h => absurd h (Nat.not_lt_zero j),
        fun _ => by rw [hu1, hubos0]; simp [hj]⟩⟩
    (by
      intro k s hk ⟨hlen, hmem, hblocks⟩
      obtain ⟨g1, g2⟩ := Scene.initializeTimeUBO_lengths zero add haltonSequenceAt k s
      refine ⟨g1.trans hlen, by rw [g2]; exact hmem, ?_⟩
      intro j hj
      by_cases hjk : j = k
      · subst hjk
        refine ⟨fun _ => ?_, fun h => absurd h (by omega)⟩
        exact Scene.initializeTimeUBO_block zero add haltonSequenceAt j s blank
          s.m_timeBufferMemories[j] ((hblocks j hj).2 (Nat.le_refl j))
          (List.getElem?_eq_getElem (by rw [hmem]; exact hj))
      · rw [Scene.initializeTimeUBO_other zero add haltonSequenceAt k j s hjk]
        exact ⟨fun h => (hblocks j hj).1 (by omega), fun h => (hblocks j hj).2 (by omega)⟩)
  generalize (List.range n).foldl
    (fun scene i => Scene.initializeTimeUBO zero add haltonSequenceAt i scene) s1 = s2 at h2
  rw [(createScene_spec uboCount s2).2.2.2.2.1]
  exact (h2.2.2 i hi).1 hi

theorem Scene.foldl_updateTimeUBO_block_at {F : Type} (add : F → F → F) (i : Nat)
    (updates : List (F × Nat)) :
    ∀ (scene : Scene F) (ubo : TimeUBO F), scene.m_timeUBOs[i]? = some ubo →
      (updates.foldl (fun scene u => Scene.updateTimeUBO add u.1 u.2 scene)
          scene).m_timeUBOs[i]?
        = some ((elapsedTimesAt i updates).foldl
            (fun ubo deltaTime => ubo.updated add deltaTime) ubo) := by
  induction updates with
  | nil => intro scene ubo h; exact h
  | cons u rest ih =>
    intro scene ubo h
    simp only [List.foldl_cons]
    by_cases hu : u.2 = i
    · have hstep := Scene.updateTimeUBO_block add u.1 i scene ubo h
      rw [← hu] at hstep
      have := ih _ _ (by rw [← hu]; exact hstep)
      rw [this]
      simp [elapsedTimesAt, List.filter_cons, hu]
    · have hstep : (Scene.updateTimeUBO add u.1 u.2 scene).m_timeUBOs[i]? = some ubo := by
        rw [Scene.updateTimeUBO_other add u.1 u.2 i scene (fun h => hu h.symm)]
        exact h
      rw [ih _ _ hstep]
      simp [elapsedTimesAt, List.filter_cons, hu]

/-- Claim C29.  In the scene the constructor builds for `n` swapchain images,
where `initializeTimeUBO(i)` has run for every index on the value-initialised
blocks of the resized vector, and after any sequence of `updateTimeUBO` calls,
for any indices: for every index `i` below `n`, with `k` the number of those
calls made for index `i`, time block `i` has the frame counter `k mod 16`,
which is below 16, `time.x` is the elapsed time of the last of these calls
(zero if there was none), and `time.y` is the sum, taken in call order from
zero, of the elapsed times of these `k` calls.  A value-initialised block holds
zero in `time.y`, and zero plus zero is zero. -/
theorem time_block_after_updates {F : Type} (zero : F) (add : F → F → F)
    (haltonSequenceAt : Nat → Nat → F) (blank : TimeUBO F) (n uboCount : Nat)
    (updates : List (F × Nat)) (i : Nat) (hi : i < n)
    (hblank : blank.time_y = zero) (hzero : add zero zero = zero) :
    ∃ block,
      (updates.foldl (fun scene u => Scene.updateTimeUBO add u.1 u.2 scene)
          (Scene.construct zero add haltonSequenceAt blank n uboCount)).m_timeUBOs[i]?
        = some block
      ∧ block.frameCount = (elapsedTimesAt i updates).length % 16
      ∧ block.frameCount < 16
      ∧ block.time_x = (elapsedTimesAt i updates).getLast?.getD zero
      ∧ block.time_y = (elapsedTimesAt i updates).foldl add zero := by
  obtain ⟨start, hstart, hcount, hx, hy⟩ :=
    Scene.construct_block zero add haltonSequenceAt blank n uboCount i hi
  obtain ⟨hty, htx, htc, htlt⟩ := TimeUBO.foldl_updated add (elapsedTimesAt i updates) start
  have hlt := htlt (by rw [hcount]; decide)
  refine ⟨_, Scene.foldl_updateTimeUBO_block_at add i updates _ start hstart, ?_, hlt, ?_, ?_⟩
  · rw [← Nat.mod_eq_of_lt hlt, htc, hcount, Nat.zero_add]
  · rw [htx, hx]
  · rw [hty, hy, hblank, hzero]

/-- The claim C29 theorem on the sample scene for two images: after the elapsed
times 3 and 4 for index 0, with an update of index 1 in between, the frame
counter of block 0 is 2 and its accumulated time is 7. -/
theorem time_block_after_updates_witness :
    ∃ block,
      (([(3, 0), (9, 1), (4, 0)] : List (Int × Nat)).foldl
          (fun scene u => Scene.updateTimeUBO (fun a b => a + b) u.1 u.2 scene)
          (sampleScene 2)).m_timeUBOs[0]?
        = some block
      ∧ block.frameCount = 2 ∧ block.time_x = 4 ∧ block.time_y = 7 := by
  obtain ⟨block, hblock, hcount, _, hx, hy⟩ :=
    time_block_after_updates (0 : Int) (fun a b => a + b)
      (fun index base => (index : Int) * base)
      { time_x := 0, time_y := 0, haltonSeq1 := (0, 0, 0, 0), haltonSeq2 := (0, 0, 0, 0),
        haltonSeq3 := (0, 0, 0, 0), haltonSeq4 := (0, 0, 0, 0), frameCount := 0 } 2 1
      [(3, 0), (9, 1), (4, 0)] 0 (by decide) rfl rfl
  exact ⟨block, hblock, hcount, hx, hy⟩

/-! ### The per-image lists after `initialize` and `recreate` -/

theorem renderLoop_eq_acquire_submit (driver : Driver) (input : FrameInput) (r : Renderer) :
    renderLoop driver input r
      = (renderLoopAcquire driver input r).andThen
          (renderLoopSubmit driver input r.presentation.getInFlightFence) := rfl

end ShaderPlayGround
